import Mathlib

/-!
Verification of the adaptive Cartesian leaf-grid refinement engine
(`CartLeafGrid` in `src/porepy/grids/leaf_grid.py`).

The numpy / scipy.sparse computations of the source are embedded as
executable Lean definitions:

* sparse 0/1 and signed incidence matrices become `SpMat`, a matrix given
  by explicit row/column counts and an entry function (entries vanish
  outside the declared index ranges);
* numpy boolean arrays become `Nat → Bool` functions together with the
  explicit length over which the source array is defined;
* Python exceptions (`ValueError` for the level-gap check, `IndexError`
  for list accesses past the end of `level_grids` / `mesh_sizes`) become
  `Except String` results.

The base class `pp.CartGrid` (file `structured.py`) is not part of the
sources; its attribute contract is modelled from the specification
(section 6 of the spec) as `CartGrid2D` below.
-/

/-- `if b then 1 else 0`, the coercion numpy applies when a boolean array
takes part in integer arithmetic. -/
def b2i (b : Bool) : Int := if b then 1 else 0

/-- Sum of `f 0 + f 1 + ... + f (n-1)`, the scalar accumulation inside a
sparse matrix-vector or matrix-matrix product. -/
def isum (n : Nat) (f : Nat → Int) : Int := ((List.range n).map f).sum

/-- A sparse matrix of the source, embedded with its shape and its
materialized entries (scipy sparse matrices store their data eagerly;
a missing entry reads as 0). -/
structure SpMat where
  rows : Nat
  cols : Nat
  data : List (List Int)
deriving DecidableEq

/-- Entry `A[i, j]` (0 outside the stored data). -/
def SpMat.entry (A : SpMat) (i j : Nat) : Int := (A.data.getD i []).getD j 0

/-- Build a matrix of the given shape from an entry function. -/
def SpMat.ofFun (r c : Nat) (f : Nat → Nat → Int) : SpMat :=
  ⟨r, c, (List.range r).map (fun i => (List.range c).map (fun j => f i j))⟩

/-- Matrix transpose (`.T`). -/
def SpMat.transpose (A : SpMat) : SpMat :=
  SpMat.ofFun A.cols A.rows (fun i j => A.entry j i)

/-- Matrix product (`*` between scipy sparse matrices). -/
def SpMat.mul (A B : SpMat) : SpMat :=
  SpMat.ofFun A.rows B.cols
    (fun i j => isum A.cols (fun k => A.entry i k * B.entry k j))

/-- Entrywise sum (`+`). -/
def SpMat.add (A B : SpMat) : SpMat :=
  SpMat.ofFun A.rows A.cols (fun i j => A.entry i j + B.entry i j)

/-- Entrywise absolute value (`np.abs`). -/
def SpMat.absM (A : SpMat) : SpMat :=
  SpMat.ofFun A.rows A.cols (fun i j => |A.entry i j|)

/-- `sps.diags(np.ones(n))`, the identity used by `_init_projection`. -/
def idMat (n : Nat) : SpMat :=
  SpMat.ofFun n n (fun i j => if i = j then 1 else 0)

/-- Extensional equality of matrices: same shape and same entries inside
the shape. -/
def SpMat.ExtEq (A B : SpMat) : Prop :=
  A.rows = B.rows ∧ A.cols = B.cols ∧
    ∀ i < A.rows, ∀ j < A.cols, A.entry i j = B.entry i j

/-- Number of nonzero entries in column `c` of `A` (nonzeros of one
cell's column of `cell_faces`). -/
def nnzCol (A : SpMat) (c : Nat) : Nat :=
  ((Finset.range A.rows).filter (fun f => A.entry f c ≠ 0)).card

/-- Number of nonzero entries in row `p` of `A`. -/
def nnzRow (A : SpMat) (p : Nat) : Nat :=
  ((Finset.range A.cols).filter (fun k => A.entry p k ≠ 0)).card

/-!  ## Inter-level projector: cell projection (leaf_grid.py, lines 43-62)

The source builds, for a coarse level with `mx × my` cells, the CSC matrix
whose column `k` (one column per fine cell, `cell_ptr = np.arange`) holds a
single 1 in row `cell_indices[k]`.  `cell_indices` is assembled by numpy
tiling:

* `np.tile(np.arange(mx), (2, 2)).ravel('F')` is the length-`4*mx` list
  whose entry `p` repeats each element of `arange(mx) ++ arange(mx)`
  twice (column-major flattening of two identical stacked rows);
* adding the row offset `r * mx` and flattening in C order concatenates
  one such block per coarse row `r < my`.
-/

/-- `np.tile(np.arange(mx), (2, 2)).ravel('F')`: each element of
`arange(mx) ++ arange(mx)` repeated twice in place. -/
def cellTilePattern (mx : Nat) : List Nat :=
  (List.range mx ++ List.range mx).flatMap (fun x => [x, x])

/-- The full `cell_indices` array of `cell_proj_level` for a coarse level
of `mx × my` cells: one tile-pattern block, shifted by `r * mx`, per
coarse cell row `r`. -/
def cellIndicesList (mx my : Nat) : List Nat :=
  (List.range my).flatMap (fun r => (cellTilePattern mx).map (fun x => x + r * mx))

/-- The closed form of the parent map the tiling encodes: entry `k` of
`cell_indices` is `(k % (4*mx)) / 2 % mx + (k / (4*mx)) * mx`, i.e. fine
cell `(i, j)` of the doubled grid maps to coarse cell `(i / 2, j / 2)`. -/
def cellParent (mx : Nat) (k : Nat) : Nat :=
  k % (4 * mx) / 2 % mx + k / (4 * mx) * mx

/-- The sparse matrix returned by `cell_proj_level` for a coarse level of
`m.1 × m.2` cells: shape `(coarse cells) × (fine cells)` (scipy infers the
row count from the largest row index), column `k` carrying a single 1 in
row `cell_indices[k]`. -/
def cellProjCore (m : Nat × Nat) : SpMat :=
  SpMat.ofFun (m.1 * m.2) (4 * (m.1 * m.2))
    (fun p k =>
      if (cellIndicesList m.1 m.2).getD k (m.1 * m.2) = p then 1 else 0)

/-!  ## Inter-level projector: face projection (lines 64-97)

For a coarse level of `mx × my` cells the source sets `nx0 = [mx+1, my+1]`
and `nx1 = [2*mx+1, 2*my+1]`.  Fine x-faces are enumerated with the x index
fastest (`np.meshgrid` + row-major `flatten`), fine y-faces after all
x-faces; a fine x-face matches a coarse face iff its x index is even, a
fine y-face iff its y index is even.  `indices` lists, in match order, the
coarse face index of every matching fine face; `indPtr = cumsum` makes
column `q` of the CSC nonempty exactly when `do_match[q]` holds, its single
row being `indices[rank of q among matches]`. -/

/-- `do_match_x`: for each fine cell row `j < 2*my`, one block over the
fine x-face columns `i < 2*mx+1`, true iff `i` is even. -/
def doMatchX (mx my : Nat) : List Bool :=
  (List.range (2 * my)).flatMap
    (fun _j => (List.range (2 * mx + 1)).map (fun i => i % 2 == 0))

/-- `do_match_y`: for each fine y-face row `j < 2*my+1`, one block over the
fine cell columns `i < 2*mx`, true iff `j` is even. -/
def doMatchY (mx my : Nat) : List Bool :=
  (List.range (2 * my + 1)).flatMap
    (fun j => (List.range (2 * mx)).map (fun _i => j % 2 == 0))

/-- `indices_x`: row `j` of the coarse x-face numbering, tiled twice
(`np.tile(..., (1, 2)).ravel()`), concatenated over the coarse rows. -/
def indicesX (mx my : Nat) : List Nat :=
  (List.range my).flatMap
    (fun j =>
      (List.range (mx + 1)).map (fun i => j * (mx + 1) + i) ++
      (List.range (mx + 1)).map (fun i => j * (mx + 1) + i))

/-- `indices_y`: every coarse y-face index (offset past the coarse
x-faces) repeated twice (`np.repeat(..., 2)`). -/
def indicesY (mx my : Nat) : List Nat :=
  (List.range ((my + 1) * mx)).flatMap
    (fun t => [(mx + 1) * my + t, (mx + 1) * my + t])

/-- A CSC matrix assembled, as in the source, from a match mask over the
columns, the list of row indices of the matching columns in order, and
`indPtr = np.cumsum(np.r_[0, mask])`. -/
def cscOfMask (nrows : Nat) (mask : List Bool) (indices : List Nat) : SpMat :=
  SpMat.ofFun nrows mask.length
    (fun p q =>
      if mask.getD q false ∧
          indices.getD (((mask.take q).filter id).length) nrows = p
      then 1 else 0)

/-- Number of faces of a `mx × my` Cartesian grid: x-faces first
(`(mx+1) * my`), then y-faces (`mx * (my+1)`). -/
def numFacesC (mx my : Nat) : Nat := (mx + 1) * my + mx * (my + 1)

/-- The sparse matrix returned by `face_proj_level` for a coarse level of
`m.1 × m.2` cells. -/
def faceProjCore (m : Nat × Nat) : SpMat :=
  cscOfMask (numFacesC m.1 m.2)
    (doMatchX m.1 m.2 ++ doMatchY m.1 m.2)
    (indicesX m.1 m.2 ++ indicesY m.1 m.2)

/-!  ## Inter-level projector: node projection (lines 100-123)

Fine nodes are enumerated x fastest over `(2*mx+1) × (2*my+1)`; a fine
node matches iff both its indices are even, and the matching fine nodes
receive the coarse node indices `0, 1, 2, ...` in order
(`indices = np.arange(do_match.sum())`). -/

/-- `do_match` for nodes: both indices even. -/
def doMatchN (mx my : Nat) : List Bool :=
  (List.range (2 * my + 1)).flatMap
    (fun j => (List.range (2 * mx + 1)).map
      (fun i => (i % 2 == 0) && (j % 2 == 0)))

/-- The sparse matrix returned by `node_proj_level` for a coarse level of
`m.1 × m.2` cells. -/
def nodeProjCore (m : Nat × Nat) : SpMat :=
  cscOfMask ((m.1 + 1) * (m.2 + 1))
    (doMatchN m.1 m.2)
    (List.range (((doMatchN m.1 m.2).filter id).length))

/-!  ## The uniform level grid

Modelled from the spec: the class `pp.CartGrid` (file
`src/porepy/grids/structured.py`) is not among the provided sources.  The
spec (sections 3 and 6) describes it as an immutable uniform 2-D Cartesian
mesh exposing entity counts, node/cell/face coordinates, a signed
cell-face incidence (±1 per cell-face pair indicating orientation) and a
face-node incidence, with geometry valid after `compute_geometry()`.
Entity numbering follows the conventions the projector code of
`leaf_grid.py` relies on: cells and nodes row-major with the x index
fastest, x-faces (numbered x fastest) before y-faces. -/
structure CartGrid2D where
  mx : Nat
  my : Nat
  dx : ℚ
  dy : ℚ

/-- Modelled from the spec: `g.num_cells` of the absent `pp.CartGrid`. -/
def CartGrid2D.num_cells (g : CartGrid2D) : Nat := g.mx * g.my

/-- Modelled from the spec: `g.num_faces`, x-faces then y-faces. -/
def CartGrid2D.num_faces (g : CartGrid2D) : Nat := numFacesC g.mx g.my

/-- Modelled from the spec: `g.num_nodes`. -/
def CartGrid2D.num_nodes (g : CartGrid2D) : Nat := (g.mx + 1) * (g.my + 1)

/-- Modelled from the spec: the signed cell-face incidence `g.cell_faces`
of the absent `pp.CartGrid` (shape `num_faces × num_cells`): cell `(i, j)`
has entry −1 on its west and south faces and +1 on its east and north
faces (face normals point in the positive axis directions). -/
def CartGrid2D.cell_faces (g : CartGrid2D) : SpMat :=
  SpMat.ofFun g.num_faces g.num_cells
    (fun f c =>
      if c < g.mx * g.my then
        let i := c % g.mx
        let j := c / g.mx
        if f = j * (g.mx + 1) + i then -1
        else if f = j * (g.mx + 1) + i + 1 then 1
        else if f = (g.mx + 1) * g.my + j * g.mx + i then -1
        else if f = (g.mx + 1) * g.my + (j + 1) * g.mx + i then 1
        else 0
      else 0)

/-- Modelled from the spec: the face-node incidence `g.face_nodes` (shape
`num_nodes × num_faces`): an x-face `(i, j)` joins nodes `(i, j)` and
`(i, j+1)`; a y-face `(i, j)` joins nodes `(i, j)` and `(i+1, j)`. -/
def CartGrid2D.face_nodes (g : CartGrid2D) : SpMat :=
  SpMat.ofFun g.num_nodes g.num_faces
    (fun n f =>
      if f < (g.mx + 1) * g.my then
        let i := f % (g.mx + 1)
        let j := f / (g.mx + 1)
        if n = j * (g.mx + 1) + i ∨ n = (j + 1) * (g.mx + 1) + i then 1 else 0
      else if f < g.num_faces then
        let t := f - (g.mx + 1) * g.my
        let i := t % g.mx
        let j := t / g.mx
        if n = j * (g.mx + 1) + i ∨ n = j * (g.mx + 1) + i + 1 then 1 else 0
      else 0)

/-- Modelled from the spec: `g.cell_centers` (computed by
`compute_geometry`). -/
def CartGrid2D.cell_centers (g : CartGrid2D) (c : Nat) : ℚ × ℚ :=
  ((c % g.mx + 1 / 2) * g.dx, (c / g.mx + 1 / 2) * g.dy)

/-- Modelled from the spec: `g.face_centers`. -/
def CartGrid2D.face_centers (g : CartGrid2D) (f : Nat) : ℚ × ℚ :=
  if f < (g.mx + 1) * g.my then
    ((f % (g.mx + 1) : ℚ) * g.dx, (f / (g.mx + 1) + 1 / 2) * g.dy)
  else
    (((f - (g.mx + 1) * g.my) % g.mx + 1 / 2) * g.dx,
      ((f - (g.mx + 1) * g.my) / g.mx : ℚ) * g.dy)

/-- Modelled from the spec: `g.face_normals` (area-weighted, along the
positive axis directions). -/
def CartGrid2D.face_normals (g : CartGrid2D) (f : Nat) : ℚ × ℚ :=
  if f < (g.mx + 1) * g.my then (g.dy, 0) else (0, g.dx)

/-- Modelled from the spec: `g.nodes`. -/
def CartGrid2D.nodes (g : CartGrid2D) (n : Nat) : ℚ × ℚ :=
  ((n % (g.mx + 1) : ℚ) * g.dx, (n / (g.mx + 1) : ℚ) * g.dy)

/-- Modelled from the spec: `pp.CartGrid(nx, physdims)` followed by
`compute_geometry()`. -/
def cartGridOf (m : Nat × Nat) (phys : ℚ × ℚ) : CartGrid2D :=
  ⟨m.1, m.2, phys.1 / m.1, phys.2 / m.2⟩

/-!  ## The composite leaf grid state -/

/-- The mutable attribute set of a `CartLeafGrid` object.  The projection
stacks are `Option`-valued because the constructor leaves them `None`
until the first `refine_cells` call. -/
structure LeafState where
  nxBase : Nat × Nat
  physdims : ℚ × ℚ
  numLevels : Nat
  mesh_sizes : List (Nat × Nat)
  level_grids : List CartGrid2D
  num_cells : Nat
  num_faces : Nat
  num_nodes : Nat
  cell_faces : SpMat
  face_nodes : SpMat
  cell_centers : Nat → ℚ × ℚ
  face_centers : Nat → ℚ × ℚ
  face_normals : Nat → ℚ × ℚ
  nodes : Nat → ℚ × ℚ
  cell_level : Nat → Nat
  cell_projections : Option (List SpMat)
  face_projections : Option (List SpMat)
  node_projections : Option (List SpMat)

/-- The constructor `CartLeafGrid(nx, physdims, levels)` (lines 7-40):
builds one level grid per level with per-axis cell counts `nx * 2^level`,
then copies the coarsest grid's topology, geometry and tags and zeroes
`cell_level`.  (For `levels = 0` the Python constructor raises; all uses
below have `levels ≥ 1`.) -/
def cartLeafGrid (nx : Nat × Nat) (phys : ℚ × ℚ) (levels : Nat) : LeafState :=
  let sizes := (List.range levels).map (fun l => (nx.1 * 2 ^ l, nx.2 * 2 ^ l))
  let grids := sizes.map (fun m => cartGridOf m phys)
  let g0 := grids.getD 0 (cartGridOf nx phys)
  { nxBase := nx
    physdims := phys
    numLevels := levels
    mesh_sizes := sizes
    level_grids := grids
    num_cells := g0.num_cells
    num_faces := g0.num_faces
    num_nodes := g0.num_nodes
    cell_faces := g0.cell_faces
    face_nodes := g0.face_nodes
    cell_centers := g0.cell_centers
    face_centers := g0.face_centers
    face_normals := g0.face_normals
    nodes := g0.nodes
    cell_level := fun _ => 0
    cell_projections := none
    face_projections := none
    node_projections := none }

/-- Python error value raised by the three `*_proj_level` checks
(line 45, 66, 102): the `InvalidLevelGap` condition of the spec. -/
def invalidLevelGapMsg : String :=
  "ValueError: Can only calculate projection between grids 1 level apart"

/-- Python error value raised by an out-of-range list access
(`self.level_grids[level1]` when `level1` is past the last level). -/
def indexErrorMsg : String := "IndexError: list index out of range"

/-- `CartLeafGrid.cell_proj_level(level0, level1)` (lines 43-62): raises
unless `level1 - level0 == 1` (Python integer subtraction), then raises
`IndexError` if `level1` is past the end of `level_grids`, and otherwise
returns the cell projection built from the coarse mesh size. -/
def LeafState.cell_proj_level (s : LeafState) (level0 level1 : Nat) :
    Except String SpMat :=
  if (level1 : Int) - (level0 : Int) ≠ 1 then .error invalidLevelGapMsg
  else if level1 < s.level_grids.length then
    .ok (cellProjCore (s.mesh_sizes.getD level0 (0, 0)))
  else .error indexErrorMsg

/-- `CartLeafGrid.face_proj_level(level0, level1)` (lines 64-97). -/
def LeafState.face_proj_level (s : LeafState) (level0 level1 : Nat) :
    Except String SpMat :=
  if (level1 : Int) - (level0 : Int) ≠ 1 then .error invalidLevelGapMsg
  else if level1 < s.level_grids.length then
    .ok (faceProjCore (s.mesh_sizes.getD level0 (0, 0)))
  else .error indexErrorMsg

/-- `CartLeafGrid.node_proj_level(level0, level1)` (lines 100-123). -/
def LeafState.node_proj_level (s : LeafState) (level0 level1 : Nat) :
    Except String SpMat :=
  if (level1 : Int) - (level0 : Int) ≠ 1 then .error invalidLevelGapMsg
  else if level1 < s.level_grids.length then
    .ok (nodeProjCore (s.mesh_sizes.getD level0 (0, 0)))
  else .error indexErrorMsg


/-!  ## Boolean arrays and region maps of `refine_level`

numpy arrays are eager; the boolean vectors of lines 153-256 are embedded
as materialized `List Bool` values and the CSC region maps are built from
them.  Two shapes of region map occur:

* "down" maps (`c2r`, `f2r`, `cf2rf`, `ff2rf`, lines 165-204): shape
  `(new total) × (old total)`; column `j` is nonempty iff the vector holds
  at `j`, and its single 1 sits in row `offset + rank j`, where `rank j`
  counts the members before `j` (`indptr` marks member columns, then
  `cumsum`);
* "up" maps (`rf2cf`, `rf2ff`, `rn2cn`, `rn2fn`, lines 206-220 and
  239-252): shape `(old total) × (new total)`; column `offset + r` (for
  `r` below the member count) holds a single 1 in row
  `np.where(vector)[0][r]`. -/

/-- Read a boolean array entry (`v[i]`). -/
def getB (v : List Bool) (i : Nat) : Bool := v.getD i false

/-- `np.sum` of a boolean array. -/
def csum (v : List Bool) : Nat := (v.filter id).length

/-- Members of `v` strictly before position `j`. -/
def rankL (v : List Bool) (j : Nat) : Nat := ((v.take j).filter id).length

/-- `np.where(v)[0]`. -/
def whereListB (v : List Bool) : List Nat :=
  (List.range v.length).filter (fun i => getB v i)

/-- Logical not of a boolean array (`~v`). -/
def bnot (v : List Bool) : List Bool := v.map (fun b => !b)

/-- `(A * v) > 0` for a sparse matrix `A` and a boolean array `v`,
materialized over the rows of `A` (for scipy boolean matrices the plain
product saturates to the same result). -/
def bvecMul (A : SpMat) (v : List Bool) : List Bool :=
  (List.range A.rows).map
    (fun i => decide (0 < isum A.cols (fun j => A.entry i j * b2i (getB v j))))

/-- The "down" region map built from a materialized membership vector. -/
def selDownL (v : List Bool) (offset newTotal : Nat) : SpMat :=
  SpMat.ofFun newTotal v.length
    (fun i j => if getB v j ∧ i = offset + rankL v j then 1 else 0)

/-- The "up" region map (`cnt` is the member count). -/
def selUpL (v : List Bool) (offset cnt newTotal : Nat) : SpMat :=
  SpMat.ofFun v.length newTotal
    (fun j r =>
      if offset ≤ r ∧ r < offset + cnt ∧
          (whereListB v).getD (r - offset) v.length = j
      then 1 else 0)

/-- `sps.diags(v)` for a materialized boolean array. -/
def diagBL (v : List Bool) : SpMat :=
  SpMat.ofFun v.length v.length (fun i j => if i = j ∧ getB v i then 1 else 0)

/-- The argument `cells` accepted by `refine_cells` / `refine_level`:
either an array of integer cell indices or a boolean mask. -/
inductive CellsInput where
  | indicesI : List Nat → CellsInput
  | boolMask : (Nat → Bool) → CellsInput

/-- Lines 147-151 (and 130-134): `np.asarray(cells).dtype` is a numpy
dtype object and never an instance of the Python type `bool`, so the
`isinstance` test is `False` for both input forms and the assignment
branch always runs.  Here: `np.ones(n, dtype=bool)` followed by
`cells_c[cells] = False`, which for an index array clears the listed
positions and for a boolean mask clears the masked positions. -/
def onesAssignFalse (n : Nat) (cells : CellsInput) : List Bool :=
  (List.range n).map
    (fun i =>
      match cells with
      | .indicesI l => !(l.contains i)
      | .boolMask m => !(m i))

/-- Lines 130-134: `np.zeros(n, dtype=bool)` followed by
`ref_cells[cells] = True` (again via the always-taken assignment
branch). -/
def zerosAssignTrue (n : Nat) (cells : CellsInput) : List Bool :=
  (List.range n).map
    (fun i =>
      match cells with
      | .indicesI l => l.contains i
      | .boolMask m => m i)

/-- Line 153: `cells_c = self.cell_projections[level].T * cells_c`, the
pull-back of the stay-coarse flags from the active index space to level
`level`'s full cell set (boolean sparse product saturates, i.e. ors). -/
def cellsCOf (PL : SpMat) (cc0 : List Bool) : List Bool :=
  bvecMul PL.transpose cc0

/-- Line 159: `cells_f = (proj_c.T * ~cells_c) > 0`, the fine cells whose
coarse parent is not kept coarse. -/
def cellsFOf (proj_c : SpMat) (cc1 : List Bool) : List Bool :=
  bvecMul proj_c.transpose (bnot cc1)

/-- Line 183: `faces_f = (np.abs(cell_faces_fine) * cells_f) > 0`. -/
def facesFOf (cfFine : SpMat) (cells_f : List Bool) : List Bool :=
  bvecMul cfFine.absM cells_f

/-- Line 184: `faces_c = (proj_f * ~faces_f) > 0`. -/
def facesCOf (proj_f : SpMat) (faces_f : List Bool) : List Bool :=
  bvecMul proj_f (bnot faces_f)

/-- Line 231: `nodes_f = (np.abs(face_nodes_fine) * faces_f) > 0`. -/
def nodesFOf (fnFine : SpMat) (faces_f : List Bool) : List Bool :=
  bvecMul fnFine.absM faces_f

/-- Line 232: `nodes_c = (proj_n * ~nodes_f) > 0`. -/
def nodesCOf (proj_n : SpMat) (nodes_f : List Bool) : List Bool :=
  bvecMul proj_n (bnot nodes_f)

/-- `c2r` (lines 165-171), and identically `cf2rf` (lines 190-196) and
`ff2rf`/`f2r` with an offset: the "down" map of a membership vector into
the merged index space of the kept-coarse plus promoted-fine entities. -/
def c2rOf (vc vf : List Bool) : SpMat :=
  selDownL vc 0 (csum vc + csum vf)

/-- `f2r` (lines 173-179) / `ff2rf` (lines 198-204): fine members are
appended after the `csum vc` coarse survivors. -/
def f2rOf (vc vf : List Bool) : SpMat :=
  selDownL vf (csum vc) (csum vc + csum vf)

/-- `rf2cf` (lines 206-212) / `rn2cn` (lines 238-244): the "up" map from
the merged index space back to the coarse entities. -/
def rfUpC (vc vf : List Bool) : SpMat :=
  selUpL vc 0 (csum vc) (csum vc + csum vf)

/-- `rf2ff` (lines 214-220) / `rn2fn` (lines 246-252). -/
def rfUpF (vc vf : List Bool) : SpMat :=
  selUpL vf (csum vc) (csum vf) (csum vc + csum vf)

/-- `ff2c = rf2ff.T * sps.diags(faces_f)` (lines 227-228), and
`fn2c` (lines 255-256). -/
def ffToC (vc vf : List Bool) : SpMat :=
  (rfUpF vc vf).transpose.mul (diagBL vf)

/-- Lines 259-263: the new `cell_faces` as the sum of the coarse-coarse,
fine-fine and coarse-through-split-face contributions. -/
def cellFacesNew (cells_c cells_f faces_c faces_f : List Bool)
    (cf0 cf1 projf : SpMat) : SpMat :=
  ((((rfUpC faces_c faces_f).transpose.mul cf0).mul
      (c2rOf cells_c cells_f).transpose).add
    (((rfUpF faces_c faces_f).transpose.mul cf1).mul
      (f2rOf cells_c cells_f).transpose)).add
    ((((ffToC faces_c faces_f).mul projf.transpose).mul cf0).mul
      (c2rOf cells_c cells_f).transpose)

/-- Lines 265-268: the new `face_nodes`, built symmetrically. -/
def faceNodesNew (faces_c faces_f nodes_c nodes_f : List Bool)
    (fn0 fn1 projn : SpMat) : SpMat :=
  ((((rfUpC nodes_c nodes_f).transpose.mul fn0).mul
      (c2rOf faces_c faces_f).transpose).add
    (((rfUpF nodes_c nodes_f).transpose.mul fn1).mul
      (f2rOf faces_c faces_f).transpose)).add
    ((((ffToC nodes_c nodes_f).mul projn.transpose).mul fn0).mul
      (c2rOf faces_c faces_f).transpose)

/-- `np.hstack` of the kept-coarse and promoted-fine geometry slices
(lines 274-283): index below the survivor count reads the coarse grid at
the position listed by the coarse `np.where`, above it the fine grid. -/
def hstack2 {α : Type} (cnt : Nat) (g0 g1 : Nat → α) (w0 w1 : List Nat) :
    Nat → α :=
  fun i => if i < cnt then g0 (w0.getD i 0) else g1 (w1.getD (i - cnt) 0)

/-- The body of `refine_level` (lines 153-300) after all attribute and
list accesses have succeeded: `PL = self.cell_projections[level]`,
`proj_c/f/n` the three single-level projectors, `gL`/`gL1` the two level
grids, `stC/stF/stN` the three projection stacks. -/
def refineBody (s : LeafState) (level : Nat) (cc0 : List Bool)
    (stC stF stN : List SpMat) (PL proj_c proj_f proj_n : SpMat)
    (gL gL1 : CartGrid2D) : LeafState :=
  let cells_c := cellsCOf PL cc0
  let cells_f := cellsFOf proj_c cells_c
  let faces_f := facesFOf gL1.cell_faces cells_f
  let faces_c := facesCOf proj_f faces_f
  let nodes_f := nodesFOf gL1.face_nodes faces_f
  let nodes_c := nodesCOf proj_n nodes_f
  { s with
    num_cells := csum cells_c + csum cells_f
    num_faces := csum faces_c + csum faces_f
    num_nodes := csum nodes_c + csum nodes_f
    cell_faces := cellFacesNew cells_c cells_f faces_c faces_f
      gL.cell_faces gL1.cell_faces proj_f
    face_nodes := faceNodesNew faces_c faces_f nodes_c nodes_f
      gL.face_nodes gL1.face_nodes proj_n
    cell_centers := hstack2 (csum cells_c) gL.cell_centers gL1.cell_centers
      (whereListB cells_c) (whereListB cells_f)
    face_centers := hstack2 (csum faces_c) gL.face_centers gL1.face_centers
      (whereListB faces_c) (whereListB faces_f)
    face_normals := hstack2 (csum faces_c) gL.face_normals gL1.face_normals
      (whereListB faces_c) (whereListB faces_f)
    nodes := hstack2 (csum nodes_c) gL.nodes gL1.nodes
      (whereListB nodes_c) (whereListB nodes_f)
    cell_level := fun i => if i < csum cells_c then level else level + 1
    cell_projections := some ((stC.set level (c2rOf cells_c cells_f)).set
      (level + 1) (f2rOf cells_c cells_f))
    face_projections := some ((stF.set level (c2rOf faces_c faces_f)).set
      (level + 1) (f2rOf faces_c faces_f))
    node_projections := some ((stN.set level (rfUpC nodes_c nodes_f)).set
      (level + 1) (rfUpF nodes_c nodes_f)) }

/-- Python `None` check for the projection stacks: subscripting `None`
raises. -/
def optErr (o : Option (List SpMat)) : Except String (List SpMat) :=
  match o with
  | some l => .ok l
  | none => .error "TypeError: NoneType object is not subscriptable"

/-- Python list subscript: out of range raises `IndexError`. -/
def listErr {α : Type} (l : List α) (i : Nat) : Except String α :=
  match l.get? i with
  | some x => .ok x
  | none => .error indexErrorMsg

/-- `CartLeafGrid.refine_level(level, cells)` (lines 145-300).  The three
stacks must all be initialized (the source would only discover `None`
face/node stacks at the assignments of lines 296-300, after mutating the
grid; here the check is hoisted, which leaves every defined result
unchanged). -/
def refine_level (s : LeafState) (level : Nat) (cells : CellsInput) :
    Except String LeafState := do
  let cc0 := onesAssignFalse s.num_cells cells
  let stC ← optErr s.cell_projections
  let stF ← optErr s.face_projections
  let stN ← optErr s.node_projections
  let PL ← listErr stC level
  let proj_c ← s.cell_proj_level level (level + 1)
  let proj_f ← s.face_proj_level level (level + 1)
  let proj_n ← s.node_proj_level level (level + 1)
  let gL ← listErr s.level_grids level
  let gL1 ← listErr s.level_grids (level + 1)
  .ok (refineBody s level cc0 stC stF stN PL proj_c proj_f proj_n gL gL1)

/-- Cumulative projection stack entry of `_init_projection`: the identity
at level 0, composed with one single-level projector per level. -/
def cumProj (id0 : SpMat) (step : Nat → SpMat) : Nat → SpMat
  | 0 => id0
  | l + 1 => ((cumProj id0 step l).mul (step l))

/-- `CartLeafGrid._init_projection` (lines 302-323): each stack starts
with a boolean identity over the coarsest grid's entities and accumulates
products of the single-level projectors (the loop stays below
`len(self.level_grids) - 1`, so the checked projector methods never raise
here and return the core matrices directly). -/
def init_projection (s : LeafState) : LeafState :=
  let g0 := s.level_grids.getD 0 (cartGridOf s.nxBase s.physdims)
  let mesh := fun l => s.mesh_sizes.getD l (0, 0)
  { s with
    cell_projections := some ((List.range s.level_grids.length).map
      (cumProj (idMat g0.num_cells) (fun l => cellProjCore (mesh l))))
    face_projections := some ((List.range s.level_grids.length).map
      (cumProj (idMat g0.num_faces) (fun l => faceProjCore (mesh l))))
    node_projections := some ((List.range s.level_grids.length).map
      (cumProj (idMat g0.num_nodes) (fun l => nodeProjCore (mesh l)))) }

/-- `np.min` over the `cell_level` array (length `n ≥ 1`). -/
def arrMin (n : Nat) (f : Nat → Nat) : Nat :=
  ((List.range n).map f).foldl Nat.min (f 0)

/-- `min_level = np.min(self.cell_level)` (line 136). -/
def minCellLevel (s : LeafState) : Nat := arrMin s.num_cells s.cell_level

/-- Line 141, with Python operator precedence:
`ref_cells | self.cell_level > level` parses as
`(ref_cells | self.cell_level) > level`, a bitwise or of the boolean
array (upcast to int) with the level array, then compared with
`level`. -/
def loopMask (ref : List Bool) (st : LeafState) (level : Nat) : Nat → Bool :=
  fun i => decide (level < Nat.lor (if getB ref i then 1 else 0) (st.cell_level i))

/-- Lazy initialization at lines 127-128. -/
def initIfNeeded (s : LeafState) : LeafState :=
  if s.cell_projections.isNone then init_projection s else s

/-- Python `range(a, b)`. -/
def pyRange (a b : Nat) : List Nat := (List.range b).drop a

/-- `CartLeafGrid.refine_cells(cells)` (lines 126-142): initialize the
stacks if needed, build the refine flags, and run `refine_level` once per
level of `range(min_level, min_level + 1)` with the flag/level mask of
line 141 (`ref_levels` of line 139 is computed but never used). -/
def refine_cells (s : LeafState) (cells : CellsInput) :
    Except String LeafState :=
  let s1 := initIfNeeded s
  let ref := zerosAssignTrue s1.num_cells cells
  (pyRange (minCellLevel s1) (minCellLevel s1 + 1)).foldlM
    (fun st lv => refine_level st lv (.boolMask (loopMask ref st lv))) s1

/-!  ## Concrete scenario objects used by witnesses and counterexamples -/

/-- A 2×1-base, two-level leaf grid. -/
def gridA : LeafState := cartLeafGrid (2, 1) (1, 1) 2

/-- The same grid with its projection stacks initialized. -/
def gridAInit : LeafState := init_projection gridA

/-- The initialized cell projection stack of `gridA`. -/
def stackCA : List SpMat := [idMat 2, (idMat 2).mul (cellProjCore (2, 1))]

/-- The initialized face projection stack of `gridA`. -/
def stackFA : List SpMat := [idMat 7, (idMat 7).mul (faceProjCore (2, 1))]

/-- The initialized node projection stack of `gridA`. -/
def stackNA : List SpMat := [idMat 6, (idMat 6).mul (nodeProjCore (2, 1))]

/-- Level grid 0 of `gridA`. -/
def gridA0 : CartGrid2D := cartGridOf (2, 1) (1, 1)

/-- Level grid 1 of `gridA`. -/
def gridA1 : CartGrid2D := cartGridOf (4, 2) (1, 1)

/-- The state produced by `refine_level(0, [0])` on the initialized
grid. -/
def bodyA : LeafState :=
  refineBody gridAInit 0 (onesAssignFalse gridAInit.num_cells (.indicesI [0]))
    stackCA stackFA stackNA (idMat 2) (cellProjCore (2, 1))
    (faceProjCore (2, 1)) (nodeProjCore (2, 1)) gridA0 gridA1

/-!  ## Toolkit lemmas: lists, sums, matrix entries -/

theorem getD_range_map {α : Type} (n : Nat) (f : Nat → α) (i : Nat) (d : α) :
    ((List.range n).map f).getD i d = if i < n then f i else d := by
  rcases Nat.lt_or_ge i n with h | h
  · rw [List.getD_eq_getElem?_getD]
    simp [List.getElem?_map, List.getElem?_range h, h]
  · rw [List.getD_eq_getElem?_getD, List.getElem?_eq_none]
    · simp [Nat.not_lt.mpr h]
    · simpa using h

theorem get?_range_map {α : Type} (n : Nat) (f : Nat → α) (i : Nat) :
    ((List.range n).map f).get? i = if i < n then some (f i) else none := by
  rcases Nat.lt_or_ge i n with h | h
  · simp [List.get?_eq_getElem?, List.getElem?_map, List.getElem?_range h, h]
  · rw [List.get?_eq_getElem?, List.getElem?_eq_none] <;> simp [Nat.not_lt.mpr h, h]

theorem getB_range_map (n : Nat) (f : Nat → Bool) (i : Nat) :
    getB ((List.range n).map f) i = (decide (i < n) && f i) := by
  rw [getB, getD_range_map]
  by_cases h : i < n <;> simp [h]

theorem length_range_map {α : Type} (n : Nat) (f : Nat → α) :
    ((List.range n).map f).length = n := by simp

theorem csum_range_map (n : Nat) (f : Nat → Bool) :
    csum ((List.range n).map f) = (List.range n).countP f := by
  rw [csum, List.countP_eq_length_filter, List.filter_map, List.length_map]
  rfl

theorem countP_true_all {α : Type} (l : List α) (p : α → Bool)
    (h : ∀ a ∈ l, p a = true) : l.countP p = l.length := by
  rw [List.countP_eq_length]
  exact h

theorem countP_false_all {α : Type} (l : List α) (p : α → Bool)
    (h : ∀ a ∈ l, p a = false) : l.countP p = 0 := by
  rw [List.countP_eq_zero]
  intro a ha
  simp [h a ha]

theorem rankL_range_map (n : Nat) (f : Nat → Bool) (j : Nat) (hj : j ≤ n) :
    rankL ((List.range n).map f) j = (List.range j).countP f := by
  rw [rankL, ← List.map_take, List.take_range, Nat.min_eq_left hj,
    List.countP_eq_length_filter, List.filter_map, List.length_map]
  rfl

theorem rankL_all_true (v : List Bool) (j : Nat) (hj : j ≤ v.length)
    (h : ∀ i < j, getB v i = true) : rankL v j = j := by
  rw [rankL, ← List.countP_eq_length_filter, countP_true_all]
  · simp [hj]
  · intro a ha
    rcases List.mem_iff_getElem.mp ha with ⟨i, hi, rfl⟩
    have hil : i < v.length := by
      have := hi
      simp only [List.length_take] at this
      omega
    have hij : i < j := by
      have := hi
      simp only [List.length_take] at this
      omega
    have hg := h i hij
    rw [getB, List.getD_eq_getElem?_getD, List.getElem?_eq_getElem hil] at hg
    rw [List.getElem_take]
    simpa using hg

theorem whereListB_range_map (n : Nat) (f : Nat → Bool) :
    whereListB ((List.range n).map f) = (List.range n).filter f := by
  rw [whereListB, length_range_map]
  apply List.filter_congr
  intro i hi
  rw [getB_range_map]
  simp [List.mem_range.mp hi]

theorem whereListB_all_true (n : Nat) (f : Nat → Bool) (h : ∀ i < n, f i = true) :
    whereListB ((List.range n).map f) = List.range n := by
  rw [whereListB_range_map]
  apply List.filter_eq_self.mpr
  intro a ha
  exact h a (List.mem_range.mp ha)

theorem csum_all_true (n : Nat) (f : Nat → Bool) (h : ∀ i < n, f i = true) :
    csum ((List.range n).map f) = n := by
  rw [csum_range_map, countP_true_all]
  · simp
  · intro a ha
    exact h a (List.mem_range.mp ha)

theorem csum_all_false (n : Nat) (f : Nat → Bool) (h : ∀ i < n, f i = false) :
    csum ((List.range n).map f) = 0 := by
  rw [csum_range_map, countP_false_all]
  intro a ha
  exact h a (List.mem_range.mp ha)

theorem isum_eq_sum_range (n : Nat) (f : Nat → Int) :
    isum n f = ∑ k in Finset.range n, f k := by
  induction n with
  | zero => simp [isum]
  | succ m ih =>
    rw [isum, List.range_succ, List.map_append, List.sum_append,
      Finset.sum_range_succ, ← isum, ih]
    simp

theorem isum_zero_of (n : Nat) (f : Nat → Int) (h : ∀ k < n, f k = 0) :
    isum n f = 0 := by
  rw [isum_eq_sum_range]
  apply Finset.sum_eq_zero
  intro k hk
  exact h k (Finset.mem_range.mp hk)

theorem isum_eq_single (n a : Nat) (f : Nat → Int) (ha : a < n)
    (h : ∀ k < n, k ≠ a → f k = 0) : isum n f = f a := by
  rw [isum_eq_sum_range]
  exact Finset.sum_eq_single_of_mem a (Finset.mem_range.mpr ha)
    (fun b hb hba => h b (Finset.mem_range.mp hb) hba)

theorem isum_pos_of (n a : Nat) (f : Nat → Int) (ha : a < n) (hfa : 0 < f a)
    (h : ∀ k < n, 0 ≤ f k) : 0 < isum n f := by
  rw [isum_eq_sum_range]
  apply Finset.sum_pos' (fun k hk => h k (Finset.mem_range.mp hk))
  exact ⟨a, Finset.mem_range.mpr ha, hfa⟩

theorem entry_ofFun (r c : Nat) (f : Nat → Nat → Int) (i j : Nat) :
    (SpMat.ofFun r c f).entry i j = if i < r ∧ j < c then f i j else 0 := by
  rw [SpMat.ofFun, SpMat.entry]
  simp only
  rw [getD_range_map]
  by_cases hi : i < r
  · simp only [hi, if_true]
    rw [getD_range_map]
    by_cases hj : j < c <;> simp [hi, hj]
  · simp [hi]

theorem rows_ofFun (r c : Nat) (f : Nat → Nat → Int) : (SpMat.ofFun r c f).rows = r := rfl

theorem cols_ofFun (r c : Nat) (f : Nat → Nat → Int) : (SpMat.ofFun r c f).cols = c := rfl

/-!  ## Toolkit lemmas: cons/append/flatMap structure -/

theorem getB_cons_zero (b : Bool) (t : List Bool) : getB (b :: t) 0 = b := rfl

theorem getB_cons_succ (b : Bool) (t : List Bool) (q : Nat) :
    getB (b :: t) (q + 1) = getB t q := rfl

theorem csum_cons (b : Bool) (t : List Bool) :
    csum (b :: t) = (if b then 1 else 0) + csum t := by
  rw [csum, csum, List.filter_cons]
  by_cases hb : b = true <;> simp [hb] <;> omega

theorem rankL_zero (v : List Bool) : rankL v 0 = 0 := by
  simp [rankL]

theorem rankL_succ_cons (b : Bool) (t : List Bool) (q : Nat) :
    rankL (b :: t) (q + 1) = (if b then 1 else 0) + rankL t q := by
  rw [rankL, rankL, List.take_succ_cons, List.filter_cons]
  by_cases hb : b = true <;> simp [hb] <;> omega

theorem rank_surj (v : List Bool) (r : Nat) (hr : r < csum v) :
    ∃ q < v.length, getB v q = true ∧ rankL v q = r := by
  induction v generalizing r with
  | nil => simp [csum] at hr
  | cons b t ih =>
    rw [csum_cons] at hr
    by_cases hb : b = true
    · subst hb
      rw [if_pos rfl] at hr
      rcases r with _ | r
      · exact ⟨0, by simp, rfl, rankL_zero _⟩
      · rcases ih r (by omega) with ⟨q, hq, hgq, hrq⟩
        refine ⟨q + 1, by simpa using hq, hgq, ?_⟩
        rw [rankL_succ_cons, hrq, if_pos rfl]
        omega
    · have hb0 : b = false := by simpa using hb
      subst hb0
      rw [if_neg (by simp)] at hr
      rcases ih r (by omega) with ⟨q, hq, hgq, hrq⟩
      refine ⟨q + 1, by simpa using hq, hgq, ?_⟩
      rw [rankL_succ_cons, hrq, if_neg (by simp)]
      omega

theorem flatMap_range_succ {α : Type} (R : Nat) (g : Nat → List α) :
    (List.range (R + 1)).flatMap g = (List.range R).flatMap g ++ g R := by
  rw [List.range_succ, List.flatMap_append]
  simp

theorem length_flatMap_const {α : Type} (R B : Nat) (g : Nat → List α)
    (h : ∀ j < R, (g j).length = B) :
    ((List.range R).flatMap g).length = R * B := by
  induction R with
  | zero => simp
  | succ m ih =>
    rw [flatMap_range_succ, List.length_append, ih (fun j hj => h j (by omega)),
      h m (by omega)]
    ring

theorem getD_flatMap_blocks {α : Type} (R B : Nat) (g : Nat → List α) (d : α)
    (h : ∀ j < R, (g j).length = B) (t : Nat) (ht : t < R * B) :
    ((List.range R).flatMap g).getD t d = (g (t / B)).getD (t % B) d := by
  induction R generalizing t with
  | zero => omega
  | succ m ih =>
    have hsm : (m + 1) * B = m * B + B := Nat.succ_mul m B
    have hB : 0 < B := by
      rcases Nat.eq_zero_or_pos B with h0 | h0
      · subst h0
        simp at ht
      · exact h0
    rw [flatMap_range_succ]
    have hlen : ((List.range m).flatMap g).length = m * B :=
      length_flatMap_const m B g (fun j hj => h j (by omega))
    rcases Nat.lt_or_ge t (m * B) with hlt | hge
    · rw [List.getD_append _ _ _ _ (by omega)]
      exact ih (fun j hj => h j (by omega)) t hlt
    · obtain ⟨r, hrB, rfl⟩ : ∃ r, r < B ∧ t = m * B + r :=
        ⟨t - m * B, by omega, by omega⟩
      have hdiv : (m * B + r) / B = m := by
        rw [Nat.mul_comm m B, Nat.mul_add_div hB, Nat.div_eq_of_lt hrB,
          Nat.add_zero]
      have hmod : (m * B + r) % B = r := by
        rw [Nat.mul_comm m B, Nat.mul_add_mod]
        exact Nat.mod_eq_of_lt hrB
      rw [hdiv, hmod, List.getD_eq_getElem?_getD,
        List.getElem?_append_right (by omega), hlen]
      rw [show m * B + r - (m * B) = r from by omega,
        ← List.getD_eq_getElem?_getD]

theorem countP_flatMap_sum (R : Nat) (g : Nat → List Bool) :
    ((List.range R).flatMap g).countP id
      = (((List.range R).map (fun j => (g j).countP id))).sum := by
  induction R with
  | zero => simp
  | succ m ih =>
    rw [flatMap_range_succ, List.countP_append, ih, List.range_succ]
    simp

/-!  ## Structure of the cell projection matrix -/

theorem getD_map_lt {α β : Type} (l : List α) (f : α → β) (i : Nat) (d : β)
    (d0 : α) (h : i < l.length) : (l.map f).getD i d = f (l.getD i d0) := by
  rw [List.getD_eq_getElem?_getD, List.getElem?_map,
    List.getElem?_eq_getElem h, List.getD_eq_getElem?_getD,
    List.getElem?_eq_getElem h]
  simp

theorem getD_range_lt (n i d : Nat) (h : i < n) : (List.range n).getD i d = i := by
  rw [List.getD_eq_getElem?_getD, List.getElem?_range h]
  simp

theorem length_flatMap_pairs {α : Type} (l : List α) :
    (l.flatMap (fun x => [x, x])).length = 2 * l.length := by
  induction l with
  | nil => simp
  | cons a t ih => simp only [List.flatMap_cons, List.length_append, ih,
      List.length_cons]; simp; omega

theorem getD_flatMap_pairs {α : Type} (l : List α) (p : Nat) (d : α)
    (hp : p < 2 * l.length) : (l.flatMap (fun x => [x, x])).getD p d = l.getD (p / 2) d := by
  induction l generalizing p with
  | nil => simp at hp
  | cons a t ih =>
    rcases p with _ | p
    · rfl
    rcases p with _ | p
    · rfl
    have hp2 : p < 2 * t.length := by simp at hp; omega
    have : (p + 1 + 1) / 2 = p / 2 + 1 := by omega
    rw [this]
    show (t.flatMap (fun x => [x, x])).getD p d = (a :: t).getD (p / 2 + 1) d
    rw [ih p hp2]
    rfl

theorem getD_range_double (mx q d : Nat) (hq : q < 2 * mx) :
    (List.range mx ++ List.range mx).getD q d = q % mx := by
  rcases Nat.lt_or_ge q mx with h | h
  · rw [List.getD_append _ _ _ _ (by simpa using h), getD_range_lt _ _ _ h,
      Nat.mod_eq_of_lt h]
  · have hq2 : q - mx < mx := by omega
    rw [List.getD_eq_getElem?_getD, List.getElem?_append_right (by simpa using h)]
    simp only [List.length_range]
    rw [List.getElem?_range hq2]
    have hqm : q % mx = q - mx := by
      rw [Nat.mod_eq_sub_mod h]
      exact Nat.mod_eq_of_lt hq2
    simp [hqm]

theorem cellTilePattern_length (mx : Nat) : (cellTilePattern mx).length = 4 * mx := by
  rw [cellTilePattern, length_flatMap_pairs, List.length_append, List.length_range]
  omega

theorem cellTilePattern_getD (mx p d : Nat) (hp : p < 4 * mx) :
    (cellTilePattern mx).getD p d = p / 2 % mx := by
  rw [cellTilePattern, getD_flatMap_pairs _ _ _ (by simp; omega),
    getD_range_double _ _ _ (by omega)]

theorem cellIndicesList_length (mx my : Nat) :
    (cellIndicesList mx my).length = 4 * (mx * my) := by
  rw [cellIndicesList, length_flatMap_const my (4 * mx)]
  · ring
  · intro j _
    rw [List.length_map, cellTilePattern_length]

theorem cellIndicesList_getD (mx my k d : Nat) (hk : k < 4 * (mx * my)) :
    (cellIndicesList mx my).getD k d = cellParent mx k := by
  have hmx : 0 < mx := by
    rcases Nat.eq_zero_or_pos mx with h | h
    · subst h; simp at hk
    · exact h
  rw [cellIndicesList,
    getD_flatMap_blocks my (4 * mx) _ d
      (fun j _ => by rw [List.length_map, cellTilePattern_length])
      k (lt_of_lt_of_eq hk (by ring)),
    getD_map_lt _ _ _ _ 0 (by rw [cellTilePattern_length]; exact Nat.mod_lt _ (by omega)),
    cellTilePattern_getD _ _ _ (Nat.mod_lt _ (by omega))]
  rfl

theorem cellParent_lt (mx my k : Nat) (hk : k < 4 * (mx * my)) :
    cellParent mx k < mx * my := by
  have hmx : 0 < mx := by
    rcases Nat.eq_zero_or_pos mx with h | h
    · subst h; simp at hk
    · exact h
  have hmy : 0 < my := by
    rcases Nat.eq_zero_or_pos my with h | h
    · subst h; simp at hk
    · exact h
  rw [cellParent]
  have h1 : k % (4 * mx) / 2 % mx < mx := Nat.mod_lt _ hmx
  have h2 : k / (4 * mx) < my := by
    rw [Nat.div_lt_iff_lt_mul (by omega)]
    calc k < 4 * (mx * my) := hk
    _ = my * (4 * mx) := by ring
  calc k % (4 * mx) / 2 % mx + k / (4 * mx) * mx
      < mx + k / (4 * mx) * mx := by omega
    _ = (1 + k / (4 * mx)) * mx := by ring
    _ ≤ my * mx := Nat.mul_le_mul_right mx (by omega)
    _ = mx * my := by ring

theorem entry_cellProjCore (m : Nat × Nat) (p k : Nat) :
    (cellProjCore m).entry p k =
      if p < m.1 * m.2 ∧ k < 4 * (m.1 * m.2) ∧ cellParent m.1 k = p
      then 1 else 0 := by
  rw [cellProjCore, entry_ofFun]
  by_cases hp : p < m.1 * m.2
  · by_cases hk : k < 4 * (m.1 * m.2)
    · rw [cellIndicesList_getD _ _ _ _ hk]
      by_cases hc : cellParent m.1 k = p <;> simp [hp, hk, hc]
    · simp [hp, hk]
  · simp [hp]

theorem cellParent_eq_iff (mx my k p : Nat) (hp : p < mx * my)
    (hk : k < 4 * (mx * my)) :
    cellParent mx k = p ↔
      k = p / mx * (4 * mx) + 2 * (p % mx) ∨
      k = p / mx * (4 * mx) + 2 * (p % mx) + 1 ∨
      k = p / mx * (4 * mx) + 2 * (p % mx) + 2 * mx ∨
      k = p / mx * (4 * mx) + 2 * (p % mx) + 2 * mx + 1 := by
  have hmx : 0 < mx := by
    rcases Nat.eq_zero_or_pos mx with h | h
    · subst h; simp at hp
    · exact h
  have hEm : p % mx < mx := Nat.mod_lt _ hmx
  constructor
  · intro hcp
    obtain ⟨A, B, hBlt, hkd⟩ : ∃ a b, b < 4 * mx ∧ k = 4 * mx * a + b :=
      ⟨k / (4 * mx), k % (4 * mx), Nat.mod_lt _ (by omega),
        (Nat.div_add_mod k (4 * mx)).symm⟩
    obtain ⟨s, t, htlt, hslt, hBd⟩ : ∃ s t, t < 2 * mx ∧ s < 2 ∧ B = 2 * mx * s + t :=
      ⟨B / (2 * mx), B % (2 * mx), Nat.mod_lt _ (by omega),
        by rw [Nat.div_lt_iff_lt_mul (by omega)]; omega,
        (Nat.div_add_mod B (2 * mx)).symm⟩
    have hkdiv : k / (4 * mx) = A := by
      rw [hkd, Nat.mul_comm (4 * mx) A, Nat.add_comm,
        Nat.add_mul_div_right _ _ (by omega : 0 < 4 * mx),
        Nat.div_eq_of_lt hBlt]
      omega
    have hkmod : k % (4 * mx) = B := by
      rw [hkd, Nat.mul_comm (4 * mx) A, Nat.add_comm, Nat.add_mul_mod_self_right]
      exact Nat.mod_eq_of_lt hBlt
    have hB2 : B / 2 = s * mx + t / 2 := by
      rw [hBd, show 2 * mx * s + t = t + s * mx * 2 from by ring,
        Nat.add_mul_div_right _ _ (by omega : (0:Nat) < 2)]
      omega
    have ht2 : t / 2 < mx := by omega
    have hBm : B / 2 % mx = t / 2 := by
      rw [hB2, Nat.add_comm, Nat.add_mul_mod_self_right]
      exact Nat.mod_eq_of_lt ht2
    rw [cellParent, hkdiv, hkmod, hBm] at hcp
    have h1 : p % mx = t / 2 := by
      rw [← hcp, Nat.add_mul_mod_self_right]
      exact Nat.mod_eq_of_lt ht2
    have h2 : p / mx = A := by
      rw [← hcp, Nat.add_mul_div_right _ _ hmx, Nat.div_eq_of_lt ht2]
      omega
    have hW : p / mx * (4 * mx) = 4 * mx * A := by rw [h2]; ring
    rw [hkd, hBd, hW, h1]
    interval_cases s <;> omega
  · intro hcase
    have hdm : p % mx + mx * (p / mx) = p := Nat.mod_add_div p mx
    have hfin : ∀ c, c < 4 * mx → c / 2 % mx = p % mx →
        cellParent mx (p / mx * (4 * mx) + c) = p := by
      intro c hc hcm
      rw [cellParent]
      have hdiv : (p / mx * (4 * mx) + c) / (4 * mx) = p / mx := by
        rw [Nat.add_comm, Nat.add_mul_div_right _ _ (by omega : 0 < 4 * mx),
          Nat.div_eq_of_lt hc]
        omega
      have hmod : (p / mx * (4 * mx) + c) % (4 * mx) = c := by
        rw [Nat.add_comm, Nat.add_mul_mod_self_right]
        exact Nat.mod_eq_of_lt hc
      rw [hdiv, hmod, hcm]
      calc p % mx + p / mx * mx = p % mx + mx * (p / mx) := by ring
        _ = p := hdm
    rcases hcase with h | h | h | h <;> subst h
    · exact hfin (2 * (p % mx)) (by omega) (by
        rw [show 2 * (p % mx) / 2 = p % mx from by omega]
        exact Nat.mod_eq_of_lt hEm)
    · rw [show p / mx * (4 * mx) + 2 * (p % mx) + 1
          = p / mx * (4 * mx) + (2 * (p % mx) + 1) from by omega]
      exact hfin (2 * (p % mx) + 1) (by omega) (by
        rw [show (2 * (p % mx) + 1) / 2 = p % mx from by omega]
        exact Nat.mod_eq_of_lt hEm)
    · rw [show p / mx * (4 * mx) + 2 * (p % mx) + 2 * mx
          = p / mx * (4 * mx) + (2 * (p % mx) + 2 * mx) from by omega]
      exact hfin (2 * (p % mx) + 2 * mx) (by omega) (by
        rw [show (2 * (p % mx) + 2 * mx) / 2 = p % mx + mx from by omega,
          Nat.add_mod_right]
        exact Nat.mod_eq_of_lt hEm)
    · rw [show p / mx * (4 * mx) + 2 * (p % mx) + 2 * mx + 1
          = p / mx * (4 * mx) + (2 * (p % mx) + 2 * mx + 1) from by omega]
      exact hfin (2 * (p % mx) + 2 * mx + 1) (by omega) (by
        rw [show (2 * (p % mx) + 2 * mx + 1) / 2 = p % mx + mx from by omega,
          Nat.add_mod_right]
        exact Nat.mod_eq_of_lt hEm)

theorem cellChild_lt (mx my p : Nat) (hp : p < mx * my) :
    p / mx * (4 * mx) + 2 * (p % mx) + 2 * mx + 1 < 4 * (mx * my) := by
  have hmx : 0 < mx := by
    rcases Nat.eq_zero_or_pos mx with h | h
    · subst h; simp at hp
    · exact h
  have hEm : p % mx < mx := Nat.mod_lt _ hmx
  have hD : p / mx < my := Nat.div_lt_of_lt_mul (by omega)
  have h1 : p / mx * (4 * mx) + 4 * mx ≤ my * (4 * mx) := by
    calc p / mx * (4 * mx) + 4 * mx = (p / mx + 1) * (4 * mx) := by ring
      _ ≤ my * (4 * mx) := Nat.mul_le_mul_right _ (by omega)
  have h2 : my * (4 * mx) = 4 * (mx * my) := by ring
  omega

theorem nnzRow_cellProjCore (m : Nat × Nat) (p : Nat) (hp : p < m.1 * m.2) :
    nnzRow (cellProjCore m) p = 4 := by
  obtain ⟨mx, my⟩ := m
  simp only at hp
  have hmx : 0 < mx := by
    rcases Nat.eq_zero_or_pos mx with h | h
    · subst h; simp at hp
    · exact h
  have hcols : (cellProjCore (mx, my)).cols = 4 * (mx * my) := rfl
  have hb := cellChild_lt mx my p hp
  rw [nnzRow, hcols]
  have hset : (Finset.range (4 * (mx * my))).filter
        (fun k => (cellProjCore (mx, my)).entry p k ≠ 0)
      = {p / mx * (4 * mx) + 2 * (p % mx),
         p / mx * (4 * mx) + 2 * (p % mx) + 1,
         p / mx * (4 * mx) + 2 * (p % mx) + 2 * mx,
         p / mx * (4 * mx) + 2 * (p % mx) + 2 * mx + 1} := by
    apply Finset.ext
    intro k
    simp only [Finset.mem_filter, Finset.mem_range, Finset.mem_insert,
      Finset.mem_singleton]
    constructor
    · rintro ⟨hk, hne⟩
      rw [entry_cellProjCore] at hne
      have hpar : cellParent mx k = p := by
        by_cases hc : cellParent mx k = p
        · exact hc
        · simp [hp, hk, hc] at hne
      exact (cellParent_eq_iff mx my k p hp hk).mp hpar
    · intro hm
      have hk : k < 4 * (mx * my) := by rcases hm with h | h | h | h <;> omega
      refine ⟨hk, ?_⟩
      rw [entry_cellProjCore]
      have hpar : cellParent mx k = p :=
        (cellParent_eq_iff mx my k p hp hk).mpr hm
      simp [hp, hk, hpar]
  rw [hset]
  rw [Finset.card_insert_of_not_mem
      (by simp only [Finset.mem_insert, Finset.mem_singleton]; omega),
    Finset.card_insert_of_not_mem
      (by simp only [Finset.mem_insert, Finset.mem_singleton]; omega),
    Finset.card_insert_of_not_mem (by simp only [Finset.mem_singleton]; omega),
    Finset.card_singleton]

theorem col_unique_cellProjCore (m : Nat × Nat) (k : Nat)
    (hk : k < 4 * (m.1 * m.2)) :
    ∃! p, (cellProjCore m).entry p k ≠ 0 := by
  refine ⟨cellParent m.1 k, ?_, ?_⟩
  · show (cellProjCore m).entry (cellParent m.1 k) k ≠ 0
    rw [entry_cellProjCore]
    simp [cellParent_lt m.1 m.2 k hk, hk]
  · intro p hp
    rw [entry_cellProjCore] at hp
    by_cases hc : p < m.1 * m.2 ∧ k < 4 * (m.1 * m.2) ∧ cellParent m.1 k = p
    · exact hc.2.2.symm
    · simp only [hc, if_false] at hp
      simp at hp

/-!  ## Row surjectivity of the face and node projectors -/

theorem csum_eq_countP (v : List Bool) : csum v = v.countP id := by
  rw [csum, List.countP_eq_length_filter]

theorem countP_even_range (n : Nat) :
    (List.range n).countP (fun i => i % 2 == 0) = (n + 1) / 2 := by
  induction n with
  | zero => simp
  | succ m ih =>
    rw [List.range_succ, List.countP_append, ih]
    by_cases hm : m % 2 = 0
    · simp only [List.countP_cons, List.countP_nil]
      simp [hm]
      omega
    · simp only [List.countP_cons, List.countP_nil]
      simp [hm]
      omega

theorem sum_if_even (R c : Nat) :
    ((List.range R).map (fun j => if j % 2 == 0 then c else 0)).sum
      = (R + 1) / 2 * c := by
  induction R with
  | zero => simp
  | succ m ih =>
    rw [List.range_succ, List.map_append, List.sum_append, ih]
    by_cases hm : m % 2 = 0
    · simp [hm]
      have : (m + 1 + 1) / 2 = (m + 1) / 2 + 1 := by omega
      rw [this]
      ring
    · simp [hm]
      have : (m + 1 + 1) / 2 = (m + 1) / 2 := by omega
      rw [this]
      left
      rfl

theorem countP_doMatchX (mx my : Nat) :
    (doMatchX mx my).countP id = 2 * my * (mx + 1) := by
  rw [doMatchX, countP_flatMap_sum]
  have h : ∀ j ∈ List.range (2 * my),
      ((fun _j => (List.range (2 * mx + 1)).map (fun i => i % 2 == 0)) j).countP id
        = mx + 1 := by
    intro j _
    rw [List.countP_map]
    have : (List.range (2 * mx + 1)).countP ((fun b => id b) ∘ (fun i => i % 2 == 0))
        = (List.range (2 * mx + 1)).countP (fun i => i % 2 == 0) := rfl
    rw [this, countP_even_range]
    omega
  rw [List.map_congr_left h]
  simp [List.sum_replicate, List.map_const]

theorem length_doMatchX (mx my : Nat) :
    (doMatchX mx my).length = 2 * my * (2 * mx + 1) := by
  rw [doMatchX, length_flatMap_const (2 * my) (2 * mx + 1)]
  intro j _
  simp

theorem countP_doMatchY (mx my : Nat) :
    (doMatchY mx my).countP id = (my + 1) * (2 * mx) := by
  rw [doMatchY, countP_flatMap_sum]
  have h : ∀ j ∈ List.range (2 * my + 1),
      ((fun j => (List.range (2 * mx)).map (fun _i => j % 2 == 0)) j).countP id
        = if j % 2 == 0 then 2 * mx else 0 := by
    intro j _
    by_cases hj : j % 2 = 0
    · rw [if_pos (by simpa using hj), countP_true_all]
      · simp
      · intro a ha
        rcases List.mem_map.mp ha with ⟨i, _, rfl⟩
        simpa using hj
    · rw [if_neg (by simpa using hj), countP_false_all]
      intro a ha
      rcases List.mem_map.mp ha with ⟨i, _, rfl⟩
      simpa using hj
  rw [List.map_congr_left h, sum_if_even]
  have : (2 * my + 1 + 1) / 2 = my + 1 := by omega
  rw [this]

theorem length_doMatchY (mx my : Nat) :
    (doMatchY mx my).length = (2 * my + 1) * (2 * mx) := by
  rw [doMatchY, length_flatMap_const (2 * my + 1) (2 * mx)]
  intro j _
  simp

theorem length_indicesX (mx my : Nat) :
    (indicesX mx my).length = my * (2 * (mx + 1)) := by
  rw [indicesX, length_flatMap_const my (2 * (mx + 1))]
  intro j _
  simp
  omega

theorem length_indicesY (mx my : Nat) :
    (indicesY mx my).length = (my + 1) * mx * 2 := by
  rw [indicesY, length_flatMap_const ((my + 1) * mx) 2]
  intro j _
  simp

theorem indicesX_surj (mx my p d : Nat) (hp : p < (mx + 1) * my) :
    ∃ t < (indicesX mx my).length, (indicesX mx my).getD t d = p := by
  have hmx1 : 0 < mx + 1 := by omega
  have hmy : 0 < my := by
    rcases Nat.eq_zero_or_pos my with h | h
    · subst h; simp at hp
    · exact h
  have hj : p / (mx + 1) < my := Nat.div_lt_of_lt_mul (by omega)
  have hi : p % (mx + 1) < mx + 1 := Nat.mod_lt _ hmx1
  refine ⟨p / (mx + 1) * (2 * (mx + 1)) + p % (mx + 1), ?_, ?_⟩
  · rw [length_indicesX]
    calc p / (mx + 1) * (2 * (mx + 1)) + p % (mx + 1)
        < p / (mx + 1) * (2 * (mx + 1)) + 2 * (mx + 1) := by omega
      _ = (p / (mx + 1) + 1) * (2 * (mx + 1)) := by ring
      _ ≤ my * (2 * (mx + 1)) := Nat.mul_le_mul_right _ (by omega)
  · rw [indicesX, getD_flatMap_blocks my (2 * (mx + 1)) _ d
      (fun j _ => by simp; omega)]
    · have hdiv : (p / (mx + 1) * (2 * (mx + 1)) + p % (mx + 1)) / (2 * (mx + 1))
          = p / (mx + 1) := by
        rw [Nat.add_comm, Nat.add_mul_div_right _ _ (by omega : 0 < 2 * (mx + 1)),
          Nat.div_eq_of_lt (by omega)]
        omega
      have hmod : (p / (mx + 1) * (2 * (mx + 1)) + p % (mx + 1)) % (2 * (mx + 1))
          = p % (mx + 1) := by
        rw [Nat.add_comm, Nat.add_mul_mod_self_right]
        exact Nat.mod_eq_of_lt (by omega)
      rw [hdiv, hmod, List.getD_append _ _ _ _ (by simpa using hi),
        getD_map_lt _ _ _ _ 0 (by simpa using hi),
        getD_range_lt _ _ _ hi]
      rw [Nat.mul_comm]
      exact Nat.div_add_mod p (mx + 1)
    · calc p / (mx + 1) * (2 * (mx + 1)) + p % (mx + 1)
          < (p / (mx + 1) + 1) * (2 * (mx + 1)) := by
            have : (p / (mx + 1) + 1) * (2 * (mx + 1))
                = p / (mx + 1) * (2 * (mx + 1)) + 2 * (mx + 1) := by ring
            omega
        _ ≤ my * (2 * (mx + 1)) := Nat.mul_le_mul_right _ (by omega)

theorem indicesY_surj (mx my p d : Nat) (hlo : (mx + 1) * my ≤ p)
    (hhi : p < numFacesC mx my) :
    ∃ t < (indicesY mx my).length, (indicesY mx my).getD t d = p := by
  have ht0 : p - (mx + 1) * my < (my + 1) * mx := by
    rw [numFacesC] at hhi
    have : mx * (my + 1) = (my + 1) * mx := by ring
    omega
  refine ⟨2 * (p - (mx + 1) * my), ?_, ?_⟩
  · rw [length_indicesY]
    omega
  · rw [indicesY, getD_flatMap_blocks ((my + 1) * mx) 2 _ d (fun j _ => by simp)
      _ (by omega)]
    have hdiv : 2 * (p - (mx + 1) * my) / 2 = p - (mx + 1) * my := by omega
    have hmod : 2 * (p - (mx + 1) * my) % 2 = 0 := by omega
    rw [hdiv, hmod]
    show (mx + 1) * my + (p - (mx + 1) * my) = p
    omega

theorem entry_cscOfMask (nrows : Nat) (mask : List Bool) (indices : List Nat)
    (p q : Nat) :
    (cscOfMask nrows mask indices).entry p q =
      if p < nrows ∧ q < mask.length ∧ getB mask q = true ∧
          indices.getD (rankL mask q) nrows = p
      then 1 else 0 := by
  rw [cscOfMask, entry_ofFun]
  by_cases hp : p < nrows
  · by_cases hq : q < mask.length
    · by_cases hm : mask.getD q false = true
      · by_cases hi : indices.getD (rankL mask q) nrows = p
        · simp [hp, hq, hm, hi, getB, rankL]
        · simp [hp, hq, hm, hi, getB, rankL]
      · simp [hp, hq, getB, rankL, hm]
  
    · simp [hp, hq]
  · simp [hp]

theorem cscOfMask_row_surj (nrows : Nat) (mask : List Bool) (indices : List Nat)
    (hcnt : mask.countP id = indices.length) (p : Nat) (hp : p < nrows)
    (t : Nat) (ht : t < indices.length) (hts : indices.getD t nrows = p) :
    ∃ q < mask.length, (cscOfMask nrows mask indices).entry p q = 1 := by
  obtain ⟨q, hq, hgq, hrq⟩ := rank_surj mask t (by rw [csum_eq_countP, hcnt]; exact ht)
  refine ⟨q, hq, ?_⟩
  rw [entry_cscOfMask, if_pos ⟨hp, hq, hgq, by rw [hrq]; exact hts⟩]

theorem faceProjCore_rows_cols (m : Nat × Nat) :
    (faceProjCore m).rows = numFacesC m.1 m.2 ∧
    (faceProjCore m).cols = (doMatchX m.1 m.2 ++ doMatchY m.1 m.2).length :=
  ⟨rfl, rfl⟩

theorem faceProjCore_row_surj (m : Nat × Nat) (p : Nat)
    (hp : p < numFacesC m.1 m.2) :
    ∃ q < (faceProjCore m).cols, (faceProjCore m).entry p q = 1 := by
  obtain ⟨mx, my⟩ := m
  have hcnt : (doMatchX mx my ++ doMatchY mx my).countP id
      = (indicesX mx my ++ indicesY mx my).length := by
    rw [List.countP_append, List.length_append, countP_doMatchX, countP_doMatchY,
      length_indicesX, length_indicesY]
    ring
  have hsur : ∃ t < (indicesX mx my ++ indicesY mx my).length,
      (indicesX mx my ++ indicesY mx my).getD t (numFacesC mx my) = p := by
    rcases Nat.lt_or_ge p ((mx + 1) * my) with hx | hy
    · obtain ⟨t, ht, hts⟩ := indicesX_surj mx my p (numFacesC mx my) hx
      refine ⟨t, by rw [List.length_append]; omega, ?_⟩
      rw [List.getD_append _ _ _ _ ht]
      exact hts
    · obtain ⟨t, ht, hts⟩ := indicesY_surj mx my p (numFacesC mx my) hy hp
      refine ⟨(indicesX mx my).length + t, by rw [List.length_append]; omega, ?_⟩
      rw [List.getD_eq_getElem?_getD, List.getElem?_append_right (by omega),
        show (indicesX mx my).length + t - (indicesX mx my).length = t from by omega,
        ← List.getD_eq_getElem?_getD]
      exact hts
  obtain ⟨t, ht, hts⟩ := hsur
  exact cscOfMask_row_surj _ _ _ hcnt p hp t ht hts

theorem countP_doMatchN (mx my : Nat) :
    (doMatchN mx my).countP id = (my + 1) * (mx + 1) := by
  rw [doMatchN, countP_flatMap_sum]
  have h : ∀ j ∈ List.range (2 * my + 1),
      ((fun j => (List.range (2 * mx + 1)).map
          (fun i => (i % 2 == 0) && (j % 2 == 0))) j).countP id
        = if j % 2 == 0 then mx + 1 else 0 := by
    intro j _
    by_cases hj : j % 2 = 0
    · rw [if_pos (by simpa using hj)]
      have : ∀ i, ((i % 2 == 0) && (j % 2 == 0)) = (i % 2 == 0) := by
        intro i
        simp [hj]
      rw [List.countP_map]
      have h2 : (List.range (2 * mx + 1)).countP
            ((fun b => id b) ∘ (fun i => (i % 2 == 0) && (j % 2 == 0)))
          = (List.range (2 * mx + 1)).countP (fun i => i % 2 == 0) := by
        apply List.countP_congr
        intro i _
        simp [this i]
      rw [h2, countP_even_range]
      omega
    · rw [if_neg (by simpa using hj), countP_false_all]
      intro a ha
      rcases List.mem_map.mp ha with ⟨i, _, rfl⟩
      simp [hj]
  rw [List.map_congr_left h, sum_if_even]
  have : (2 * my + 1 + 1) / 2 = my + 1 := by omega
  rw [this]

theorem nodeProjCore_row_surj (m : Nat × Nat) (p : Nat)
    (hp : p < (m.1 + 1) * (m.2 + 1)) :
    ∃ q < (nodeProjCore m).cols, (nodeProjCore m).entry p q = 1 := by
  obtain ⟨mx, my⟩ := m
  have hcnt : (doMatchN mx my).countP id
      = (List.range (((doMatchN mx my).filter id).length)).length := by
    simp [List.countP_eq_length_filter]
  have hlen : ((doMatchN mx my).filter id).length = (my + 1) * (mx + 1) := by
    rw [← List.countP_eq_length_filter, countP_doMatchN]
  have hp2 : p < ((doMatchN mx my).filter id).length := by
    rw [hlen]
    calc p < (mx + 1) * (my + 1) := hp
      _ = (my + 1) * (mx + 1) := by ring
  exact cscOfMask_row_surj _ _ _ hcnt p hp p
    (by simpa using hp2) (getD_range_lt _ _ _ hp2)

/-!  ## Unfolding lemmas for the class methods -/

theorem except_bind_ok {α β : Type} (x : Except String α)
    (f : α → Except String β) (b : β) (h : x >>= f = .ok b) :
    ∃ a, x = .ok a ∧ f a = .ok b := by
  cases x with
  | error e => simp [Bind.bind, Except.bind] at h
  | ok a => exact ⟨a, rfl, by simpa [Bind.bind, Except.bind] using h⟩

theorem except_bind_pure {α : Type} (x : Except String α) : x >>= pure = x := by
  cases x <;> rfl

theorem optErr_ok (o : Option (List SpMat)) (l : List SpMat) :
    optErr o = .ok l ↔ o = some l := by
  cases o <;> simp [optErr]

theorem listErr_ok {α : Type} (l : List α) (i : Nat) (x : α) :
    listErr l i = .ok x ↔ l.get? i = some x := by
  rw [listErr]
  cases l.get? i <;> simp

theorem cell_proj_level_ok (s : LeafState) (level : Nat) (M : SpMat)
    (h : s.cell_proj_level level (level + 1) = .ok M) :
    level + 1 < s.level_grids.length ∧
      M = cellProjCore (s.mesh_sizes.getD level (0, 0)) := by
  rw [LeafState.cell_proj_level] at h
  have hgap : ¬(((level + 1 : Nat) : Int) - (level : Nat) ≠ 1) := by
    push_cast
    ring_nf
    simp
  rw [if_neg hgap] at h
  by_cases hlt : level + 1 < s.level_grids.length
  · rw [if_pos hlt] at h
    exact ⟨hlt, by injection h with h2; exact h2.symm⟩
  · rw [if_neg hlt] at h
    simp at h

theorem face_proj_level_ok (s : LeafState) (level : Nat) (M : SpMat)
    (h : s.face_proj_level level (level + 1) = .ok M) :
    level + 1 < s.level_grids.length ∧
      M = faceProjCore (s.mesh_sizes.getD level (0, 0)) := by
  rw [LeafState.face_proj_level] at h
  have hgap : ¬(((level + 1 : Nat) : Int) - (level : Nat) ≠ 1) := by
    push_cast
    ring_nf
    simp
  rw [if_neg hgap] at h
  by_cases hlt : level + 1 < s.level_grids.length
  · rw [if_pos hlt] at h
    exact ⟨hlt, by injection h with h2; exact h2.symm⟩
  · rw [if_neg hlt] at h
    simp at h

theorem node_proj_level_ok (s : LeafState) (level : Nat) (M : SpMat)
    (h : s.node_proj_level level (level + 1) = .ok M) :
    level + 1 < s.level_grids.length ∧
      M = nodeProjCore (s.mesh_sizes.getD level (0, 0)) := by
  rw [LeafState.node_proj_level] at h
  have hgap : ¬(((level + 1 : Nat) : Int) - (level : Nat) ≠ 1) := by
    push_cast
    ring_nf
    simp
  rw [if_neg hgap] at h
  by_cases hlt : level + 1 < s.level_grids.length
  · rw [if_pos hlt] at h
    exact ⟨hlt, by injection h with h2; exact h2.symm⟩
  · rw [if_neg hlt] at h
    simp at h

theorem refine_level_ok_inv (s : LeafState) (level : Nat) (cells : CellsInput)
    (s' : LeafState) (h : refine_level s level cells = .ok s') :
    ∃ stC stF stN PL gL gL1,
      s.cell_projections = some stC ∧ s.face_projections = some stF ∧
      s.node_projections = some stN ∧ stC.get? level = some PL ∧
      level + 1 < s.level_grids.length ∧
      s.level_grids.get? level = some gL ∧
      s.level_grids.get? (level + 1) = some gL1 ∧
      s' = refineBody s level (onesAssignFalse s.num_cells cells) stC stF stN PL
        (cellProjCore (s.mesh_sizes.getD level (0, 0)))
        (faceProjCore (s.mesh_sizes.getD level (0, 0)))
        (nodeProjCore (s.mesh_sizes.getD level (0, 0))) gL gL1 := by
  rw [refine_level] at h
  obtain ⟨stC, hC, h⟩ := except_bind_ok _ _ _ h
  obtain ⟨stF, hF, h⟩ := except_bind_ok _ _ _ h
  obtain ⟨stN, hN, h⟩ := except_bind_ok _ _ _ h
  obtain ⟨PL, hPL, h⟩ := except_bind_ok _ _ _ h
  obtain ⟨pc, hpc, h⟩ := except_bind_ok _ _ _ h
  obtain ⟨pf, hpf, h⟩ := except_bind_ok _ _ _ h
  obtain ⟨pn, hpn, h⟩ := except_bind_ok _ _ _ h
  obtain ⟨gL, hgL, h⟩ := except_bind_ok _ _ _ h
  obtain ⟨gL1, hgL1, h⟩ := except_bind_ok _ _ _ h
  obtain ⟨hlt, hpc2⟩ := cell_proj_level_ok s level pc hpc
  obtain ⟨-, hpf2⟩ := face_proj_level_ok s level pf hpf
  obtain ⟨-, hpn2⟩ := node_proj_level_ok s level pn hpn
  refine ⟨stC, stF, stN, PL, gL, gL1, (optErr_ok _ _).mp hC,
    (optErr_ok _ _).mp hF, (optErr_ok _ _).mp hN, (listErr_ok _ _ _).mp hPL,
    hlt, (listErr_ok _ _ _).mp hgL, (listErr_ok _ _ _).mp hgL1, ?_⟩
  subst hpc2
  subst hpf2
  subst hpn2
  injection h with h2
  exact h2.symm

theorem pyRange_succ_self (a : Nat) : pyRange a (a + 1) = [a] := by
  rw [pyRange, List.range_succ]
  have h := List.drop_left (List.range a) [a]
  rw [List.length_range] at h
  exact h

theorem foldlM_singleton {α β : Type} (f : β → α → Except String β) (s : β)
    (a : α) : List.foldlM f s [a] = f s a := by
  show (f s a >>= fun s2 => List.foldlM f s2 []) = f s a
  rw [show (fun s2 => List.foldlM f s2 []) = (pure : β → Except String β) from rfl]
  exact except_bind_pure _

theorem refine_cells_eq (s : LeafState) (cells : CellsInput) :
    refine_cells s cells =
      refine_level (initIfNeeded s) (minCellLevel (initIfNeeded s))
        (.boolMask (loopMask (zerosAssignTrue (initIfNeeded s).num_cells cells)
          (initIfNeeded s) (minCellLevel (initIfNeeded s)))) := by
  rw [refine_cells, pyRange_succ_self, foldlM_singleton]

theorem foldl_min_le_init (l : List Nat) (a : Nat) : l.foldl Nat.min a ≤ a := by
  induction l generalizing a with
  | nil => simp
  | cons b t ih =>
    calc (b :: t).foldl Nat.min a = t.foldl Nat.min (Nat.min a b) := rfl
      _ ≤ Nat.min a b := ih _
      _ ≤ a := Nat.min_le_left _ _

theorem foldl_min_le_mem (l : List Nat) (a x : Nat) (hx : x ∈ l) :
    l.foldl Nat.min a ≤ x := by
  induction l generalizing a with
  | nil => simp at hx
  | cons b t ih =>
    rcases List.mem_cons.mp hx with rfl | hx2
    · calc (x :: t).foldl Nat.min a = t.foldl Nat.min (Nat.min a x) := rfl
        _ ≤ Nat.min a x := foldl_min_le_init _ _
        _ ≤ x := Nat.min_le_right _ _
    · exact ih _ hx2

theorem foldl_min_mem (l : List Nat) (a : Nat) :
    l.foldl Nat.min a = a ∨ l.foldl Nat.min a ∈ l := by
  induction l generalizing a with
  | nil => left; rfl
  | cons b t ih =>
    rcases ih (Nat.min a b) with h | h
    · rcases min_choice a b with hm | hm
      · left
        calc (b :: t).foldl Nat.min a = t.foldl Nat.min (Nat.min a b) := rfl
          _ = Nat.min a b := h
          _ = a := hm
      · right
        apply List.mem_cons.mpr
        left
        calc (b :: t).foldl Nat.min a = t.foldl Nat.min (Nat.min a b) := rfl
          _ = Nat.min a b := h
          _ = b := hm
    · right
      exact List.mem_cons.mpr (Or.inr h)

theorem arrMin_le (n : Nat) (f : Nat → Nat) (i : Nat) (hi : i < n) :
    arrMin n f ≤ f i := by
  apply foldl_min_le_mem
  exact List.mem_map.mpr ⟨i, List.mem_range.mpr hi, rfl⟩

theorem arrMin_attained (n : Nat) (f : Nat → Nat) (hn : 0 < n) :
    ∃ i < n, arrMin n f = f i := by
  rcases foldl_min_mem ((List.range n).map f) (f 0) with h | h
  · exact ⟨0, hn, h⟩
  · rcases List.mem_map.mp h with ⟨i, hi, hfi⟩
    exact ⟨i, List.mem_range.mp hi, hfi.symm⟩

theorem arrMin_const (n c : Nat) : arrMin n (fun _ => c) = c := by
  apply Nat.le_antisymm
  · exact foldl_min_le_init _ _
  · rcases foldl_min_mem ((List.range n).map (fun _ => c)) c with h | h
    · rw [arrMin, h]
    · rcases List.mem_map.mp h with ⟨i, -, hfi⟩
      rw [arrMin, ← hfi]

/-!  ## Field values of the refined state -/

theorem refineBody_num_cells (s : LeafState) (level : Nat) (cc0 : List Bool)
    (stC stF stN : List SpMat) (PL pc pf pn : SpMat) (gL gL1 : CartGrid2D) :
    (refineBody s level cc0 stC stF stN PL pc pf pn gL gL1).num_cells
      = csum (cellsCOf PL cc0) + csum (cellsFOf pc (cellsCOf PL cc0)) := rfl

theorem refineBody_num_faces (s : LeafState) (level : Nat) (cc0 : List Bool)
    (stC stF stN : List SpMat) (PL pc pf pn : SpMat) (gL gL1 : CartGrid2D) :
    (refineBody s level cc0 stC stF stN PL pc pf pn gL gL1).num_faces
      = csum (facesCOf pf (facesFOf gL1.cell_faces (cellsFOf pc (cellsCOf PL cc0))))
        + csum (facesFOf gL1.cell_faces (cellsFOf pc (cellsCOf PL cc0))) := rfl

theorem refineBody_num_nodes (s : LeafState) (level : Nat) (cc0 : List Bool)
    (stC stF stN : List SpMat) (PL pc pf pn : SpMat) (gL gL1 : CartGrid2D) :
    (refineBody s level cc0 stC stF stN PL pc pf pn gL gL1).num_nodes
      = csum (nodesCOf pn (nodesFOf gL1.face_nodes
          (facesFOf gL1.cell_faces (cellsFOf pc (cellsCOf PL cc0)))))
        + csum (nodesFOf gL1.face_nodes
          (facesFOf gL1.cell_faces (cellsFOf pc (cellsCOf PL cc0)))) := rfl

theorem refineBody_level_grids (s : LeafState) (level : Nat) (cc0 : List Bool)
    (stC stF stN : List SpMat) (PL pc pf pn : SpMat) (gL gL1 : CartGrid2D) :
    (refineBody s level cc0 stC stF stN PL pc pf pn gL gL1).level_grids
      = s.level_grids := rfl

theorem refineBody_cell_projections (s : LeafState) (level : Nat)
    (cc0 : List Bool) (stC stF stN : List SpMat) (PL pc pf pn : SpMat)
    (gL gL1 : CartGrid2D) :
    (refineBody s level cc0 stC stF stN PL pc pf pn gL gL1).cell_projections
      = some ((stC.set level
          (c2rOf (cellsCOf PL cc0) (cellsFOf pc (cellsCOf PL cc0)))).set
          (level + 1)
          (f2rOf (cellsCOf PL cc0) (cellsFOf pc (cellsCOf PL cc0)))) := rfl

theorem refineBody_face_projections (s : LeafState) (level : Nat)
    (cc0 : List Bool) (stC stF stN : List SpMat) (PL pc pf pn : SpMat)
    (gL gL1 : CartGrid2D) :
    ∃ a b, (refineBody s level cc0 stC stF stN PL pc pf pn gL gL1).face_projections
      = some ((stF.set level a).set (level + 1) b) := ⟨_, _, rfl⟩

theorem refineBody_node_projections (s : LeafState) (level : Nat)
    (cc0 : List Bool) (stC stF stN : List SpMat) (PL pc pf pn : SpMat)
    (gL gL1 : CartGrid2D) :
    ∃ a b, (refineBody s level cc0 stC stF stN PL pc pf pn gL gL1).node_projections
      = some ((stN.set level a).set (level + 1) b) := ⟨_, _, rfl⟩

/-!  ## The claims -/

/-- C1: each of `cell_proj_level`, `face_proj_level` and `node_proj_level`
raises the `InvalidLevelGap` condition (the `ValueError` of lines 45, 66
and 102) if and only if `level1 - level0 != 1`; in particular
`cell_proj_level(0, 2)` raises it, and `cell_proj_level(L, L+1)` succeeds
for adjacent levels inside the hierarchy. -/
theorem C1_invalid_level_gap :
    (∀ (s : LeafState) (level0 level1 : Nat),
      (s.cell_proj_level level0 level1 = .error invalidLevelGapMsg ↔
        (level1 : Int) - (level0 : Int) ≠ 1) ∧
      (s.face_proj_level level0 level1 = .error invalidLevelGapMsg ↔
        (level1 : Int) - (level0 : Int) ≠ 1) ∧
      (s.node_proj_level level0 level1 = .error invalidLevelGapMsg ↔
        (level1 : Int) - (level0 : Int) ≠ 1)) ∧
    (∀ s : LeafState, s.cell_proj_level 0 2 = .error invalidLevelGapMsg) ∧
    (∀ (s : LeafState) (level0 level1 : Nat), level0 + 1 = level1 →
      level1 < s.level_grids.length →
      ∃ M, s.cell_proj_level level0 level1 = .ok M) := by
  have hmsg : invalidLevelGapMsg ≠ indexErrorMsg := by decide
  have hmsg2 : ¬indexErrorMsg = invalidLevelGapMsg := fun h => hmsg h.symm
  refine ⟨fun s level0 level1 => ⟨?_, ?_, ?_⟩, fun s => ?_,
    fun s level0 level1 h1 h2 => ?_⟩
  · rw [LeafState.cell_proj_level]
    by_cases hgap : (level1 : Int) - (level0 : Int) ≠ 1
    · simp [hgap]
    · by_cases hlt : level1 < s.level_grids.length <;> simp [hgap, hlt, hmsg, hmsg2]
  · rw [LeafState.face_proj_level]
    by_cases hgap : (level1 : Int) - (level0 : Int) ≠ 1
    · simp [hgap]
    · by_cases hlt : level1 < s.level_grids.length <;> simp [hgap, hlt, hmsg, hmsg2]
  · rw [LeafState.node_proj_level]
    by_cases hgap : (level1 : Int) - (level0 : Int) ≠ 1
    · simp [hgap]
    · by_cases hlt : level1 < s.level_grids.length <;> simp [hgap, hlt, hmsg, hmsg2]
  · rw [LeafState.cell_proj_level]
    norm_num
  · subst h1
    rw [LeafState.cell_proj_level]
    have hgap : ¬(((level0 + 1 : Nat) : Int) - (level0 : Nat) ≠ 1) := by
      push_cast
      ring_nf
      simp
    rw [if_neg hgap, if_pos h2]
    exact ⟨_, rfl⟩

/-- C1 witness: a concrete adjacent-level projection that succeeds. -/
theorem C1_witness :
    ∃ M, (cartLeafGrid (2, 2) (1, 1) 2).cell_proj_level 0 1 = .ok M :=
  C1_invalid_level_gap.2.2 (cartLeafGrid (2, 2) (1, 1) 2) 0 1 rfl (by decide)

/-- C2: for adjacent levels the cell projection maps each fine cell to
exactly one coarse parent (one nonzero per fine-cell column) and every
coarse cell receives exactly 4 fine cells (one nonzero-count-4 row per
coarse cell), the 2×2 quartering of axis doubling. -/
theorem C2_cell_proj_structure :
    ∀ (s : LeafState) (level : Nat) (M : SpMat),
      s.cell_proj_level level (level + 1) = .ok M →
      (∀ k < M.cols, ∃! p, M.entry p k ≠ 0) ∧
      (∀ p < M.rows, nnzRow M p = 4) := by
  intro s level M h
  obtain ⟨-, hM⟩ := cell_proj_level_ok s level M h
  subst hM
  exact ⟨fun k hk => col_unique_cellProjCore _ k hk,
    fun p hp => nnzRow_cellProjCore _ p hp⟩

set_option maxRecDepth 10000 in
/-- C2 witness: the projection between levels 0 and 1 of a 2×2-base
grid. -/
theorem C2_witness :
    (∀ k < (cellProjCore (2, 2)).cols, ∃! p, (cellProjCore (2, 2)).entry p k ≠ 0) ∧
    (∀ p < (cellProjCore (2, 2)).rows, nnzRow (cellProjCore (2, 2)) p = 4) :=
  C2_cell_proj_structure (cartLeafGrid (2, 2) (1, 1) 2) 0 (cellProjCore (2, 2))
    (by rfl)

theorem except_map_pair {α β γ : Type} (E : Except String α) (f : α → β)
    (g : α → γ) (b : β) (c : γ)
    (h : E.map (fun s => (f s, g s)) = .ok (b, c)) :
    E.map f = .ok b ∧ E.map g = .ok c := by
  cases E with
  | error e => simp [Except.map] at h
  | ok s =>
    simp only [Except.map] at h ⊢
    injection h with h2
    exact ⟨by rw [show f s = b from congrArg Prod.fst h2],
      by rw [show g s = c from congrArg Prod.snd h2]⟩

set_option maxHeartbeats 4000000 in
set_option maxRecDepth 100000 in
/-- One kernel evaluation of `refine_cells([0])` on the 2×1-base
two-level grid, reading off the per-cell `cell_faces` nonzero counts and
the `(1, 0)` entries of the stored `cell_projections[1]` and of the
product `cell_projections[0] * cell_proj_level(0, 1)`. -/
theorem scenario21_eval :
    (refine_cells (cartLeafGrid (2, 1) (1, 1) 2) (.indicesI [0])).map
      (fun s =>
        ((List.range s.num_cells).map (nnzCol s.cell_faces),
          match s.cell_proj_level 0 1 with
          | .ok P =>
              some (((s.cell_projections.getD []).getD 1 (idMat 0)).entry 1 0,
                (((s.cell_projections.getD []).getD 0 (idMat 0)).mul P).entry 1 0)
          | .error _ => none))
      = .ok ([5, 4, 4, 4, 4], some (1, 0)) := by rfl

set_option maxHeartbeats 4000000 in
set_option maxRecDepth 100000 in
/-- C7: on a 2×2-base, 2-level leaf grid, refining cell 0 yields 7 active
cells, exactly 4 of them tagged level 1 and the remaining 3 tagged
level 0. -/
theorem C7_scenario_2x2 :
    (refine_cells (cartLeafGrid (2, 2) (1, 1) 2) (.indicesI [0])).map
      (fun s => (s.num_cells,
        (List.range s.num_cells).countP (fun i => s.cell_level i == 1),
        (List.range s.num_cells).countP (fun i => s.cell_level i == 0)))
      = .ok (7, 4, 3) := by rfl

/-- C5 counterexample: after refining cell 0 of a 2×1-base, 2-level leaf
grid, active cell 0 (the coarse cell adjacent to the refined region) has
5 nonzero `cell_faces` entries, not 4 — its split face is represented by
its two fine half-faces next to the three intact coarse faces. -/
theorem C5_counterexample :
    (refine_cells (cartLeafGrid (2, 1) (1, 1) 2) (.indicesI [0])).map
      (fun s => (s.num_cells, nnzCol s.cell_faces 0)) = .ok (5, 5) ∧
    (5 : Nat) ≠ 4 := by
  have hlist := (except_map_pair _ _ _ _ _ scenario21_eval).1
  refine ⟨?_, by decide⟩
  revert hlist
  cases refine_cells (cartLeafGrid (2, 1) (1, 1) 2) (.indicesI [0]) with
  | error e =>
    intro hlist
    simp [Except.map] at hlist
  | ok s =>
    intro hlist
    simp only [Except.map] at hlist ⊢
    injection hlist with h2
    have hlen : s.num_cells = 5 := by
      have := congrArg List.length h2
      rw [List.length_map, List.length_range] at this
      simpa using this
    have h0 : nnzCol s.cell_faces 0 = 5 := by
      rw [hlen, show List.range 5 = [0, 1, 2, 3, 4] from rfl] at h2
      simp only [List.map, List.cons.injEq] at h2
      exact h2.1
    rw [hlen, h0]

set_option maxHeartbeats 4000000 in
set_option maxRecDepth 100000 in
/-- Stage literals of `refine_cells([0])` on the 2×2-base two-level grid:
the stay-coarse cell flags. -/
theorem s22_cellsC :
    cellsCOf (idMat 4)
      (onesAssignFalse
        (init_projection (cartLeafGrid (2, 2) (1, 1) 2)).num_cells
        (.boolMask (loopMask
          (zerosAssignTrue
            (init_projection (cartLeafGrid (2, 2) (1, 1) 2)).num_cells
            (.indicesI [0]))
          (init_projection (cartLeafGrid (2, 2) (1, 1) 2)) 0)))
      = [false, true, true, true] := by rfl

set_option maxHeartbeats 4000000 in
set_option maxRecDepth 100000 in
/-- The promote-to-fine cell flags of the same call. -/
theorem s22_cellsF :
    cellsFOf (cellProjCore (2, 2)) [false, true, true, true]
      = [true, true, false, false, true, true, false, false, false, false, false, false, false,
        false, false, false] := by rfl

set_option maxHeartbeats 4000000 in
set_option maxRecDepth 100000 in
/-- The fine-face flags. -/
theorem s22_facesF :
    facesFOf (cartGridOf (4, 4) (1, 1)).cell_faces
      [true, true, false, false, true, true, false, false, false, false, false, false, false,
      false, false, false]
      = [true, true, true, false, false, true, true, true, false, false, false, false, false,
        false, false, false, false, false, false, false, true, true, false, false, true, true,
        false, false, true, true, false, false, false, false, false, false, false, false, false,
        false] := by rfl

set_option maxHeartbeats 4000000 in
set_option maxRecDepth 100000 in
/-- The kept-coarse face flags. -/
theorem s22_facesC :
    facesCOf (faceProjCore (2, 2))
      [true, true, true, false, false, true, true, true, false, false, false, false, false,
      false, false, false, false, false, false, false, true, true, false, false, true, true,
      false, false, true, true, false, false, false, false, false, false, false, false, false,
      false]
      = [false, false, true, true, true, true, false, true, false, true, true, true] := by rfl

set_option maxHeartbeats 4000000 in
set_option maxRecDepth 100000 in
/-- The transposed coarse-face up map on the stage flags. -/
theorem s22_upCT :
    (rfUpC [false, false, true, true, true, true, false, true, false, true, true, true]
      [true, true, true, false, false, true, true, true, false, false, false, false, false,
      false, false, false, false, false, false, false, true, true, false, false, true, true,
      false, false, true, true, false, false, false, false, false, false, false, false, false,
      false]).transpose
      = ⟨20, 12, [[0, 0, 1, 0, 0, 0, 0, 0, 0, 0, 0, 0], [0, 0, 0, 1, 0, 0, 0, 0, 0, 0, 0, 0],
        [0, 0, 0, 0, 1, 0, 0, 0, 0, 0, 0, 0], [0, 0, 0, 0, 0, 1, 0, 0, 0, 0, 0, 0], [0, 0, 0, 0,
        0, 0, 0, 1, 0, 0, 0, 0], [0, 0, 0, 0, 0, 0, 0, 0, 0, 1, 0, 0], [0, 0, 0, 0, 0, 0, 0, 0,
        0, 0, 1, 0], [0, 0, 0, 0, 0, 0, 0, 0, 0, 0, 0, 1], [0, 0, 0, 0, 0, 0, 0, 0, 0, 0, 0, 0],
        [0, 0, 0, 0, 0, 0, 0, 0, 0, 0, 0, 0], [0, 0, 0, 0, 0, 0, 0, 0, 0, 0, 0, 0], [0, 0, 0, 0,
        0, 0, 0, 0, 0, 0, 0, 0], [0, 0, 0, 0, 0, 0, 0, 0, 0, 0, 0, 0], [0, 0, 0, 0, 0, 0, 0, 0,
        0, 0, 0, 0], [0, 0, 0, 0, 0, 0, 0, 0, 0, 0, 0, 0], [0, 0, 0, 0, 0, 0, 0, 0, 0, 0, 0, 0],
        [0, 0, 0, 0, 0, 0, 0, 0, 0, 0, 0, 0], [0, 0, 0, 0, 0, 0, 0, 0, 0, 0, 0, 0], [0, 0, 0, 0,
        0, 0, 0, 0, 0, 0, 0, 0], [0, 0, 0, 0, 0, 0, 0, 0, 0, 0, 0, 0]]⟩ := by rfl

set_option maxHeartbeats 4000000 in
set_option maxRecDepth 100000 in
/-- The transposed fine-face up map on the stage flags. -/
theorem s22_upFT :
    (rfUpF [false, false, true, true, true, true, false, true, false, true, true, true]
      [true, true, true, false, false, true, true, true, false, false, false, false, false,
      false, false, false, false, false, false, false, true, true, false, false, true, true,
      false, false, true, true, false, false, false, false, false, false, false, false, false,
      false]).transpose
      = ⟨20, 40, [[0, 0, 0, 0, 0, 0, 0, 0, 0, 0, 0, 0, 0, 0, 0, 0, 0, 0, 0, 0, 0, 0, 0, 0, 0, 0,
        0, 0, 0, 0, 0, 0, 0, 0, 0, 0, 0, 0, 0, 0], [0, 0, 0, 0, 0, 0, 0, 0, 0, 0, 0, 0, 0, 0, 0,
        0, 0, 0, 0, 0, 0, 0, 0, 0, 0, 0, 0, 0, 0, 0, 0, 0, 0, 0, 0, 0, 0, 0, 0, 0], [0, 0, 0, 0,
        0, 0, 0, 0, 0, 0, 0, 0, 0, 0, 0, 0, 0, 0, 0, 0, 0, 0, 0, 0, 0, 0, 0, 0, 0, 0, 0, 0, 0,
        0, 0, 0, 0, 0, 0, 0], [0, 0, 0, 0, 0, 0, 0, 0, 0, 0, 0, 0, 0, 0, 0, 0, 0, 0, 0, 0, 0, 0,
        0, 0, 0, 0, 0, 0, 0, 0, 0, 0, 0, 0, 0, 0, 0, 0, 0, 0], [0, 0, 0, 0, 0, 0, 0, 0, 0, 0, 0,
        0, 0, 0, 0, 0, 0, 0, 0, 0, 0, 0, 0, 0, 0, 0, 0, 0, 0, 0, 0, 0, 0, 0, 0, 0, 0, 0, 0, 0],
        [0, 0, 0, 0, 0, 0, 0, 0, 0, 0, 0, 0, 0, 0, 0, 0, 0, 0, 0, 0, 0, 0, 0, 0, 0, 0, 0, 0, 0,
        0, 0, 0, 0, 0, 0, 0, 0, 0, 0, 0], [0, 0, 0, 0, 0, 0, 0, 0, 0, 0, 0, 0, 0, 0, 0, 0, 0, 0,
        0, 0, 0, 0, 0, 0, 0, 0, 0, 0, 0, 0, 0, 0, 0, 0, 0, 0, 0, 0, 0, 0], [0, 0, 0, 0, 0, 0, 0,
        0, 0, 0, 0, 0, 0, 0, 0, 0, 0, 0, 0, 0, 0, 0, 0, 0, 0, 0, 0, 0, 0, 0, 0, 0, 0, 0, 0, 0,
        0, 0, 0, 0], [1, 0, 0, 0, 0, 0, 0, 0, 0, 0, 0, 0, 0, 0, 0, 0, 0, 0, 0, 0, 0, 0, 0, 0, 0,
        0, 0, 0, 0, 0, 0, 0, 0, 0, 0, 0, 0, 0, 0, 0], [0, 1, 0, 0, 0, 0, 0, 0, 0, 0, 0, 0, 0, 0,
        0, 0, 0, 0, 0, 0, 0, 0, 0, 0, 0, 0, 0, 0, 0, 0, 0, 0, 0, 0, 0, 0, 0, 0, 0, 0], [0, 0, 1,
        0, 0, 0, 0, 0, 0, 0, 0, 0, 0, 0, 0, 0, 0, 0, 0, 0, 0, 0, 0, 0, 0, 0, 0, 0, 0, 0, 0, 0,
        0, 0, 0, 0, 0, 0, 0, 0], [0, 0, 0, 0, 0, 1, 0, 0, 0, 0, 0, 0, 0, 0, 0, 0, 0, 0, 0, 0, 0,
        0, 0, 0, 0, 0, 0, 0, 0, 0, 0, 0, 0, 0, 0, 0, 0, 0, 0, 0], [0, 0, 0, 0, 0, 0, 1, 0, 0, 0,
        0, 0, 0, 0, 0, 0, 0, 0, 0, 0, 0, 0, 0, 0, 0, 0, 0, 0, 0, 0, 0, 0, 0, 0, 0, 0, 0, 0, 0,
        0], [0, 0, 0, 0, 0, 0, 0, 1, 0, 0, 0, 0, 0, 0, 0, 0, 0, 0, 0, 0, 0, 0, 0, 0, 0, 0, 0, 0,
        0, 0, 0, 0, 0, 0, 0, 0, 0, 0, 0, 0], [0, 0, 0, 0, 0, 0, 0, 0, 0, 0, 0, 0, 0, 0, 0, 0, 0,
        0, 0, 0, 1, 0, 0, 0, 0, 0, 0, 0, 0, 0, 0, 0, 0, 0, 0, 0, 0, 0, 0, 0], [0, 0, 0, 0, 0, 0,
        0, 0, 0, 0, 0, 0, 0, 0, 0, 0, 0, 0, 0, 0, 0, 1, 0, 0, 0, 0, 0, 0, 0, 0, 0, 0, 0, 0, 0,
        0, 0, 0, 0, 0], [0, 0, 0, 0, 0, 0, 0, 0, 0, 0, 0, 0, 0, 0, 0, 0, 0, 0, 0, 0, 0, 0, 0, 0,
        1, 0, 0, 0, 0, 0, 0, 0, 0, 0, 0, 0, 0, 0, 0, 0], [0, 0, 0, 0, 0, 0, 0, 0, 0, 0, 0, 0, 0,
        0, 0, 0, 0, 0, 0, 0, 0, 0, 0, 0, 0, 1, 0, 0, 0, 0, 0, 0, 0, 0, 0, 0, 0, 0, 0, 0], [0, 0,
        0, 0, 0, 0, 0, 0, 0, 0, 0, 0, 0, 0, 0, 0, 0, 0, 0, 0, 0, 0, 0, 0, 0, 0, 0, 0, 1, 0, 0,
        0, 0, 0, 0, 0, 0, 0, 0, 0], [0, 0, 0, 0, 0, 0, 0, 0, 0, 0, 0, 0, 0, 0, 0, 0, 0, 0, 0, 0,
        0, 0, 0, 0, 0, 0, 0, 0, 0, 1, 0, 0, 0, 0, 0, 0, 0, 0, 0, 0]]⟩ := by rfl

set_option maxHeartbeats 4000000 in
set_option maxRecDepth 100000 in
/-- The transposed coarse-cell down map on the stage flags. -/
theorem s22_c2rT :
    (c2rOf [false, true, true, true]
      [true, true, false, false, true, true, false, false, false, false, false, false, false,
      false, false, false]).transpose
      = ⟨4, 7, [[0, 0, 0, 0, 0, 0, 0], [1, 0, 0, 0, 0, 0, 0], [0, 1, 0, 0, 0, 0, 0], [0, 0, 1,
        0, 0, 0, 0]]⟩ := by rfl

set_option maxHeartbeats 4000000 in
set_option maxRecDepth 100000 in
/-- The transposed fine-cell down map on the stage flags. -/
theorem s22_f2rT :
    (f2rOf [false, true, true, true]
      [true, true, false, false, true, true, false, false, false, false, false, false, false,
      false, false, false]).transpose
      = ⟨16, 7, [[0, 0, 0, 1, 0, 0, 0], [0, 0, 0, 0, 1, 0, 0], [0, 0, 0, 0, 0, 0, 0], [0, 0, 0,
        0, 0, 0, 0], [0, 0, 0, 0, 0, 1, 0], [0, 0, 0, 0, 0, 0, 1], [0, 0, 0, 0, 0, 0, 0], [0, 0,
        0, 0, 0, 0, 0], [0, 0, 0, 0, 0, 0, 0], [0, 0, 0, 0, 0, 0, 0], [0, 0, 0, 0, 0, 0, 0], [0,
        0, 0, 0, 0, 0, 0], [0, 0, 0, 0, 0, 0, 0], [0, 0, 0, 0, 0, 0, 0], [0, 0, 0, 0, 0, 0, 0],
        [0, 0, 0, 0, 0, 0, 0]]⟩ := by rfl

set_option maxHeartbeats 4000000 in
set_option maxRecDepth 100000 in
/-- The fine-face diagonal of the stage flags. -/
theorem s22_diag :
    diagBL [true, true, true, false, false, true, true, true, false, false, false, false, false, false,
    false, false, false, false, false, false, true, true, false, false, true, true, false,
    false, true, true, false, false, false, false, false, false, false, false, false, false]
      = ⟨40, 40, [[1, 0, 0, 0, 0, 0, 0, 0, 0, 0, 0, 0, 0, 0, 0, 0, 0, 0, 0, 0, 0, 0, 0, 0, 0, 0,
        0, 0, 0, 0, 0, 0, 0, 0, 0, 0, 0, 0, 0, 0], [0, 1, 0, 0, 0, 0, 0, 0, 0, 0, 0, 0, 0, 0, 0,
        0, 0, 0, 0, 0, 0, 0, 0, 0, 0, 0, 0, 0, 0, 0, 0, 0, 0, 0, 0, 0, 0, 0, 0, 0], [0, 0, 1, 0,
        0, 0, 0, 0, 0, 0, 0, 0, 0, 0, 0, 0, 0, 0, 0, 0, 0, 0, 0, 0, 0, 0, 0, 0, 0, 0, 0, 0, 0,
        0, 0, 0, 0, 0, 0, 0], [0, 0, 0, 0, 0, 0, 0, 0, 0, 0, 0, 0, 0, 0, 0, 0, 0, 0, 0, 0, 0, 0,
        0, 0, 0, 0, 0, 0, 0, 0, 0, 0, 0, 0, 0, 0, 0, 0, 0, 0], [0, 0, 0, 0, 0, 0, 0, 0, 0, 0, 0,
        0, 0, 0, 0, 0, 0, 0, 0, 0, 0, 0, 0, 0, 0, 0, 0, 0, 0, 0, 0, 0, 0, 0, 0, 0, 0, 0, 0, 0],
        [0, 0, 0, 0, 0, 1, 0, 0, 0, 0, 0, 0, 0, 0, 0, 0, 0, 0, 0, 0, 0, 0, 0, 0, 0, 0, 0, 0, 0,
        0, 0, 0, 0, 0, 0, 0, 0, 0, 0, 0], [0, 0, 0, 0, 0, 0, 1, 0, 0, 0, 0, 0, 0, 0, 0, 0, 0, 0,
        0, 0, 0, 0, 0, 0, 0, 0, 0, 0, 0, 0, 0, 0, 0, 0, 0, 0, 0, 0, 0, 0], [0, 0, 0, 0, 0, 0, 0,
        1, 0, 0, 0, 0, 0, 0, 0, 0, 0, 0, 0, 0, 0, 0, 0, 0, 0, 0, 0, 0, 0, 0, 0, 0, 0, 0, 0, 0,
        0, 0, 0, 0], [0, 0, 0, 0, 0, 0, 0, 0, 0, 0, 0, 0, 0, 0, 0, 0, 0, 0, 0, 0, 0, 0, 0, 0, 0,
        0, 0, 0, 0, 0, 0, 0, 0, 0, 0, 0, 0, 0, 0, 0], [0, 0, 0, 0, 0, 0, 0, 0, 0, 0, 0, 0, 0, 0,
        0, 0, 0, 0, 0, 0, 0, 0, 0, 0, 0, 0, 0, 0, 0, 0, 0, 0, 0, 0, 0, 0, 0, 0, 0, 0], [0, 0, 0,
        0, 0, 0, 0, 0, 0, 0, 0, 0, 0, 0, 0, 0, 0, 0, 0, 0, 0, 0, 0, 0, 0, 0, 0, 0, 0, 0, 0, 0,
        0, 0, 0, 0, 0, 0, 0, 0], [0, 0, 0, 0, 0, 0, 0, 0, 0, 0, 0, 0, 0, 0, 0, 0, 0, 0, 0, 0, 0,
        0, 0, 0, 0, 0, 0, 0, 0, 0, 0, 0, 0, 0, 0, 0, 0, 0, 0, 0], [0, 0, 0, 0, 0, 0, 0, 0, 0, 0,
        0, 0, 0, 0, 0, 0, 0, 0, 0, 0, 0, 0, 0, 0, 0, 0, 0, 0, 0, 0, 0, 0, 0, 0, 0, 0, 0, 0, 0,
        0], [0, 0, 0, 0, 0, 0, 0, 0, 0, 0, 0, 0, 0, 0, 0, 0, 0, 0, 0, 0, 0, 0, 0, 0, 0, 0, 0, 0,
        0, 0, 0, 0, 0, 0, 0, 0, 0, 0, 0, 0], [0, 0, 0, 0, 0, 0, 0, 0, 0, 0, 0, 0, 0, 0, 0, 0, 0,
        0, 0, 0, 0, 0, 0, 0, 0, 0, 0, 0, 0, 0, 0, 0, 0, 0, 0, 0, 0, 0, 0, 0], [0, 0, 0, 0, 0, 0,
        0, 0, 0, 0, 0, 0, 0, 0, 0, 0, 0, 0, 0, 0, 0, 0, 0, 0, 0, 0, 0, 0, 0, 0, 0, 0, 0, 0, 0,
        0, 0, 0, 0, 0], [0, 0, 0, 0, 0, 0, 0, 0, 0, 0, 0, 0, 0, 0, 0, 0, 0, 0, 0, 0, 0, 0, 0, 0,
        0, 0, 0, 0, 0, 0, 0, 0, 0, 0, 0, 0, 0, 0, 0, 0], [0, 0, 0, 0, 0, 0, 0, 0, 0, 0, 0, 0, 0,
        0, 0, 0, 0, 0, 0, 0, 0, 0, 0, 0, 0, 0, 0, 0, 0, 0, 0, 0, 0, 0, 0, 0, 0, 0, 0, 0], [0, 0,
        0, 0, 0, 0, 0, 0, 0, 0, 0, 0, 0, 0, 0, 0, 0, 0, 0, 0, 0, 0, 0, 0, 0, 0, 0, 0, 0, 0, 0,
        0, 0, 0, 0, 0, 0, 0, 0, 0], [0, 0, 0, 0, 0, 0, 0, 0, 0, 0, 0, 0, 0, 0, 0, 0, 0, 0, 0, 0,
        0, 0, 0, 0, 0, 0, 0, 0, 0, 0, 0, 0, 0, 0, 0, 0, 0, 0, 0, 0], [0, 0, 0, 0, 0, 0, 0, 0, 0,
        0, 0, 0, 0, 0, 0, 0, 0, 0, 0, 0, 1, 0, 0, 0, 0, 0, 0, 0, 0, 0, 0, 0, 0, 0, 0, 0, 0, 0,
        0, 0], [0, 0, 0, 0, 0, 0, 0, 0, 0, 0, 0, 0, 0, 0, 0, 0, 0, 0, 0, 0, 0, 1, 0, 0, 0, 0, 0,
        0, 0, 0, 0, 0, 0, 0, 0, 0, 0, 0, 0, 0], [0, 0, 0, 0, 0, 0, 0, 0, 0, 0, 0, 0, 0, 0, 0, 0,
        0, 0, 0, 0, 0, 0, 0, 0, 0, 0, 0, 0, 0, 0, 0, 0, 0, 0, 0, 0, 0, 0, 0, 0], [0, 0, 0, 0, 0,
        0, 0, 0, 0, 0, 0, 0, 0, 0, 0, 0, 0, 0, 0, 0, 0, 0, 0, 0, 0, 0, 0, 0, 0, 0, 0, 0, 0, 0,
        0, 0, 0, 0, 0, 0], [0, 0, 0, 0, 0, 0, 0, 0, 0, 0, 0, 0, 0, 0, 0, 0, 0, 0, 0, 0, 0, 0, 0,
        0, 1, 0, 0, 0, 0, 0, 0, 0, 0, 0, 0, 0, 0, 0, 0, 0], [0, 0, 0, 0, 0, 0, 0, 0, 0, 0, 0, 0,
        0, 0, 0, 0, 0, 0, 0, 0, 0, 0, 0, 0, 0, 1, 0, 0, 0, 0, 0, 0, 0, 0, 0, 0, 0, 0, 0, 0], [0,
        0, 0, 0, 0, 0, 0, 0, 0, 0, 0, 0, 0, 0, 0, 0, 0, 0, 0, 0, 0, 0, 0, 0, 0, 0, 0, 0, 0, 0,
        0, 0, 0, 0, 0, 0, 0, 0, 0, 0], [0, 0, 0, 0, 0, 0, 0, 0, 0, 0, 0, 0, 0, 0, 0, 0, 0, 0, 0,
        0, 0, 0, 0, 0, 0, 0, 0, 0, 0, 0, 0, 0, 0, 0, 0, 0, 0, 0, 0, 0], [0, 0, 0, 0, 0, 0, 0, 0,
        0, 0, 0, 0, 0, 0, 0, 0, 0, 0, 0, 0, 0, 0, 0, 0, 0, 0, 0, 0, 1, 0, 0, 0, 0, 0, 0, 0, 0,
        0, 0, 0], [0, 0, 0, 0, 0, 0, 0, 0, 0, 0, 0, 0, 0, 0, 0, 0, 0, 0, 0, 0, 0, 0, 0, 0, 0, 0,
        0, 0, 0, 1, 0, 0, 0, 0, 0, 0, 0, 0, 0, 0], [0, 0, 0, 0, 0, 0, 0, 0, 0, 0, 0, 0, 0, 0, 0,
        0, 0, 0, 0, 0, 0, 0, 0, 0, 0, 0, 0, 0, 0, 0, 0, 0, 0, 0, 0, 0, 0, 0, 0, 0], [0, 0, 0, 0,
        0, 0, 0, 0, 0, 0, 0, 0, 0, 0, 0, 0, 0, 0, 0, 0, 0, 0, 0, 0, 0, 0, 0, 0, 0, 0, 0, 0, 0,
        0, 0, 0, 0, 0, 0, 0], [0, 0, 0, 0, 0, 0, 0, 0, 0, 0, 0, 0, 0, 0, 0, 0, 0, 0, 0, 0, 0, 0,
        0, 0, 0, 0, 0, 0, 0, 0, 0, 0, 0, 0, 0, 0, 0, 0, 0, 0], [0, 0, 0, 0, 0, 0, 0, 0, 0, 0, 0,
        0, 0, 0, 0, 0, 0, 0, 0, 0, 0, 0, 0, 0, 0, 0, 0, 0, 0, 0, 0, 0, 0, 0, 0, 0, 0, 0, 0, 0],
        [0, 0, 0, 0, 0, 0, 0, 0, 0, 0, 0, 0, 0, 0, 0, 0, 0, 0, 0, 0, 0, 0, 0, 0, 0, 0, 0, 0, 0,
        0, 0, 0, 0, 0, 0, 0, 0, 0, 0, 0], [0, 0, 0, 0, 0, 0, 0, 0, 0, 0, 0, 0, 0, 0, 0, 0, 0, 0,
        0, 0, 0, 0, 0, 0, 0, 0, 0, 0, 0, 0, 0, 0, 0, 0, 0, 0, 0, 0, 0, 0], [0, 0, 0, 0, 0, 0, 0,
        0, 0, 0, 0, 0, 0, 0, 0, 0, 0, 0, 0, 0, 0, 0, 0, 0, 0, 0, 0, 0, 0, 0, 0, 0, 0, 0, 0, 0,
        0, 0, 0, 0], [0, 0, 0, 0, 0, 0, 0, 0, 0, 0, 0, 0, 0, 0, 0, 0, 0, 0, 0, 0, 0, 0, 0, 0, 0,
        0, 0, 0, 0, 0, 0, 0, 0, 0, 0, 0, 0, 0, 0, 0], [0, 0, 0, 0, 0, 0, 0, 0, 0, 0, 0, 0, 0, 0,
        0, 0, 0, 0, 0, 0, 0, 0, 0, 0, 0, 0, 0, 0, 0, 0, 0, 0, 0, 0, 0, 0, 0, 0, 0, 0], [0, 0, 0,
        0, 0, 0, 0, 0, 0, 0, 0, 0, 0, 0, 0, 0, 0, 0, 0, 0, 0, 0, 0, 0, 0, 0, 0, 0, 0, 0, 0, 0,
        0, 0, 0, 0, 0, 0, 0, 0]]⟩ := by rfl

set_option maxHeartbeats 4000000 in
set_option maxRecDepth 100000 in
/-- The face projector between levels 0 and 1 of the 2×2 base. -/
theorem s22_proj :
    faceProjCore (2, 2)
      = ⟨12, 40, [[1, 0, 0, 0, 0, 1, 0, 0, 0, 0, 0, 0, 0, 0, 0, 0, 0, 0, 0, 0, 0, 0, 0, 0, 0, 0,
        0, 0, 0, 0, 0, 0, 0, 0, 0, 0, 0, 0, 0, 0], [0, 0, 1, 0, 0, 0, 0, 1, 0, 0, 0, 0, 0, 0, 0,
        0, 0, 0, 0, 0, 0, 0, 0, 0, 0, 0, 0, 0, 0, 0, 0, 0, 0, 0, 0, 0, 0, 0, 0, 0], [0, 0, 0, 0,
        1, 0, 0, 0, 0, 1, 0, 0, 0, 0, 0, 0, 0, 0, 0, 0, 0, 0, 0, 0, 0, 0, 0, 0, 0, 0, 0, 0, 0,
        0, 0, 0, 0, 0, 0, 0], [0, 0, 0, 0, 0, 0, 0, 0, 0, 0, 1, 0, 0, 0, 0, 1, 0, 0, 0, 0, 0, 0,
        0, 0, 0, 0, 0, 0, 0, 0, 0, 0, 0, 0, 0, 0, 0, 0, 0, 0], [0, 0, 0, 0, 0, 0, 0, 0, 0, 0, 0,
        0, 1, 0, 0, 0, 0, 1, 0, 0, 0, 0, 0, 0, 0, 0, 0, 0, 0, 0, 0, 0, 0, 0, 0, 0, 0, 0, 0, 0],
        [0, 0, 0, 0, 0, 0, 0, 0, 0, 0, 0, 0, 0, 0, 1, 0, 0, 0, 0, 1, 0, 0, 0, 0, 0, 0, 0, 0, 0,
        0, 0, 0, 0, 0, 0, 0, 0, 0, 0, 0], [0, 0, 0, 0, 0, 0, 0, 0, 0, 0, 0, 0, 0, 0, 0, 0, 0, 0,
        0, 0, 1, 1, 0, 0, 0, 0, 0, 0, 0, 0, 0, 0, 0, 0, 0, 0, 0, 0, 0, 0], [0, 0, 0, 0, 0, 0, 0,
        0, 0, 0, 0, 0, 0, 0, 0, 0, 0, 0, 0, 0, 0, 0, 1, 1, 0, 0, 0, 0, 0, 0, 0, 0, 0, 0, 0, 0,
        0, 0, 0, 0], [0, 0, 0, 0, 0, 0, 0, 0, 0, 0, 0, 0, 0, 0, 0, 0, 0, 0, 0, 0, 0, 0, 0, 0, 0,
        0, 0, 0, 1, 1, 0, 0, 0, 0, 0, 0, 0, 0, 0, 0], [0, 0, 0, 0, 0, 0, 0, 0, 0, 0, 0, 0, 0, 0,
        0, 0, 0, 0, 0, 0, 0, 0, 0, 0, 0, 0, 0, 0, 0, 0, 1, 1, 0, 0, 0, 0, 0, 0, 0, 0], [0, 0, 0,
        0, 0, 0, 0, 0, 0, 0, 0, 0, 0, 0, 0, 0, 0, 0, 0, 0, 0, 0, 0, 0, 0, 0, 0, 0, 0, 0, 0, 0,
        0, 0, 0, 0, 1, 1, 0, 0], [0, 0, 0, 0, 0, 0, 0, 0, 0, 0, 0, 0, 0, 0, 0, 0, 0, 0, 0, 0, 0,
        0, 0, 0, 0, 0, 0, 0, 0, 0, 0, 0, 0, 0, 0, 0, 0, 0, 1, 1]]⟩ := by rfl

set_option maxHeartbeats 4000000 in
set_option maxRecDepth 100000 in
/-- Its transpose. -/
theorem s22_projT :
    SpMat.transpose ⟨12, 40, [[1, 0, 0, 0, 0, 1, 0, 0, 0, 0, 0, 0, 0, 0, 0, 0, 0, 0, 0, 0, 0, 0, 0, 0, 0, 0, 0,
    0, 0, 0, 0, 0, 0, 0, 0, 0, 0, 0, 0, 0], [0, 0, 1, 0, 0, 0, 0, 1, 0, 0, 0, 0, 0, 0, 0, 0, 0,
    0, 0, 0, 0, 0, 0, 0, 0, 0, 0, 0, 0, 0, 0, 0, 0, 0, 0, 0, 0, 0, 0, 0], [0, 0, 0, 0, 1, 0, 0,
    0, 0, 1, 0, 0, 0, 0, 0, 0, 0, 0, 0, 0, 0, 0, 0, 0, 0, 0, 0, 0, 0, 0, 0, 0, 0, 0, 0, 0, 0, 0,
    0, 0], [0, 0, 0, 0, 0, 0, 0, 0, 0, 0, 1, 0, 0, 0, 0, 1, 0, 0, 0, 0, 0, 0, 0, 0, 0, 0, 0, 0,
    0, 0, 0, 0, 0, 0, 0, 0, 0, 0, 0, 0], [0, 0, 0, 0, 0, 0, 0, 0, 0, 0, 0, 0, 1, 0, 0, 0, 0, 1,
    0, 0, 0, 0, 0, 0, 0, 0, 0, 0, 0, 0, 0, 0, 0, 0, 0, 0, 0, 0, 0, 0], [0, 0, 0, 0, 0, 0, 0, 0,
    0, 0, 0, 0, 0, 0, 1, 0, 0, 0, 0, 1, 0, 0, 0, 0, 0, 0, 0, 0, 0, 0, 0, 0, 0, 0, 0, 0, 0, 0, 0,
    0], [0, 0, 0, 0, 0, 0, 0, 0, 0, 0, 0, 0, 0, 0, 0, 0, 0, 0, 0, 0, 1, 1, 0, 0, 0, 0, 0, 0, 0,
    0, 0, 0, 0, 0, 0, 0, 0, 0, 0, 0], [0, 0, 0, 0, 0, 0, 0, 0, 0, 0, 0, 0, 0, 0, 0, 0, 0, 0, 0,
    0, 0, 0, 1, 1, 0, 0, 0, 0, 0, 0, 0, 0, 0, 0, 0, 0, 0, 0, 0, 0], [0, 0, 0, 0, 0, 0, 0, 0, 0,
    0, 0, 0, 0, 0, 0, 0, 0, 0, 0, 0, 0, 0, 0, 0, 0, 0, 0, 0, 1, 1, 0, 0, 0, 0, 0, 0, 0, 0, 0,
    0], [0, 0, 0, 0, 0, 0, 0, 0, 0, 0, 0, 0, 0, 0, 0, 0, 0, 0, 0, 0, 0, 0, 0, 0, 0, 0, 0, 0, 0,
    0, 1, 1, 0, 0, 0, 0, 0, 0, 0, 0], [0, 0, 0, 0, 0, 0, 0, 0, 0, 0, 0, 0, 0, 0, 0, 0, 0, 0, 0,
    0, 0, 0, 0, 0, 0, 0, 0, 0, 0, 0, 0, 0, 0, 0, 0, 0, 1, 1, 0, 0], [0, 0, 0, 0, 0, 0, 0, 0, 0,
    0, 0, 0, 0, 0, 0, 0, 0, 0, 0, 0, 0, 0, 0, 0, 0, 0, 0, 0, 0, 0, 0, 0, 0, 0, 0, 0, 0, 0, 1,
    1]]⟩
      = ⟨40, 12, [[1, 0, 0, 0, 0, 0, 0, 0, 0, 0, 0, 0], [0, 0, 0, 0, 0, 0, 0, 0, 0, 0, 0, 0],
        [0, 1, 0, 0, 0, 0, 0, 0, 0, 0, 0, 0], [0, 0, 0, 0, 0, 0, 0, 0, 0, 0, 0, 0], [0, 0, 1, 0,
        0, 0, 0, 0, 0, 0, 0, 0], [1, 0, 0, 0, 0, 0, 0, 0, 0, 0, 0, 0], [0, 0, 0, 0, 0, 0, 0, 0,
        0, 0, 0, 0], [0, 1, 0, 0, 0, 0, 0, 0, 0, 0, 0, 0], [0, 0, 0, 0, 0, 0, 0, 0, 0, 0, 0, 0],
        [0, 0, 1, 0, 0, 0, 0, 0, 0, 0, 0, 0], [0, 0, 0, 1, 0, 0, 0, 0, 0, 0, 0, 0], [0, 0, 0, 0,
        0, 0, 0, 0, 0, 0, 0, 0], [0, 0, 0, 0, 1, 0, 0, 0, 0, 0, 0, 0], [0, 0, 0, 0, 0, 0, 0, 0,
        0, 0, 0, 0], [0, 0, 0, 0, 0, 1, 0, 0, 0, 0, 0, 0], [0, 0, 0, 1, 0, 0, 0, 0, 0, 0, 0, 0],
        [0, 0, 0, 0, 0, 0, 0, 0, 0, 0, 0, 0], [0, 0, 0, 0, 1, 0, 0, 0, 0, 0, 0, 0], [0, 0, 0, 0,
        0, 0, 0, 0, 0, 0, 0, 0], [0, 0, 0, 0, 0, 1, 0, 0, 0, 0, 0, 0], [0, 0, 0, 0, 0, 0, 1, 0,
        0, 0, 0, 0], [0, 0, 0, 0, 0, 0, 1, 0, 0, 0, 0, 0], [0, 0, 0, 0, 0, 0, 0, 1, 0, 0, 0, 0],
        [0, 0, 0, 0, 0, 0, 0, 1, 0, 0, 0, 0], [0, 0, 0, 0, 0, 0, 0, 0, 0, 0, 0, 0], [0, 0, 0, 0,
        0, 0, 0, 0, 0, 0, 0, 0], [0, 0, 0, 0, 0, 0, 0, 0, 0, 0, 0, 0], [0, 0, 0, 0, 0, 0, 0, 0,
        0, 0, 0, 0], [0, 0, 0, 0, 0, 0, 0, 0, 1, 0, 0, 0], [0, 0, 0, 0, 0, 0, 0, 0, 1, 0, 0, 0],
        [0, 0, 0, 0, 0, 0, 0, 0, 0, 1, 0, 0], [0, 0, 0, 0, 0, 0, 0, 0, 0, 1, 0, 0], [0, 0, 0, 0,
        0, 0, 0, 0, 0, 0, 0, 0], [0, 0, 0, 0, 0, 0, 0, 0, 0, 0, 0, 0], [0, 0, 0, 0, 0, 0, 0, 0,
        0, 0, 0, 0], [0, 0, 0, 0, 0, 0, 0, 0, 0, 0, 0, 0], [0, 0, 0, 0, 0, 0, 0, 0, 0, 0, 1, 0],
        [0, 0, 0, 0, 0, 0, 0, 0, 0, 0, 1, 0], [0, 0, 0, 0, 0, 0, 0, 0, 0, 0, 0, 1], [0, 0, 0, 0,
        0, 0, 0, 0, 0, 0, 0, 1]]⟩ := by rfl

set_option maxHeartbeats 4000000 in
set_option maxRecDepth 100000 in
/-- The coarse level grid's signed cell-face incidence. -/
theorem s22_cf0 :
    (cartGridOf (2, 2) (1, 1)).cell_faces
      = ⟨12, 4, [[-1, 0, 0, 0], [1, -1, 0, 0], [0, 1, 0, 0], [0, 0, -1, 0], [0, 0, 1, -1], [0,
        0, 0, 1], [-1, 0, 0, 0], [0, -1, 0, 0], [1, 0, -1, 0], [0, 1, 0, -1], [0, 0, 1, 0], [0,
        0, 0, 1]]⟩ := by rfl

set_option maxHeartbeats 4000000 in
set_option maxRecDepth 100000 in
/-- The fine level grid's signed cell-face incidence. -/
theorem s22_cf1 :
    (cartGridOf (4, 4) (1, 1)).cell_faces
      = ⟨40, 16, [[-1, 0, 0, 0, 0, 0, 0, 0, 0, 0, 0, 0, 0, 0, 0, 0], [1, -1, 0, 0, 0, 0, 0, 0,
        0, 0, 0, 0, 0, 0, 0, 0], [0, 1, -1, 0, 0, 0, 0, 0, 0, 0, 0, 0, 0, 0, 0, 0], [0, 0, 1,
        -1, 0, 0, 0, 0, 0, 0, 0, 0, 0, 0, 0, 0], [0, 0, 0, 1, 0, 0, 0, 0, 0, 0, 0, 0, 0, 0, 0,
        0], [0, 0, 0, 0, -1, 0, 0, 0, 0, 0, 0, 0, 0, 0, 0, 0], [0, 0, 0, 0, 1, -1, 0, 0, 0, 0,
        0, 0, 0, 0, 0, 0], [0, 0, 0, 0, 0, 1, -1, 0, 0, 0, 0, 0, 0, 0, 0, 0], [0, 0, 0, 0, 0, 0,
        1, -1, 0, 0, 0, 0, 0, 0, 0, 0], [0, 0, 0, 0, 0, 0, 0, 1, 0, 0, 0, 0, 0, 0, 0, 0], [0, 0,
        0, 0, 0, 0, 0, 0, -1, 0, 0, 0, 0, 0, 0, 0], [0, 0, 0, 0, 0, 0, 0, 0, 1, -1, 0, 0, 0, 0,
        0, 0], [0, 0, 0, 0, 0, 0, 0, 0, 0, 1, -1, 0, 0, 0, 0, 0], [0, 0, 0, 0, 0, 0, 0, 0, 0, 0,
        1, -1, 0, 0, 0, 0], [0, 0, 0, 0, 0, 0, 0, 0, 0, 0, 0, 1, 0, 0, 0, 0], [0, 0, 0, 0, 0, 0,
        0, 0, 0, 0, 0, 0, -1, 0, 0, 0], [0, 0, 0, 0, 0, 0, 0, 0, 0, 0, 0, 0, 1, -1, 0, 0], [0,
        0, 0, 0, 0, 0, 0, 0, 0, 0, 0, 0, 0, 1, -1, 0], [0, 0, 0, 0, 0, 0, 0, 0, 0, 0, 0, 0, 0,
        0, 1, -1], [0, 0, 0, 0, 0, 0, 0, 0, 0, 0, 0, 0, 0, 0, 0, 1], [-1, 0, 0, 0, 0, 0, 0, 0,
        0, 0, 0, 0, 0, 0, 0, 0], [0, -1, 0, 0, 0, 0, 0, 0, 0, 0, 0, 0, 0, 0, 0, 0], [0, 0, -1,
        0, 0, 0, 0, 0, 0, 0, 0, 0, 0, 0, 0, 0], [0, 0, 0, -1, 0, 0, 0, 0, 0, 0, 0, 0, 0, 0, 0,
        0], [1, 0, 0, 0, -1, 0, 0, 0, 0, 0, 0, 0, 0, 0, 0, 0], [0, 1, 0, 0, 0, -1, 0, 0, 0, 0,
        0, 0, 0, 0, 0, 0], [0, 0, 1, 0, 0, 0, -1, 0, 0, 0, 0, 0, 0, 0, 0, 0], [0, 0, 0, 1, 0, 0,
        0, -1, 0, 0, 0, 0, 0, 0, 0, 0], [0, 0, 0, 0, 1, 0, 0, 0, -1, 0, 0, 0, 0, 0, 0, 0], [0,
        0, 0, 0, 0, 1, 0, 0, 0, -1, 0, 0, 0, 0, 0, 0], [0, 0, 0, 0, 0, 0, 1, 0, 0, 0, -1, 0, 0,
        0, 0, 0], [0, 0, 0, 0, 0, 0, 0, 1, 0, 0, 0, -1, 0, 0, 0, 0], [0, 0, 0, 0, 0, 0, 0, 0, 1,
        0, 0, 0, -1, 0, 0, 0], [0, 0, 0, 0, 0, 0, 0, 0, 0, 1, 0, 0, 0, -1, 0, 0], [0, 0, 0, 0,
        0, 0, 0, 0, 0, 0, 1, 0, 0, 0, -1, 0], [0, 0, 0, 0, 0, 0, 0, 0, 0, 0, 0, 1, 0, 0, 0, -1],
        [0, 0, 0, 0, 0, 0, 0, 0, 0, 0, 0, 0, 1, 0, 0, 0], [0, 0, 0, 0, 0, 0, 0, 0, 0, 0, 0, 0,
        0, 1, 0, 0], [0, 0, 0, 0, 0, 0, 0, 0, 0, 0, 0, 0, 0, 0, 1, 0], [0, 0, 0, 0, 0, 0, 0, 0,
        0, 0, 0, 0, 0, 0, 0, 1]]⟩ := by rfl

set_option maxHeartbeats 4000000 in
set_option maxRecDepth 100000 in
/-- First factor pair of the coarse-coarse term. -/
theorem s22_m1 :
    SpMat.mul ⟨20, 12, [[0, 0, 1, 0, 0, 0, 0, 0, 0, 0, 0, 0], [0, 0, 0, 1, 0, 0, 0, 0, 0, 0, 0, 0], [0, 0,
    0, 0, 1, 0, 0, 0, 0, 0, 0, 0], [0, 0, 0, 0, 0, 1, 0, 0, 0, 0, 0, 0], [0, 0, 0, 0, 0, 0, 0,
    1, 0, 0, 0, 0], [0, 0, 0, 0, 0, 0, 0, 0, 0, 1, 0, 0], [0, 0, 0, 0, 0, 0, 0, 0, 0, 0, 1, 0],
    [0, 0, 0, 0, 0, 0, 0, 0, 0, 0, 0, 1], [0, 0, 0, 0, 0, 0, 0, 0, 0, 0, 0, 0], [0, 0, 0, 0, 0,
    0, 0, 0, 0, 0, 0, 0], [0, 0, 0, 0, 0, 0, 0, 0, 0, 0, 0, 0], [0, 0, 0, 0, 0, 0, 0, 0, 0, 0,
    0, 0], [0, 0, 0, 0, 0, 0, 0, 0, 0, 0, 0, 0], [0, 0, 0, 0, 0, 0, 0, 0, 0, 0, 0, 0], [0, 0, 0,
    0, 0, 0, 0, 0, 0, 0, 0, 0], [0, 0, 0, 0, 0, 0, 0, 0, 0, 0, 0, 0], [0, 0, 0, 0, 0, 0, 0, 0,
    0, 0, 0, 0], [0, 0, 0, 0, 0, 0, 0, 0, 0, 0, 0, 0], [0, 0, 0, 0, 0, 0, 0, 0, 0, 0, 0, 0], [0,
    0, 0, 0, 0, 0, 0, 0, 0, 0, 0, 0]]⟩
      ⟨12, 4, [[-1, 0, 0, 0], [1, -1, 0, 0], [0, 1, 0, 0], [0, 0, -1, 0], [0, 0, 1, -1], [0, 0,
      0, 1], [-1, 0, 0, 0], [0, -1, 0, 0], [1, 0, -1, 0], [0, 1, 0, -1], [0, 0, 1, 0], [0, 0, 0,
      1]]⟩
      = ⟨20, 4, [[0, 1, 0, 0], [0, 0, -1, 0], [0, 0, 1, -1], [0, 0, 0, 1], [0, -1, 0, 0], [0, 1,
        0, -1], [0, 0, 1, 0], [0, 0, 0, 1], [0, 0, 0, 0], [0, 0, 0, 0], [0, 0, 0, 0], [0, 0, 0,
        0], [0, 0, 0, 0], [0, 0, 0, 0], [0, 0, 0, 0], [0, 0, 0, 0], [0, 0, 0, 0], [0, 0, 0, 0],
        [0, 0, 0, 0], [0, 0, 0, 0]]⟩ := by rfl

set_option maxHeartbeats 4000000 in
set_option maxRecDepth 100000 in
/-- The coarse-coarse term of the merged `cell_faces`. -/
theorem s22_t1 :
    SpMat.mul ⟨20, 4, [[0, 1, 0, 0], [0, 0, -1, 0], [0, 0, 1, -1], [0, 0, 0, 1], [0, -1, 0, 0], [0, 1, 0,
    -1], [0, 0, 1, 0], [0, 0, 0, 1], [0, 0, 0, 0], [0, 0, 0, 0], [0, 0, 0, 0], [0, 0, 0, 0], [0,
    0, 0, 0], [0, 0, 0, 0], [0, 0, 0, 0], [0, 0, 0, 0], [0, 0, 0, 0], [0, 0, 0, 0], [0, 0, 0,
    0], [0, 0, 0, 0]]⟩
      ⟨4, 7, [[0, 0, 0, 0, 0, 0, 0], [1, 0, 0, 0, 0, 0, 0], [0, 1, 0, 0, 0, 0, 0], [0, 0, 1, 0,
      0, 0, 0]]⟩
      = ⟨20, 7, [[1, 0, 0, 0, 0, 0, 0], [0, -1, 0, 0, 0, 0, 0], [0, 1, -1, 0, 0, 0, 0], [0, 0,
        1, 0, 0, 0, 0], [-1, 0, 0, 0, 0, 0, 0], [1, 0, -1, 0, 0, 0, 0], [0, 1, 0, 0, 0, 0, 0],
        [0, 0, 1, 0, 0, 0, 0], [0, 0, 0, 0, 0, 0, 0], [0, 0, 0, 0, 0, 0, 0], [0, 0, 0, 0, 0, 0,
        0], [0, 0, 0, 0, 0, 0, 0], [0, 0, 0, 0, 0, 0, 0], [0, 0, 0, 0, 0, 0, 0], [0, 0, 0, 0, 0,
        0, 0], [0, 0, 0, 0, 0, 0, 0], [0, 0, 0, 0, 0, 0, 0], [0, 0, 0, 0, 0, 0, 0], [0, 0, 0, 0,
        0, 0, 0], [0, 0, 0, 0, 0, 0, 0]]⟩ := by rfl

set_option maxHeartbeats 4000000 in
set_option maxRecDepth 100000 in
/-- First factor pair of the fine-fine term. -/
theorem s22_m2 :
    SpMat.mul ⟨20, 40, [[0, 0, 0, 0, 0, 0, 0, 0, 0, 0, 0, 0, 0, 0, 0, 0, 0, 0, 0, 0, 0, 0, 0, 0, 0, 0, 0,
    0, 0, 0, 0, 0, 0, 0, 0, 0, 0, 0, 0, 0], [0, 0, 0, 0, 0, 0, 0, 0, 0, 0, 0, 0, 0, 0, 0, 0, 0,
    0, 0, 0, 0, 0, 0, 0, 0, 0, 0, 0, 0, 0, 0, 0, 0, 0, 0, 0, 0, 0, 0, 0], [0, 0, 0, 0, 0, 0, 0,
    0, 0, 0, 0, 0, 0, 0, 0, 0, 0, 0, 0, 0, 0, 0, 0, 0, 0, 0, 0, 0, 0, 0, 0, 0, 0, 0, 0, 0, 0, 0,
    0, 0], [0, 0, 0, 0, 0, 0, 0, 0, 0, 0, 0, 0, 0, 0, 0, 0, 0, 0, 0, 0, 0, 0, 0, 0, 0, 0, 0, 0,
    0, 0, 0, 0, 0, 0, 0, 0, 0, 0, 0, 0], [0, 0, 0, 0, 0, 0, 0, 0, 0, 0, 0, 0, 0, 0, 0, 0, 0, 0,
    0, 0, 0, 0, 0, 0, 0, 0, 0, 0, 0, 0, 0, 0, 0, 0, 0, 0, 0, 0, 0, 0], [0, 0, 0, 0, 0, 0, 0, 0,
    0, 0, 0, 0, 0, 0, 0, 0, 0, 0, 0, 0, 0, 0, 0, 0, 0, 0, 0, 0, 0, 0, 0, 0, 0, 0, 0, 0, 0, 0, 0,
    0], [0, 0, 0, 0, 0, 0, 0, 0, 0, 0, 0, 0, 0, 0, 0, 0, 0, 0, 0, 0, 0, 0, 0, 0, 0, 0, 0, 0, 0,
    0, 0, 0, 0, 0, 0, 0, 0, 0, 0, 0], [0, 0, 0, 0, 0, 0, 0, 0, 0, 0, 0, 0, 0, 0, 0, 0, 0, 0, 0,
    0, 0, 0, 0, 0, 0, 0, 0, 0, 0, 0, 0, 0, 0, 0, 0, 0, 0, 0, 0, 0], [1, 0, 0, 0, 0, 0, 0, 0, 0,
    0, 0, 0, 0, 0, 0, 0, 0, 0, 0, 0, 0, 0, 0, 0, 0, 0, 0, 0, 0, 0, 0, 0, 0, 0, 0, 0, 0, 0, 0,
    0], [0, 1, 0, 0, 0, 0, 0, 0, 0, 0, 0, 0, 0, 0, 0, 0, 0, 0, 0, 0, 0, 0, 0, 0, 0, 0, 0, 0, 0,
    0, 0, 0, 0, 0, 0, 0, 0, 0, 0, 0], [0, 0, 1, 0, 0, 0, 0, 0, 0, 0, 0, 0, 0, 0, 0, 0, 0, 0, 0,
    0, 0, 0, 0, 0, 0, 0, 0, 0, 0, 0, 0, 0, 0, 0, 0, 0, 0, 0, 0, 0], [0, 0, 0, 0, 0, 1, 0, 0, 0,
    0, 0, 0, 0, 0, 0, 0, 0, 0, 0, 0, 0, 0, 0, 0, 0, 0, 0, 0, 0, 0, 0, 0, 0, 0, 0, 0, 0, 0, 0,
    0], [0, 0, 0, 0, 0, 0, 1, 0, 0, 0, 0, 0, 0, 0, 0, 0, 0, 0, 0, 0, 0, 0, 0, 0, 0, 0, 0, 0, 0,
    0, 0, 0, 0, 0, 0, 0, 0, 0, 0, 0], [0, 0, 0, 0, 0, 0, 0, 1, 0, 0, 0, 0, 0, 0, 0, 0, 0, 0, 0,
    0, 0, 0, 0, 0, 0, 0, 0, 0, 0, 0, 0, 0, 0, 0, 0, 0, 0, 0, 0, 0], [0, 0, 0, 0, 0, 0, 0, 0, 0,
    0, 0, 0, 0, 0, 0, 0, 0, 0, 0, 0, 1, 0, 0, 0, 0, 0, 0, 0, 0, 0, 0, 0, 0, 0, 0, 0, 0, 0, 0,
    0], [0, 0, 0, 0, 0, 0, 0, 0, 0, 0, 0, 0, 0, 0, 0, 0, 0, 0, 0, 0, 0, 1, 0, 0, 0, 0, 0, 0, 0,
    0, 0, 0, 0, 0, 0, 0, 0, 0, 0, 0], [0, 0, 0, 0, 0, 0, 0, 0, 0, 0, 0, 0, 0, 0, 0, 0, 0, 0, 0,
    0, 0, 0, 0, 0, 1, 0, 0, 0, 0, 0, 0, 0, 0, 0, 0, 0, 0, 0, 0, 0], [0, 0, 0, 0, 0, 0, 0, 0, 0,
    0, 0, 0, 0, 0, 0, 0, 0, 0, 0, 0, 0, 0, 0, 0, 0, 1, 0, 0, 0, 0, 0, 0, 0, 0, 0, 0, 0, 0, 0,
    0], [0, 0, 0, 0, 0, 0, 0, 0, 0, 0, 0, 0, 0, 0, 0, 0, 0, 0, 0, 0, 0, 0, 0, 0, 0, 0, 0, 0, 1,
    0, 0, 0, 0, 0, 0, 0, 0, 0, 0, 0], [0, 0, 0, 0, 0, 0, 0, 0, 0, 0, 0, 0, 0, 0, 0, 0, 0, 0, 0,
    0, 0, 0, 0, 0, 0, 0, 0, 0, 0, 1, 0, 0, 0, 0, 0, 0, 0, 0, 0, 0]]⟩
      ⟨40, 16, [[-1, 0, 0, 0, 0, 0, 0, 0, 0, 0, 0, 0, 0, 0, 0, 0], [1, -1, 0, 0, 0, 0, 0, 0, 0,
      0, 0, 0, 0, 0, 0, 0], [0, 1, -1, 0, 0, 0, 0, 0, 0, 0, 0, 0, 0, 0, 0, 0], [0, 0, 1, -1, 0,
      0, 0, 0, 0, 0, 0, 0, 0, 0, 0, 0], [0, 0, 0, 1, 0, 0, 0, 0, 0, 0, 0, 0, 0, 0, 0, 0], [0, 0,
      0, 0, -1, 0, 0, 0, 0, 0, 0, 0, 0, 0, 0, 0], [0, 0, 0, 0, 1, -1, 0, 0, 0, 0, 0, 0, 0, 0, 0,
      0], [0, 0, 0, 0, 0, 1, -1, 0, 0, 0, 0, 0, 0, 0, 0, 0], [0, 0, 0, 0, 0, 0, 1, -1, 0, 0, 0,
      0, 0, 0, 0, 0], [0, 0, 0, 0, 0, 0, 0, 1, 0, 0, 0, 0, 0, 0, 0, 0], [0, 0, 0, 0, 0, 0, 0, 0,
      -1, 0, 0, 0, 0, 0, 0, 0], [0, 0, 0, 0, 0, 0, 0, 0, 1, -1, 0, 0, 0, 0, 0, 0], [0, 0, 0, 0,
      0, 0, 0, 0, 0, 1, -1, 0, 0, 0, 0, 0], [0, 0, 0, 0, 0, 0, 0, 0, 0, 0, 1, -1, 0, 0, 0, 0],
      [0, 0, 0, 0, 0, 0, 0, 0, 0, 0, 0, 1, 0, 0, 0, 0], [0, 0, 0, 0, 0, 0, 0, 0, 0, 0, 0, 0, -1,
      0, 0, 0], [0, 0, 0, 0, 0, 0, 0, 0, 0, 0, 0, 0, 1, -1, 0, 0], [0, 0, 0, 0, 0, 0, 0, 0, 0,
      0, 0, 0, 0, 1, -1, 0], [0, 0, 0, 0, 0, 0, 0, 0, 0, 0, 0, 0, 0, 0, 1, -1], [0, 0, 0, 0, 0,
      0, 0, 0, 0, 0, 0, 0, 0, 0, 0, 1], [-1, 0, 0, 0, 0, 0, 0, 0, 0, 0, 0, 0, 0, 0, 0, 0], [0,
      -1, 0, 0, 0, 0, 0, 0, 0, 0, 0, 0, 0, 0, 0, 0], [0, 0, -1, 0, 0, 0, 0, 0, 0, 0, 0, 0, 0, 0,
      0, 0], [0, 0, 0, -1, 0, 0, 0, 0, 0, 0, 0, 0, 0, 0, 0, 0], [1, 0, 0, 0, -1, 0, 0, 0, 0, 0,
      0, 0, 0, 0, 0, 0], [0, 1, 0, 0, 0, -1, 0, 0, 0, 0, 0, 0, 0, 0, 0, 0], [0, 0, 1, 0, 0, 0,
      -1, 0, 0, 0, 0, 0, 0, 0, 0, 0], [0, 0, 0, 1, 0, 0, 0, -1, 0, 0, 0, 0, 0, 0, 0, 0], [0, 0,
      0, 0, 1, 0, 0, 0, -1, 0, 0, 0, 0, 0, 0, 0], [0, 0, 0, 0, 0, 1, 0, 0, 0, -1, 0, 0, 0, 0, 0,
      0], [0, 0, 0, 0, 0, 0, 1, 0, 0, 0, -1, 0, 0, 0, 0, 0], [0, 0, 0, 0, 0, 0, 0, 1, 0, 0, 0,
      -1, 0, 0, 0, 0], [0, 0, 0, 0, 0, 0, 0, 0, 1, 0, 0, 0, -1, 0, 0, 0], [0, 0, 0, 0, 0, 0, 0,
      0, 0, 1, 0, 0, 0, -1, 0, 0], [0, 0, 0, 0, 0, 0, 0, 0, 0, 0, 1, 0, 0, 0, -1, 0], [0, 0, 0,
      0, 0, 0, 0, 0, 0, 0, 0, 1, 0, 0, 0, -1], [0, 0, 0, 0, 0, 0, 0, 0, 0, 0, 0, 0, 1, 0, 0, 0],
      [0, 0, 0, 0, 0, 0, 0, 0, 0, 0, 0, 0, 0, 1, 0, 0], [0, 0, 0, 0, 0, 0, 0, 0, 0, 0, 0, 0, 0,
      0, 1, 0], [0, 0, 0, 0, 0, 0, 0, 0, 0, 0, 0, 0, 0, 0, 0, 1]]⟩
      = ⟨20, 16, [[0, 0, 0, 0, 0, 0, 0, 0, 0, 0, 0, 0, 0, 0, 0, 0], [0, 0, 0, 0, 0, 0, 0, 0, 0,
        0, 0, 0, 0, 0, 0, 0], [0, 0, 0, 0, 0, 0, 0, 0, 0, 0, 0, 0, 0, 0, 0, 0], [0, 0, 0, 0, 0,
        0, 0, 0, 0, 0, 0, 0, 0, 0, 0, 0], [0, 0, 0, 0, 0, 0, 0, 0, 0, 0, 0, 0, 0, 0, 0, 0], [0,
        0, 0, 0, 0, 0, 0, 0, 0, 0, 0, 0, 0, 0, 0, 0], [0, 0, 0, 0, 0, 0, 0, 0, 0, 0, 0, 0, 0, 0,
        0, 0], [0, 0, 0, 0, 0, 0, 0, 0, 0, 0, 0, 0, 0, 0, 0, 0], [-1, 0, 0, 0, 0, 0, 0, 0, 0, 0,
        0, 0, 0, 0, 0, 0], [1, -1, 0, 0, 0, 0, 0, 0, 0, 0, 0, 0, 0, 0, 0, 0], [0, 1, -1, 0, 0,
        0, 0, 0, 0, 0, 0, 0, 0, 0, 0, 0], [0, 0, 0, 0, -1, 0, 0, 0, 0, 0, 0, 0, 0, 0, 0, 0], [0,
        0, 0, 0, 1, -1, 0, 0, 0, 0, 0, 0, 0, 0, 0, 0], [0, 0, 0, 0, 0, 1, -1, 0, 0, 0, 0, 0, 0,
        0, 0, 0], [-1, 0, 0, 0, 0, 0, 0, 0, 0, 0, 0, 0, 0, 0, 0, 0], [0, -1, 0, 0, 0, 0, 0, 0,
        0, 0, 0, 0, 0, 0, 0, 0], [1, 0, 0, 0, -1, 0, 0, 0, 0, 0, 0, 0, 0, 0, 0, 0], [0, 1, 0, 0,
        0, -1, 0, 0, 0, 0, 0, 0, 0, 0, 0, 0], [0, 0, 0, 0, 1, 0, 0, 0, -1, 0, 0, 0, 0, 0, 0, 0],
        [0, 0, 0, 0, 0, 1, 0, 0, 0, -1, 0, 0, 0, 0, 0, 0]]⟩ := by rfl

set_option maxHeartbeats 4000000 in
set_option maxRecDepth 100000 in
/-- The fine-fine term of the merged `cell_faces`. -/
theorem s22_t2 :
    SpMat.mul ⟨20, 16, [[0, 0, 0, 0, 0, 0, 0, 0, 0, 0, 0, 0, 0, 0, 0, 0], [0, 0, 0, 0, 0, 0, 0, 0, 0, 0,
    0, 0, 0, 0, 0, 0], [0, 0, 0, 0, 0, 0, 0, 0, 0, 0, 0, 0, 0, 0, 0, 0], [0, 0, 0, 0, 0, 0, 0,
    0, 0, 0, 0, 0, 0, 0, 0, 0], [0, 0, 0, 0, 0, 0, 0, 0, 0, 0, 0, 0, 0, 0, 0, 0], [0, 0, 0, 0,
    0, 0, 0, 0, 0, 0, 0, 0, 0, 0, 0, 0], [0, 0, 0, 0, 0, 0, 0, 0, 0, 0, 0, 0, 0, 0, 0, 0], [0,
    0, 0, 0, 0, 0, 0, 0, 0, 0, 0, 0, 0, 0, 0, 0], [-1, 0, 0, 0, 0, 0, 0, 0, 0, 0, 0, 0, 0, 0, 0,
    0], [1, -1, 0, 0, 0, 0, 0, 0, 0, 0, 0, 0, 0, 0, 0, 0], [0, 1, -1, 0, 0, 0, 0, 0, 0, 0, 0, 0,
    0, 0, 0, 0], [0, 0, 0, 0, -1, 0, 0, 0, 0, 0, 0, 0, 0, 0, 0, 0], [0, 0, 0, 0, 1, -1, 0, 0, 0,
    0, 0, 0, 0, 0, 0, 0], [0, 0, 0, 0, 0, 1, -1, 0, 0, 0, 0, 0, 0, 0, 0, 0], [-1, 0, 0, 0, 0, 0,
    0, 0, 0, 0, 0, 0, 0, 0, 0, 0], [0, -1, 0, 0, 0, 0, 0, 0, 0, 0, 0, 0, 0, 0, 0, 0], [1, 0, 0,
    0, -1, 0, 0, 0, 0, 0, 0, 0, 0, 0, 0, 0], [0, 1, 0, 0, 0, -1, 0, 0, 0, 0, 0, 0, 0, 0, 0, 0],
    [0, 0, 0, 0, 1, 0, 0, 0, -1, 0, 0, 0, 0, 0, 0, 0], [0, 0, 0, 0, 0, 1, 0, 0, 0, -1, 0, 0, 0,
    0, 0, 0]]⟩
      ⟨16, 7, [[0, 0, 0, 1, 0, 0, 0], [0, 0, 0, 0, 1, 0, 0], [0, 0, 0, 0, 0, 0, 0], [0, 0, 0, 0,
      0, 0, 0], [0, 0, 0, 0, 0, 1, 0], [0, 0, 0, 0, 0, 0, 1], [0, 0, 0, 0, 0, 0, 0], [0, 0, 0,
      0, 0, 0, 0], [0, 0, 0, 0, 0, 0, 0], [0, 0, 0, 0, 0, 0, 0], [0, 0, 0, 0, 0, 0, 0], [0, 0,
      0, 0, 0, 0, 0], [0, 0, 0, 0, 0, 0, 0], [0, 0, 0, 0, 0, 0, 0], [0, 0, 0, 0, 0, 0, 0], [0,
      0, 0, 0, 0, 0, 0]]⟩
      = ⟨20, 7, [[0, 0, 0, 0, 0, 0, 0], [0, 0, 0, 0, 0, 0, 0], [0, 0, 0, 0, 0, 0, 0], [0, 0, 0,
        0, 0, 0, 0], [0, 0, 0, 0, 0, 0, 0], [0, 0, 0, 0, 0, 0, 0], [0, 0, 0, 0, 0, 0, 0], [0, 0,
        0, 0, 0, 0, 0], [0, 0, 0, -1, 0, 0, 0], [0, 0, 0, 1, -1, 0, 0], [0, 0, 0, 0, 1, 0, 0],
        [0, 0, 0, 0, 0, -1, 0], [0, 0, 0, 0, 0, 1, -1], [0, 0, 0, 0, 0, 0, 1], [0, 0, 0, -1, 0,
        0, 0], [0, 0, 0, 0, -1, 0, 0], [0, 0, 0, 1, 0, -1, 0], [0, 0, 0, 0, 1, 0, -1], [0, 0, 0,
        0, 0, 1, 0], [0, 0, 0, 0, 0, 0, 1]]⟩ := by rfl

set_option maxHeartbeats 4000000 in
set_option maxRecDepth 100000 in
/-- The fine-face up map restricted to the selected fine faces. -/
theorem s22_x0 :
    SpMat.mul ⟨20, 40, [[0, 0, 0, 0, 0, 0, 0, 0, 0, 0, 0, 0, 0, 0, 0, 0, 0, 0, 0, 0, 0, 0, 0, 0, 0, 0, 0,
    0, 0, 0, 0, 0, 0, 0, 0, 0, 0, 0, 0, 0], [0, 0, 0, 0, 0, 0, 0, 0, 0, 0, 0, 0, 0, 0, 0, 0, 0,
    0, 0, 0, 0, 0, 0, 0, 0, 0, 0, 0, 0, 0, 0, 0, 0, 0, 0, 0, 0, 0, 0, 0], [0, 0, 0, 0, 0, 0, 0,
    0, 0, 0, 0, 0, 0, 0, 0, 0, 0, 0, 0, 0, 0, 0, 0, 0, 0, 0, 0, 0, 0, 0, 0, 0, 0, 0, 0, 0, 0, 0,
    0, 0], [0, 0, 0, 0, 0, 0, 0, 0, 0, 0, 0, 0, 0, 0, 0, 0, 0, 0, 0, 0, 0, 0, 0, 0, 0, 0, 0, 0,
    0, 0, 0, 0, 0, 0, 0, 0, 0, 0, 0, 0], [0, 0, 0, 0, 0, 0, 0, 0, 0, 0, 0, 0, 0, 0, 0, 0, 0, 0,
    0, 0, 0, 0, 0, 0, 0, 0, 0, 0, 0, 0, 0, 0, 0, 0, 0, 0, 0, 0, 0, 0], [0, 0, 0, 0, 0, 0, 0, 0,
    0, 0, 0, 0, 0, 0, 0, 0, 0, 0, 0, 0, 0, 0, 0, 0, 0, 0, 0, 0, 0, 0, 0, 0, 0, 0, 0, 0, 0, 0, 0,
    0], [0, 0, 0, 0, 0, 0, 0, 0, 0, 0, 0, 0, 0, 0, 0, 0, 0, 0, 0, 0, 0, 0, 0, 0, 0, 0, 0, 0, 0,
    0, 0, 0, 0, 0, 0, 0, 0, 0, 0, 0], [0, 0, 0, 0, 0, 0, 0, 0, 0, 0, 0, 0, 0, 0, 0, 0, 0, 0, 0,
    0, 0, 0, 0, 0, 0, 0, 0, 0, 0, 0, 0, 0, 0, 0, 0, 0, 0, 0, 0, 0], [1, 0, 0, 0, 0, 0, 0, 0, 0,
    0, 0, 0, 0, 0, 0, 0, 0, 0, 0, 0, 0, 0, 0, 0, 0, 0, 0, 0, 0, 0, 0, 0, 0, 0, 0, 0, 0, 0, 0,
    0], [0, 1, 0, 0, 0, 0, 0, 0, 0, 0, 0, 0, 0, 0, 0, 0, 0, 0, 0, 0, 0, 0, 0, 0, 0, 0, 0, 0, 0,
    0, 0, 0, 0, 0, 0, 0, 0, 0, 0, 0], [0, 0, 1, 0, 0, 0, 0, 0, 0, 0, 0, 0, 0, 0, 0, 0, 0, 0, 0,
    0, 0, 0, 0, 0, 0, 0, 0, 0, 0, 0, 0, 0, 0, 0, 0, 0, 0, 0, 0, 0], [0, 0, 0, 0, 0, 1, 0, 0, 0,
    0, 0, 0, 0, 0, 0, 0, 0, 0, 0, 0, 0, 0, 0, 0, 0, 0, 0, 0, 0, 0, 0, 0, 0, 0, 0, 0, 0, 0, 0,
    0], [0, 0, 0, 0, 0, 0, 1, 0, 0, 0, 0, 0, 0, 0, 0, 0, 0, 0, 0, 0, 0, 0, 0, 0, 0, 0, 0, 0, 0,
    0, 0, 0, 0, 0, 0, 0, 0, 0, 0, 0], [0, 0, 0, 0, 0, 0, 0, 1, 0, 0, 0, 0, 0, 0, 0, 0, 0, 0, 0,
    0, 0, 0, 0, 0, 0, 0, 0, 0, 0, 0, 0, 0, 0, 0, 0, 0, 0, 0, 0, 0], [0, 0, 0, 0, 0, 0, 0, 0, 0,
    0, 0, 0, 0, 0, 0, 0, 0, 0, 0, 0, 1, 0, 0, 0, 0, 0, 0, 0, 0, 0, 0, 0, 0, 0, 0, 0, 0, 0, 0,
    0], [0, 0, 0, 0, 0, 0, 0, 0, 0, 0, 0, 0, 0, 0, 0, 0, 0, 0, 0, 0, 0, 1, 0, 0, 0, 0, 0, 0, 0,
    0, 0, 0, 0, 0, 0, 0, 0, 0, 0, 0], [0, 0, 0, 0, 0, 0, 0, 0, 0, 0, 0, 0, 0, 0, 0, 0, 0, 0, 0,
    0, 0, 0, 0, 0, 1, 0, 0, 0, 0, 0, 0, 0, 0, 0, 0, 0, 0, 0, 0, 0], [0, 0, 0, 0, 0, 0, 0, 0, 0,
    0, 0, 0, 0, 0, 0, 0, 0, 0, 0, 0, 0, 0, 0, 0, 0, 1, 0, 0, 0, 0, 0, 0, 0, 0, 0, 0, 0, 0, 0,
    0], [0, 0, 0, 0, 0, 0, 0, 0, 0, 0, 0, 0, 0, 0, 0, 0, 0, 0, 0, 0, 0, 0, 0, 0, 0, 0, 0, 0, 1,
    0, 0, 0, 0, 0, 0, 0, 0, 0, 0, 0], [0, 0, 0, 0, 0, 0, 0, 0, 0, 0, 0, 0, 0, 0, 0, 0, 0, 0, 0,
    0, 0, 0, 0, 0, 0, 0, 0, 0, 0, 1, 0, 0, 0, 0, 0, 0, 0, 0, 0, 0]]⟩
      ⟨40, 40, [[1, 0, 0, 0, 0, 0, 0, 0, 0, 0, 0, 0, 0, 0, 0, 0, 0, 0, 0, 0, 0, 0, 0, 0, 0, 0,
      0, 0, 0, 0, 0, 0, 0, 0, 0, 0, 0, 0, 0, 0], [0, 1, 0, 0, 0, 0, 0, 0, 0, 0, 0, 0, 0, 0, 0,
      0, 0, 0, 0, 0, 0, 0, 0, 0, 0, 0, 0, 0, 0, 0, 0, 0, 0, 0, 0, 0, 0, 0, 0, 0], [0, 0, 1, 0,
      0, 0, 0, 0, 0, 0, 0, 0, 0, 0, 0, 0, 0, 0, 0, 0, 0, 0, 0, 0, 0, 0, 0, 0, 0, 0, 0, 0, 0, 0,
      0, 0, 0, 0, 0, 0], [0, 0, 0, 0, 0, 0, 0, 0, 0, 0, 0, 0, 0, 0, 0, 0, 0, 0, 0, 0, 0, 0, 0,
      0, 0, 0, 0, 0, 0, 0, 0, 0, 0, 0, 0, 0, 0, 0, 0, 0], [0, 0, 0, 0, 0, 0, 0, 0, 0, 0, 0, 0,
      0, 0, 0, 0, 0, 0, 0, 0, 0, 0, 0, 0, 0, 0, 0, 0, 0, 0, 0, 0, 0, 0, 0, 0, 0, 0, 0, 0], [0,
      0, 0, 0, 0, 1, 0, 0, 0, 0, 0, 0, 0, 0, 0, 0, 0, 0, 0, 0, 0, 0, 0, 0, 0, 0, 0, 0, 0, 0, 0,
      0, 0, 0, 0, 0, 0, 0, 0, 0], [0, 0, 0, 0, 0, 0, 1, 0, 0, 0, 0, 0, 0, 0, 0, 0, 0, 0, 0, 0,
      0, 0, 0, 0, 0, 0, 0, 0, 0, 0, 0, 0, 0, 0, 0, 0, 0, 0, 0, 0], [0, 0, 0, 0, 0, 0, 0, 1, 0,
      0, 0, 0, 0, 0, 0, 0, 0, 0, 0, 0, 0, 0, 0, 0, 0, 0, 0, 0, 0, 0, 0, 0, 0, 0, 0, 0, 0, 0, 0,
      0], [0, 0, 0, 0, 0, 0, 0, 0, 0, 0, 0, 0, 0, 0, 0, 0, 0, 0, 0, 0, 0, 0, 0, 0, 0, 0, 0, 0,
      0, 0, 0, 0, 0, 0, 0, 0, 0, 0, 0, 0], [0, 0, 0, 0, 0, 0, 0, 0, 0, 0, 0, 0, 0, 0, 0, 0, 0,
      0, 0, 0, 0, 0, 0, 0, 0, 0, 0, 0, 0, 0, 0, 0, 0, 0, 0, 0, 0, 0, 0, 0], [0, 0, 0, 0, 0, 0,
      0, 0, 0, 0, 0, 0, 0, 0, 0, 0, 0, 0, 0, 0, 0, 0, 0, 0, 0, 0, 0, 0, 0, 0, 0, 0, 0, 0, 0, 0,
      0, 0, 0, 0], [0, 0, 0, 0, 0, 0, 0, 0, 0, 0, 0, 0, 0, 0, 0, 0, 0, 0, 0, 0, 0, 0, 0, 0, 0,
      0, 0, 0, 0, 0, 0, 0, 0, 0, 0, 0, 0, 0, 0, 0], [0, 0, 0, 0, 0, 0, 0, 0, 0, 0, 0, 0, 0, 0,
      0, 0, 0, 0, 0, 0, 0, 0, 0, 0, 0, 0, 0, 0, 0, 0, 0, 0, 0, 0, 0, 0, 0, 0, 0, 0], [0, 0, 0,
      0, 0, 0, 0, 0, 0, 0, 0, 0, 0, 0, 0, 0, 0, 0, 0, 0, 0, 0, 0, 0, 0, 0, 0, 0, 0, 0, 0, 0, 0,
      0, 0, 0, 0, 0, 0, 0], [0, 0, 0, 0, 0, 0, 0, 0, 0, 0, 0, 0, 0, 0, 0, 0, 0, 0, 0, 0, 0, 0,
      0, 0, 0, 0, 0, 0, 0, 0, 0, 0, 0, 0, 0, 0, 0, 0, 0, 0], [0, 0, 0, 0, 0, 0, 0, 0, 0, 0, 0,
      0, 0, 0, 0, 0, 0, 0, 0, 0, 0, 0, 0, 0, 0, 0, 0, 0, 0, 0, 0, 0, 0, 0, 0, 0, 0, 0, 0, 0],
      [0, 0, 0, 0, 0, 0, 0, 0, 0, 0, 0, 0, 0, 0, 0, 0, 0, 0, 0, 0, 0, 0, 0, 0, 0, 0, 0, 0, 0, 0,
      0, 0, 0, 0, 0, 0, 0, 0, 0, 0], [0, 0, 0, 0, 0, 0, 0, 0, 0, 0, 0, 0, 0, 0, 0, 0, 0, 0, 0,
      0, 0, 0, 0, 0, 0, 0, 0, 0, 0, 0, 0, 0, 0, 0, 0, 0, 0, 0, 0, 0], [0, 0, 0, 0, 0, 0, 0, 0,
      0, 0, 0, 0, 0, 0, 0, 0, 0, 0, 0, 0, 0, 0, 0, 0, 0, 0, 0, 0, 0, 0, 0, 0, 0, 0, 0, 0, 0, 0,
      0, 0], [0, 0, 0, 0, 0, 0, 0, 0, 0, 0, 0, 0, 0, 0, 0, 0, 0, 0, 0, 0, 0, 0, 0, 0, 0, 0, 0,
      0, 0, 0, 0, 0, 0, 0, 0, 0, 0, 0, 0, 0], [0, 0, 0, 0, 0, 0, 0, 0, 0, 0, 0, 0, 0, 0, 0, 0,
      0, 0, 0, 0, 1, 0, 0, 0, 0, 0, 0, 0, 0, 0, 0, 0, 0, 0, 0, 0, 0, 0, 0, 0], [0, 0, 0, 0, 0,
      0, 0, 0, 0, 0, 0, 0, 0, 0, 0, 0, 0, 0, 0, 0, 0, 1, 0, 0, 0, 0, 0, 0, 0, 0, 0, 0, 0, 0, 0,
      0, 0, 0, 0, 0], [0, 0, 0, 0, 0, 0, 0, 0, 0, 0, 0, 0, 0, 0, 0, 0, 0, 0, 0, 0, 0, 0, 0, 0,
      0, 0, 0, 0, 0, 0, 0, 0, 0, 0, 0, 0, 0, 0, 0, 0], [0, 0, 0, 0, 0, 0, 0, 0, 0, 0, 0, 0, 0,
      0, 0, 0, 0, 0, 0, 0, 0, 0, 0, 0, 0, 0, 0, 0, 0, 0, 0, 0, 0, 0, 0, 0, 0, 0, 0, 0], [0, 0,
      0, 0, 0, 0, 0, 0, 0, 0, 0, 0, 0, 0, 0, 0, 0, 0, 0, 0, 0, 0, 0, 0, 1, 0, 0, 0, 0, 0, 0, 0,
      0, 0, 0, 0, 0, 0, 0, 0], [0, 0, 0, 0, 0, 0, 0, 0, 0, 0, 0, 0, 0, 0, 0, 0, 0, 0, 0, 0, 0,
      0, 0, 0, 0, 1, 0, 0, 0, 0, 0, 0, 0, 0, 0, 0, 0, 0, 0, 0], [0, 0, 0, 0, 0, 0, 0, 0, 0, 0,
      0, 0, 0, 0, 0, 0, 0, 0, 0, 0, 0, 0, 0, 0, 0, 0, 0, 0, 0, 0, 0, 0, 0, 0, 0, 0, 0, 0, 0, 0],
      [0, 0, 0, 0, 0, 0, 0, 0, 0, 0, 0, 0, 0, 0, 0, 0, 0, 0, 0, 0, 0, 0, 0, 0, 0, 0, 0, 0, 0, 0,
      0, 0, 0, 0, 0, 0, 0, 0, 0, 0], [0, 0, 0, 0, 0, 0, 0, 0, 0, 0, 0, 0, 0, 0, 0, 0, 0, 0, 0,
      0, 0, 0, 0, 0, 0, 0, 0, 0, 1, 0, 0, 0, 0, 0, 0, 0, 0, 0, 0, 0], [0, 0, 0, 0, 0, 0, 0, 0,
      0, 0, 0, 0, 0, 0, 0, 0, 0, 0, 0, 0, 0, 0, 0, 0, 0, 0, 0, 0, 0, 1, 0, 0, 0, 0, 0, 0, 0, 0,
      0, 0], [0, 0, 0, 0, 0, 0, 0, 0, 0, 0, 0, 0, 0, 0, 0, 0, 0, 0, 0, 0, 0, 0, 0, 0, 0, 0, 0,
      0, 0, 0, 0, 0, 0, 0, 0, 0, 0, 0, 0, 0], [0, 0, 0, 0, 0, 0, 0, 0, 0, 0, 0, 0, 0, 0, 0, 0,
      0, 0, 0, 0, 0, 0, 0, 0, 0, 0, 0, 0, 0, 0, 0, 0, 0, 0, 0, 0, 0, 0, 0, 0], [0, 0, 0, 0, 0,
      0, 0, 0, 0, 0, 0, 0, 0, 0, 0, 0, 0, 0, 0, 0, 0, 0, 0, 0, 0, 0, 0, 0, 0, 0, 0, 0, 0, 0, 0,
      0, 0, 0, 0, 0], [0, 0, 0, 0, 0, 0, 0, 0, 0, 0, 0, 0, 0, 0, 0, 0, 0, 0, 0, 0, 0, 0, 0, 0,
      0, 0, 0, 0, 0, 0, 0, 0, 0, 0, 0, 0, 0, 0, 0, 0], [0, 0, 0, 0, 0, 0, 0, 0, 0, 0, 0, 0, 0,
      0, 0, 0, 0, 0, 0, 0, 0, 0, 0, 0, 0, 0, 0, 0, 0, 0, 0, 0, 0, 0, 0, 0, 0, 0, 0, 0], [0, 0,
      0, 0, 0, 0, 0, 0, 0, 0, 0, 0, 0, 0, 0, 0, 0, 0, 0, 0, 0, 0, 0, 0, 0, 0, 0, 0, 0, 0, 0, 0,
      0, 0, 0, 0, 0, 0, 0, 0], [0, 0, 0, 0, 0, 0, 0, 0, 0, 0, 0, 0, 0, 0, 0, 0, 0, 0, 0, 0, 0,
      0, 0, 0, 0, 0, 0, 0, 0, 0, 0, 0, 0, 0, 0, 0, 0, 0, 0, 0], [0, 0, 0, 0, 0, 0, 0, 0, 0, 0,
      0, 0, 0, 0, 0, 0, 0, 0, 0, 0, 0, 0, 0, 0, 0, 0, 0, 0, 0, 0, 0, 0, 0, 0, 0, 0, 0, 0, 0, 0],
      [0, 0, 0, 0, 0, 0, 0, 0, 0, 0, 0, 0, 0, 0, 0, 0, 0, 0, 0, 0, 0, 0, 0, 0, 0, 0, 0, 0, 0, 0,
      0, 0, 0, 0, 0, 0, 0, 0, 0, 0], [0, 0, 0, 0, 0, 0, 0, 0, 0, 0, 0, 0, 0, 0, 0, 0, 0, 0, 0,
      0, 0, 0, 0, 0, 0, 0, 0, 0, 0, 0, 0, 0, 0, 0, 0, 0, 0, 0, 0, 0]]⟩
      = ⟨20, 40, [[0, 0, 0, 0, 0, 0, 0, 0, 0, 0, 0, 0, 0, 0, 0, 0, 0, 0, 0, 0, 0, 0, 0, 0, 0, 0,
        0, 0, 0, 0, 0, 0, 0, 0, 0, 0, 0, 0, 0, 0], [0, 0, 0, 0, 0, 0, 0, 0, 0, 0, 0, 0, 0, 0, 0,
        0, 0, 0, 0, 0, 0, 0, 0, 0, 0, 0, 0, 0, 0, 0, 0, 0, 0, 0, 0, 0, 0, 0, 0, 0], [0, 0, 0, 0,
        0, 0, 0, 0, 0, 0, 0, 0, 0, 0, 0, 0, 0, 0, 0, 0, 0, 0, 0, 0, 0, 0, 0, 0, 0, 0, 0, 0, 0,
        0, 0, 0, 0, 0, 0, 0], [0, 0, 0, 0, 0, 0, 0, 0, 0, 0, 0, 0, 0, 0, 0, 0, 0, 0, 0, 0, 0, 0,
        0, 0, 0, 0, 0, 0, 0, 0, 0, 0, 0, 0, 0, 0, 0, 0, 0, 0], [0, 0, 0, 0, 0, 0, 0, 0, 0, 0, 0,
        0, 0, 0, 0, 0, 0, 0, 0, 0, 0, 0, 0, 0, 0, 0, 0, 0, 0, 0, 0, 0, 0, 0, 0, 0, 0, 0, 0, 0],
        [0, 0, 0, 0, 0, 0, 0, 0, 0, 0, 0, 0, 0, 0, 0, 0, 0, 0, 0, 0, 0, 0, 0, 0, 0, 0, 0, 0, 0,
        0, 0, 0, 0, 0, 0, 0, 0, 0, 0, 0], [0, 0, 0, 0, 0, 0, 0, 0, 0, 0, 0, 0, 0, 0, 0, 0, 0, 0,
        0, 0, 0, 0, 0, 0, 0, 0, 0, 0, 0, 0, 0, 0, 0, 0, 0, 0, 0, 0, 0, 0], [0, 0, 0, 0, 0, 0, 0,
        0, 0, 0, 0, 0, 0, 0, 0, 0, 0, 0, 0, 0, 0, 0, 0, 0, 0, 0, 0, 0, 0, 0, 0, 0, 0, 0, 0, 0,
        0, 0, 0, 0], [1, 0, 0, 0, 0, 0, 0, 0, 0, 0, 0, 0, 0, 0, 0, 0, 0, 0, 0, 0, 0, 0, 0, 0, 0,
        0, 0, 0, 0, 0, 0, 0, 0, 0, 0, 0, 0, 0, 0, 0], [0, 1, 0, 0, 0, 0, 0, 0, 0, 0, 0, 0, 0, 0,
        0, 0, 0, 0, 0, 0, 0, 0, 0, 0, 0, 0, 0, 0, 0, 0, 0, 0, 0, 0, 0, 0, 0, 0, 0, 0], [0, 0, 1,
        0, 0, 0, 0, 0, 0, 0, 0, 0, 0, 0, 0, 0, 0, 0, 0, 0, 0, 0, 0, 0, 0, 0, 0, 0, 0, 0, 0, 0,
        0, 0, 0, 0, 0, 0, 0, 0], [0, 0, 0, 0, 0, 1, 0, 0, 0, 0, 0, 0, 0, 0, 0, 0, 0, 0, 0, 0, 0,
        0, 0, 0, 0, 0, 0, 0, 0, 0, 0, 0, 0, 0, 0, 0, 0, 0, 0, 0], [0, 0, 0, 0, 0, 0, 1, 0, 0, 0,
        0, 0, 0, 0, 0, 0, 0, 0, 0, 0, 0, 0, 0, 0, 0, 0, 0, 0, 0, 0, 0, 0, 0, 0, 0, 0, 0, 0, 0,
        0], [0, 0, 0, 0, 0, 0, 0, 1, 0, 0, 0, 0, 0, 0, 0, 0, 0, 0, 0, 0, 0, 0, 0, 0, 0, 0, 0, 0,
        0, 0, 0, 0, 0, 0, 0, 0, 0, 0, 0, 0], [0, 0, 0, 0, 0, 0, 0, 0, 0, 0, 0, 0, 0, 0, 0, 0, 0,
        0, 0, 0, 1, 0, 0, 0, 0, 0, 0, 0, 0, 0, 0, 0, 0, 0, 0, 0, 0, 0, 0, 0], [0, 0, 0, 0, 0, 0,
        0, 0, 0, 0, 0, 0, 0, 0, 0, 0, 0, 0, 0, 0, 0, 1, 0, 0, 0, 0, 0, 0, 0, 0, 0, 0, 0, 0, 0,
        0, 0, 0, 0, 0], [0, 0, 0, 0, 0, 0, 0, 0, 0, 0, 0, 0, 0, 0, 0, 0, 0, 0, 0, 0, 0, 0, 0, 0,
        1, 0, 0, 0, 0, 0, 0, 0, 0, 0, 0, 0, 0, 0, 0, 0], [0, 0, 0, 0, 0, 0, 0, 0, 0, 0, 0, 0, 0,
        0, 0, 0, 0, 0, 0, 0, 0, 0, 0, 0, 0, 1, 0, 0, 0, 0, 0, 0, 0, 0, 0, 0, 0, 0, 0, 0], [0, 0,
        0, 0, 0, 0, 0, 0, 0, 0, 0, 0, 0, 0, 0, 0, 0, 0, 0, 0, 0, 0, 0, 0, 0, 0, 0, 0, 1, 0, 0,
        0, 0, 0, 0, 0, 0, 0, 0, 0], [0, 0, 0, 0, 0, 0, 0, 0, 0, 0, 0, 0, 0, 0, 0, 0, 0, 0, 0, 0,
        0, 0, 0, 0, 0, 0, 0, 0, 0, 1, 0, 0, 0, 0, 0, 0, 0, 0, 0, 0]]⟩ := by rfl

set_option maxHeartbeats 4000000 in
set_option maxRecDepth 100000 in
/-- Its product with the transposed face projector. -/
theorem s22_x1 :
    SpMat.mul ⟨20, 40, [[0, 0, 0, 0, 0, 0, 0, 0, 0, 0, 0, 0, 0, 0, 0, 0, 0, 0, 0, 0, 0, 0, 0, 0, 0, 0, 0,
    0, 0, 0, 0, 0, 0, 0, 0, 0, 0, 0, 0, 0], [0, 0, 0, 0, 0, 0, 0, 0, 0, 0, 0, 0, 0, 0, 0, 0, 0,
    0, 0, 0, 0, 0, 0, 0, 0, 0, 0, 0, 0, 0, 0, 0, 0, 0, 0, 0, 0, 0, 0, 0], [0, 0, 0, 0, 0, 0, 0,
    0, 0, 0, 0, 0, 0, 0, 0, 0, 0, 0, 0, 0, 0, 0, 0, 0, 0, 0, 0, 0, 0, 0, 0, 0, 0, 0, 0, 0, 0, 0,
    0, 0], [0, 0, 0, 0, 0, 0, 0, 0, 0, 0, 0, 0, 0, 0, 0, 0, 0, 0, 0, 0, 0, 0, 0, 0, 0, 0, 0, 0,
    0, 0, 0, 0, 0, 0, 0, 0, 0, 0, 0, 0], [0, 0, 0, 0, 0, 0, 0, 0, 0, 0, 0, 0, 0, 0, 0, 0, 0, 0,
    0, 0, 0, 0, 0, 0, 0, 0, 0, 0, 0, 0, 0, 0, 0, 0, 0, 0, 0, 0, 0, 0], [0, 0, 0, 0, 0, 0, 0, 0,
    0, 0, 0, 0, 0, 0, 0, 0, 0, 0, 0, 0, 0, 0, 0, 0, 0, 0, 0, 0, 0, 0, 0, 0, 0, 0, 0, 0, 0, 0, 0,
    0], [0, 0, 0, 0, 0, 0, 0, 0, 0, 0, 0, 0, 0, 0, 0, 0, 0, 0, 0, 0, 0, 0, 0, 0, 0, 0, 0, 0, 0,
    0, 0, 0, 0, 0, 0, 0, 0, 0, 0, 0], [0, 0, 0, 0, 0, 0, 0, 0, 0, 0, 0, 0, 0, 0, 0, 0, 0, 0, 0,
    0, 0, 0, 0, 0, 0, 0, 0, 0, 0, 0, 0, 0, 0, 0, 0, 0, 0, 0, 0, 0], [1, 0, 0, 0, 0, 0, 0, 0, 0,
    0, 0, 0, 0, 0, 0, 0, 0, 0, 0, 0, 0, 0, 0, 0, 0, 0, 0, 0, 0, 0, 0, 0, 0, 0, 0, 0, 0, 0, 0,
    0], [0, 1, 0, 0, 0, 0, 0, 0, 0, 0, 0, 0, 0, 0, 0, 0, 0, 0, 0, 0, 0, 0, 0, 0, 0, 0, 0, 0, 0,
    0, 0, 0, 0, 0, 0, 0, 0, 0, 0, 0], [0, 0, 1, 0, 0, 0, 0, 0, 0, 0, 0, 0, 0, 0, 0, 0, 0, 0, 0,
    0, 0, 0, 0, 0, 0, 0, 0, 0, 0, 0, 0, 0, 0, 0, 0, 0, 0, 0, 0, 0], [0, 0, 0, 0, 0, 1, 0, 0, 0,
    0, 0, 0, 0, 0, 0, 0, 0, 0, 0, 0, 0, 0, 0, 0, 0, 0, 0, 0, 0, 0, 0, 0, 0, 0, 0, 0, 0, 0, 0,
    0], [0, 0, 0, 0, 0, 0, 1, 0, 0, 0, 0, 0, 0, 0, 0, 0, 0, 0, 0, 0, 0, 0, 0, 0, 0, 0, 0, 0, 0,
    0, 0, 0, 0, 0, 0, 0, 0, 0, 0, 0], [0, 0, 0, 0, 0, 0, 0, 1, 0, 0, 0, 0, 0, 0, 0, 0, 0, 0, 0,
    0, 0, 0, 0, 0, 0, 0, 0, 0, 0, 0, 0, 0, 0, 0, 0, 0, 0, 0, 0, 0], [0, 0, 0, 0, 0, 0, 0, 0, 0,
    0, 0, 0, 0, 0, 0, 0, 0, 0, 0, 0, 1, 0, 0, 0, 0, 0, 0, 0, 0, 0, 0, 0, 0, 0, 0, 0, 0, 0, 0,
    0], [0, 0, 0, 0, 0, 0, 0, 0, 0, 0, 0, 0, 0, 0, 0, 0, 0, 0, 0, 0, 0, 1, 0, 0, 0, 0, 0, 0, 0,
    0, 0, 0, 0, 0, 0, 0, 0, 0, 0, 0], [0, 0, 0, 0, 0, 0, 0, 0, 0, 0, 0, 0, 0, 0, 0, 0, 0, 0, 0,
    0, 0, 0, 0, 0, 1, 0, 0, 0, 0, 0, 0, 0, 0, 0, 0, 0, 0, 0, 0, 0], [0, 0, 0, 0, 0, 0, 0, 0, 0,
    0, 0, 0, 0, 0, 0, 0, 0, 0, 0, 0, 0, 0, 0, 0, 0, 1, 0, 0, 0, 0, 0, 0, 0, 0, 0, 0, 0, 0, 0,
    0], [0, 0, 0, 0, 0, 0, 0, 0, 0, 0, 0, 0, 0, 0, 0, 0, 0, 0, 0, 0, 0, 0, 0, 0, 0, 0, 0, 0, 1,
    0, 0, 0, 0, 0, 0, 0, 0, 0, 0, 0], [0, 0, 0, 0, 0, 0, 0, 0, 0, 0, 0, 0, 0, 0, 0, 0, 0, 0, 0,
    0, 0, 0, 0, 0, 0, 0, 0, 0, 0, 1, 0, 0, 0, 0, 0, 0, 0, 0, 0, 0]]⟩
      ⟨40, 12, [[1, 0, 0, 0, 0, 0, 0, 0, 0, 0, 0, 0], [0, 0, 0, 0, 0, 0, 0, 0, 0, 0, 0, 0], [0,
      1, 0, 0, 0, 0, 0, 0, 0, 0, 0, 0], [0, 0, 0, 0, 0, 0, 0, 0, 0, 0, 0, 0], [0, 0, 1, 0, 0, 0,
      0, 0, 0, 0, 0, 0], [1, 0, 0, 0, 0, 0, 0, 0, 0, 0, 0, 0], [0, 0, 0, 0, 0, 0, 0, 0, 0, 0, 0,
      0], [0, 1, 0, 0, 0, 0, 0, 0, 0, 0, 0, 0], [0, 0, 0, 0, 0, 0, 0, 0, 0, 0, 0, 0], [0, 0, 1,
      0, 0, 0, 0, 0, 0, 0, 0, 0], [0, 0, 0, 1, 0, 0, 0, 0, 0, 0, 0, 0], [0, 0, 0, 0, 0, 0, 0, 0,
      0, 0, 0, 0], [0, 0, 0, 0, 1, 0, 0, 0, 0, 0, 0, 0], [0, 0, 0, 0, 0, 0, 0, 0, 0, 0, 0, 0],
      [0, 0, 0, 0, 0, 1, 0, 0, 0, 0, 0, 0], [0, 0, 0, 1, 0, 0, 0, 0, 0, 0, 0, 0], [0, 0, 0, 0,
      0, 0, 0, 0, 0, 0, 0, 0], [0, 0, 0, 0, 1, 0, 0, 0, 0, 0, 0, 0], [0, 0, 0, 0, 0, 0, 0, 0, 0,
      0, 0, 0], [0, 0, 0, 0, 0, 1, 0, 0, 0, 0, 0, 0], [0, 0, 0, 0, 0, 0, 1, 0, 0, 0, 0, 0], [0,
      0, 0, 0, 0, 0, 1, 0, 0, 0, 0, 0], [0, 0, 0, 0, 0, 0, 0, 1, 0, 0, 0, 0], [0, 0, 0, 0, 0, 0,
      0, 1, 0, 0, 0, 0], [0, 0, 0, 0, 0, 0, 0, 0, 0, 0, 0, 0], [0, 0, 0, 0, 0, 0, 0, 0, 0, 0, 0,
      0], [0, 0, 0, 0, 0, 0, 0, 0, 0, 0, 0, 0], [0, 0, 0, 0, 0, 0, 0, 0, 0, 0, 0, 0], [0, 0, 0,
      0, 0, 0, 0, 0, 1, 0, 0, 0], [0, 0, 0, 0, 0, 0, 0, 0, 1, 0, 0, 0], [0, 0, 0, 0, 0, 0, 0, 0,
      0, 1, 0, 0], [0, 0, 0, 0, 0, 0, 0, 0, 0, 1, 0, 0], [0, 0, 0, 0, 0, 0, 0, 0, 0, 0, 0, 0],
      [0, 0, 0, 0, 0, 0, 0, 0, 0, 0, 0, 0], [0, 0, 0, 0, 0, 0, 0, 0, 0, 0, 0, 0], [0, 0, 0, 0,
      0, 0, 0, 0, 0, 0, 0, 0], [0, 0, 0, 0, 0, 0, 0, 0, 0, 0, 1, 0], [0, 0, 0, 0, 0, 0, 0, 0, 0,
      0, 1, 0], [0, 0, 0, 0, 0, 0, 0, 0, 0, 0, 0, 1], [0, 0, 0, 0, 0, 0, 0, 0, 0, 0, 0, 1]]⟩
      = ⟨20, 12, [[0, 0, 0, 0, 0, 0, 0, 0, 0, 0, 0, 0], [0, 0, 0, 0, 0, 0, 0, 0, 0, 0, 0, 0],
        [0, 0, 0, 0, 0, 0, 0, 0, 0, 0, 0, 0], [0, 0, 0, 0, 0, 0, 0, 0, 0, 0, 0, 0], [0, 0, 0, 0,
        0, 0, 0, 0, 0, 0, 0, 0], [0, 0, 0, 0, 0, 0, 0, 0, 0, 0, 0, 0], [0, 0, 0, 0, 0, 0, 0, 0,
        0, 0, 0, 0], [0, 0, 0, 0, 0, 0, 0, 0, 0, 0, 0, 0], [1, 0, 0, 0, 0, 0, 0, 0, 0, 0, 0, 0],
        [0, 0, 0, 0, 0, 0, 0, 0, 0, 0, 0, 0], [0, 1, 0, 0, 0, 0, 0, 0, 0, 0, 0, 0], [1, 0, 0, 0,
        0, 0, 0, 0, 0, 0, 0, 0], [0, 0, 0, 0, 0, 0, 0, 0, 0, 0, 0, 0], [0, 1, 0, 0, 0, 0, 0, 0,
        0, 0, 0, 0], [0, 0, 0, 0, 0, 0, 1, 0, 0, 0, 0, 0], [0, 0, 0, 0, 0, 0, 1, 0, 0, 0, 0, 0],
        [0, 0, 0, 0, 0, 0, 0, 0, 0, 0, 0, 0], [0, 0, 0, 0, 0, 0, 0, 0, 0, 0, 0, 0], [0, 0, 0, 0,
        0, 0, 0, 0, 1, 0, 0, 0], [0, 0, 0, 0, 0, 0, 0, 0, 1, 0, 0, 0]]⟩ := by rfl

set_option maxHeartbeats 4000000 in
set_option maxRecDepth 100000 in
/-- Its product with the coarse incidence. -/
theorem s22_x2 :
    SpMat.mul ⟨20, 12, [[0, 0, 0, 0, 0, 0, 0, 0, 0, 0, 0, 0], [0, 0, 0, 0, 0, 0, 0, 0, 0, 0, 0, 0], [0, 0,
    0, 0, 0, 0, 0, 0, 0, 0, 0, 0], [0, 0, 0, 0, 0, 0, 0, 0, 0, 0, 0, 0], [0, 0, 0, 0, 0, 0, 0,
    0, 0, 0, 0, 0], [0, 0, 0, 0, 0, 0, 0, 0, 0, 0, 0, 0], [0, 0, 0, 0, 0, 0, 0, 0, 0, 0, 0, 0],
    [0, 0, 0, 0, 0, 0, 0, 0, 0, 0, 0, 0], [1, 0, 0, 0, 0, 0, 0, 0, 0, 0, 0, 0], [0, 0, 0, 0, 0,
    0, 0, 0, 0, 0, 0, 0], [0, 1, 0, 0, 0, 0, 0, 0, 0, 0, 0, 0], [1, 0, 0, 0, 0, 0, 0, 0, 0, 0,
    0, 0], [0, 0, 0, 0, 0, 0, 0, 0, 0, 0, 0, 0], [0, 1, 0, 0, 0, 0, 0, 0, 0, 0, 0, 0], [0, 0, 0,
    0, 0, 0, 1, 0, 0, 0, 0, 0], [0, 0, 0, 0, 0, 0, 1, 0, 0, 0, 0, 0], [0, 0, 0, 0, 0, 0, 0, 0,
    0, 0, 0, 0], [0, 0, 0, 0, 0, 0, 0, 0, 0, 0, 0, 0], [0, 0, 0, 0, 0, 0, 0, 0, 1, 0, 0, 0], [0,
    0, 0, 0, 0, 0, 0, 0, 1, 0, 0, 0]]⟩
      ⟨12, 4, [[-1, 0, 0, 0], [1, -1, 0, 0], [0, 1, 0, 0], [0, 0, -1, 0], [0, 0, 1, -1], [0, 0,
      0, 1], [-1, 0, 0, 0], [0, -1, 0, 0], [1, 0, -1, 0], [0, 1, 0, -1], [0, 0, 1, 0], [0, 0, 0,
      1]]⟩
      = ⟨20, 4, [[0, 0, 0, 0], [0, 0, 0, 0], [0, 0, 0, 0], [0, 0, 0, 0], [0, 0, 0, 0], [0, 0, 0,
        0], [0, 0, 0, 0], [0, 0, 0, 0], [-1, 0, 0, 0], [0, 0, 0, 0], [1, -1, 0, 0], [-1, 0, 0,
        0], [0, 0, 0, 0], [1, -1, 0, 0], [-1, 0, 0, 0], [-1, 0, 0, 0], [0, 0, 0, 0], [0, 0, 0,
        0], [1, 0, -1, 0], [1, 0, -1, 0]]⟩ := by rfl

set_option maxHeartbeats 4000000 in
set_option maxRecDepth 100000 in
/-- The split-face term of the merged `cell_faces`. -/
theorem s22_t3 :
    SpMat.mul ⟨20, 4, [[0, 0, 0, 0], [0, 0, 0, 0], [0, 0, 0, 0], [0, 0, 0, 0], [0, 0, 0, 0], [0, 0, 0, 0],
    [0, 0, 0, 0], [0, 0, 0, 0], [-1, 0, 0, 0], [0, 0, 0, 0], [1, -1, 0, 0], [-1, 0, 0, 0], [0,
    0, 0, 0], [1, -1, 0, 0], [-1, 0, 0, 0], [-1, 0, 0, 0], [0, 0, 0, 0], [0, 0, 0, 0], [1, 0,
    -1, 0], [1, 0, -1, 0]]⟩
      ⟨4, 7, [[0, 0, 0, 0, 0, 0, 0], [1, 0, 0, 0, 0, 0, 0], [0, 1, 0, 0, 0, 0, 0], [0, 0, 1, 0,
      0, 0, 0]]⟩
      = ⟨20, 7, [[0, 0, 0, 0, 0, 0, 0], [0, 0, 0, 0, 0, 0, 0], [0, 0, 0, 0, 0, 0, 0], [0, 0, 0,
        0, 0, 0, 0], [0, 0, 0, 0, 0, 0, 0], [0, 0, 0, 0, 0, 0, 0], [0, 0, 0, 0, 0, 0, 0], [0, 0,
        0, 0, 0, 0, 0], [0, 0, 0, 0, 0, 0, 0], [0, 0, 0, 0, 0, 0, 0], [-1, 0, 0, 0, 0, 0, 0],
        [0, 0, 0, 0, 0, 0, 0], [0, 0, 0, 0, 0, 0, 0], [-1, 0, 0, 0, 0, 0, 0], [0, 0, 0, 0, 0, 0,
        0], [0, 0, 0, 0, 0, 0, 0], [0, 0, 0, 0, 0, 0, 0], [0, 0, 0, 0, 0, 0, 0], [0, -1, 0, 0,
        0, 0, 0], [0, -1, 0, 0, 0, 0, 0]]⟩ := by rfl

/-- C3 counterexample: after `refine_cells([0])` on a 2×1-base, 2-level
grid, the stored `cell_projections[1]` has entry `(1, 0)` equal to 1 while
`cell_projections[0] * cell_proj_level(0, 1)` has entry `(1, 0)` equal to
0, so the stack no longer satisfies the composition identity. -/
theorem C3_counterexample :
    (refine_cells (cartLeafGrid (2, 1) (1, 1) 2) (.indicesI [0])).map
      (fun s =>
        match s.cell_proj_level 0 1 with
        | .ok P =>
            some (((s.cell_projections.getD []).getD 1 (idMat 0)).entry 1 0,
              (((s.cell_projections.getD []).getD 0 (idMat 0)).mul P).entry 1 0)
        | .error _ => none)
      = .ok (some (1, 0)) ∧ (1 : Int) ≠ 0 :=
  ⟨(except_map_pair _ _ _ _ _ scenario21_eval).2, by decide⟩

/-- C3 amended: right after `_init_projection` the identity
`cell_projections[l+1] = cell_projections[l] * cell_proj_level(l, l+1)`
holds for every level with a next level. -/
theorem C3_amended_init_stack :
    ∀ (s : LeafState) (l : Nat), l + 1 < s.level_grids.length →
      ∃ st P, (init_projection s).cell_projections = some st ∧
        s.cell_proj_level l (l + 1) = .ok P ∧
        st.getD (l + 1) (idMat 0) = (st.getD l (idMat 0)).mul P := by
  intro s l hl
  refine ⟨(List.range s.level_grids.length).map
      (cumProj (idMat (s.level_grids.getD 0
        (cartGridOf s.nxBase s.physdims)).num_cells)
      (fun l2 => cellProjCore (s.mesh_sizes.getD l2 (0, 0)))),
    cellProjCore (s.mesh_sizes.getD l (0, 0)), rfl, ?_, ?_⟩
  · rw [LeafState.cell_proj_level]
    have hgap : ¬(((l + 1 : Nat) : Int) - (l : Nat) ≠ 1) := by
      push_cast
      ring_nf
      simp
    rw [if_neg hgap, if_pos hl]
  · rw [getD_range_map, getD_range_map, if_pos hl, if_pos (by omega)]
    rfl

/-- C3 amended witness: the identity at level 0 of a 2×2-base 2-level
grid. -/
theorem C3_amended_witness :
    ∃ st P,
      (init_projection (cartLeafGrid (2, 2) (1, 1) 2)).cell_projections
        = some st ∧
      (cartLeafGrid (2, 2) (1, 1) 2).cell_proj_level 0 1 = .ok P ∧
      st.getD 1 (idMat 0) = (st.getD 0 (idMat 0)).mul P :=
  C3_amended_init_stack (cartLeafGrid (2, 2) (1, 1) 2) 0 (by decide)

/-- C6 counterexample: on a freshly built single-level grid (every cell
already at the top level) an empty refinement selection does not leave
the grid unchanged — the call fails with an `IndexError` because no finer
level grid exists. -/
theorem C6_counterexample :
    refine_cells (cartLeafGrid (1, 1) (1, 1) 1) (.boolMask (fun _ => false))
      = .error indexErrorMsg ∧
    ∀ s', refine_cells (cartLeafGrid (1, 1) (1, 1) 1) (.boolMask (fun _ => false))
      ≠ .ok s' := by
  have h0 : refine_cells (cartLeafGrid (1, 1) (1, 1) 1)
      (.boolMask (fun _ => false)) = .error indexErrorMsg := by rfl
  exact ⟨h0, fun s' h => by rw [h0] at h; exact Except.noConfusion h⟩

/-- C8: the loop of `refine_cells` ranges over
`range(min_level, min_level + 1)`, a single iteration, so `refine_level`
runs exactly once, at the minimum of `cell_level`. -/
theorem C8_single_refine_loop :
    (∀ a : Nat, pyRange a (a + 1) = [a]) ∧
    (∀ (s : LeafState) (cells : CellsInput),
      refine_cells s cells =
        refine_level (initIfNeeded s) (minCellLevel (initIfNeeded s))
          (.boolMask (loopMask
            (zerosAssignTrue (initIfNeeded s).num_cells cells)
            (initIfNeeded s) (minCellLevel (initIfNeeded s))))) ∧
    (∀ s : LeafState, 0 < s.num_cells →
      (∀ i < s.num_cells, minCellLevel s ≤ s.cell_level i) ∧
      ∃ i < s.num_cells, minCellLevel s = s.cell_level i) :=
  ⟨pyRange_succ_self, refine_cells_eq,
    fun s hn => ⟨fun i hi => arrMin_le _ _ i hi, arrMin_attained _ _ hn⟩⟩

/-- C8 witness: the minimum-level facts on the fresh 2×2 grid. -/
theorem C8_witness :
    (∀ i < (cartLeafGrid (2, 2) (1, 1) 2).num_cells,
      minCellLevel (cartLeafGrid (2, 2) (1, 1) 2)
        ≤ (cartLeafGrid (2, 2) (1, 1) 2).cell_level i) ∧
    ∃ i < (cartLeafGrid (2, 2) (1, 1) 2).num_cells,
      minCellLevel (cartLeafGrid (2, 2) (1, 1) 2)
        = (cartLeafGrid (2, 2) (1, 1) 2).cell_level i :=
  C8_single_refine_loop.2.2 (cartLeafGrid (2, 2) (1, 1) 2) (by decide)

/-!  ## Entry values of the matrix constructors -/

theorem entry_transpose (A : SpMat) (i j : Nat) :
    A.transpose.entry i j = if i < A.cols ∧ j < A.rows then A.entry j i else 0 := by
  rw [SpMat.transpose, entry_ofFun]

theorem entry_mul (A B : SpMat) (i j : Nat) :
    (A.mul B).entry i j =
      if i < A.rows ∧ j < B.cols
      then isum A.cols (fun k => A.entry i k * B.entry k j) else 0 := by
  rw [SpMat.mul, entry_ofFun]

theorem entry_add (A B : SpMat) (i j : Nat) :
    (A.add B).entry i j =
      if i < A.rows ∧ j < A.cols then A.entry i j + B.entry i j else 0 := by
  rw [SpMat.add, entry_ofFun]

theorem entry_idMat (n i j : Nat) :
    (idMat n).entry i j = if i < n ∧ j < n ∧ i = j then 1 else 0 := by
  rw [idMat, entry_ofFun]
  by_cases h1 : i < n
  · by_cases h2 : j < n
    · by_cases h3 : i = j <;> simp [h1, h2, h3]
    · simp [h1, h2]
  · simp [h1]

theorem entry_selDownL (v : List Bool) (offset newTotal i j : Nat) :
    (selDownL v offset newTotal).entry i j =
      if i < newTotal ∧ j < v.length ∧ getB v j ∧ i = offset + rankL v j
      then 1 else 0 := by
  rw [selDownL, entry_ofFun]
  by_cases h1 : i < newTotal
  · by_cases h2 : j < v.length
    · by_cases h3 : getB v j = true
      · by_cases h4 : i = offset + rankL v j <;> simp [h1, h2, h3, h4]
      · simp [h1, h2, h3]
    · simp [h1, h2]
  · simp [h1]

theorem entry_selUpL (v : List Bool) (offset cnt newTotal j r : Nat) :
    (selUpL v offset cnt newTotal).entry j r =
      if j < v.length ∧ r < newTotal ∧ offset ≤ r ∧ r < offset + cnt ∧
          (whereListB v).getD (r - offset) v.length = j
      then 1 else 0 := by
  rw [selUpL, entry_ofFun]
  by_cases h1 : j < v.length
  · by_cases h2 : r < newTotal
    · by_cases h3 : offset ≤ r
      · by_cases h4 : r < offset + cnt
        · by_cases h5 : (whereListB v).getD (r - offset) v.length = j <;>
            simp [h1, h2, h3, h4, h5]
        · simp [h1, h2, h3, h4]
      · simp [h1, h2, h3]
    · simp [h1, h2]
  · simp [h1]

theorem entry_diagBL (v : List Bool) (i j : Nat) :
    (diagBL v).entry i j =
      if i < v.length ∧ j < v.length ∧ i = j ∧ getB v i then 1 else 0 := by
  rw [diagBL, entry_ofFun]
  by_cases h1 : i < v.length
  · by_cases h2 : j < v.length
    · by_cases h3 : i = j
      · by_cases h4 : getB v i = true <;> simp [h1, h2, h3, h4]
      · simp [h1, h2, h3]
    · simp [h1, h2]
  · simp [h1]

theorem getB_bvecMul (A : SpMat) (v : List Bool) (i : Nat) :
    getB (bvecMul A v) i =
      (decide (i < A.rows) &&
        decide (0 < isum A.cols (fun j => A.entry i j * b2i (getB v j)))) := by
  rw [bvecMul, getB_range_map]

theorem getB_bnot (v : List Bool) (i : Nat) :
    getB (bnot v) i = (decide (i < v.length) && !(getB v i)) := by
  rcases Nat.lt_or_ge i v.length with h | h
  · rw [getB, bnot, getD_map_lt _ _ _ _ false h]
    simp [h, getB]
  · rw [getB, bnot, List.getD_eq_getElem?_getD, List.getElem?_eq_none (by simpa using h)]
    simp [Nat.not_lt.mpr h]

theorem length_bnot (v : List Bool) : (bnot v).length = v.length := by
  rw [bnot, List.length_map]

theorem length_bvecMul (A : SpMat) (v : List Bool) :
    (bvecMul A v).length = A.rows := by
  rw [bvecMul, length_range_map]

theorem b2i_pos_iff (b : Bool) : 0 < b2i b ↔ b = true := by
  cases b <;> simp [b2i]

/-!  ## Pointwise values of the refinement vectors -/

theorem getB_cellsC_idMat (n : Nat) (cc0 : List Bool) (j : Nat) :
    getB (cellsCOf (idMat n) cc0) j = (decide (j < n) && getB cc0 j) := by
  rw [cellsCOf, getB_bvecMul]
  have hrows : (SpMat.transpose (idMat n)).rows = n := rfl
  have hcols : (SpMat.transpose (idMat n)).cols = n := rfl
  have hrI : (idMat n).rows = n := rfl
  have hcI : (idMat n).cols = n := rfl
  rw [hrows, hcols]
  by_cases hj : j < n
  · have hsum : isum n
        (fun i => (SpMat.transpose (idMat n)).entry j i * b2i (getB cc0 i))
        = b2i (getB cc0 j) := by
      rw [isum_eq_single n j _ hj]
      · rw [entry_transpose, if_pos (by rw [hrI, hcI]; exact ⟨hj, hj⟩),
          entry_idMat, if_pos ⟨hj, hj, rfl⟩, one_mul]
      · intro k hk hkj
        rw [entry_transpose]
        by_cases hin : j < (idMat n).cols ∧ k < (idMat n).rows
        · rw [if_pos hin, entry_idMat,
            if_neg (fun h => hkj h.2.2), zero_mul]
        · rw [if_neg hin, zero_mul]
    rw [hsum]
    cases hb : getB cc0 j <;> simp [hj, b2i, hb]
  · simp [hj]

theorem getB_cellsF (m : Nat × Nat) (cc : List Bool)
    (hlen : m.1 * m.2 ≤ cc.length) (k : Nat) :
    getB (cellsFOf (cellProjCore m) cc) k
      = (decide (k < 4 * (m.1 * m.2)) && !(getB cc (cellParent m.1 k))) := by
  rw [cellsFOf, getB_bvecMul]
  have hrows : (SpMat.transpose (cellProjCore m)).rows = 4 * (m.1 * m.2) := rfl
  have hcols : (SpMat.transpose (cellProjCore m)).cols = m.1 * m.2 := rfl
  have hrC : (cellProjCore m).rows = m.1 * m.2 := rfl
  have hcC : (cellProjCore m).cols = 4 * (m.1 * m.2) := rfl
  rw [hrows, hcols]
  by_cases hk : k < 4 * (m.1 * m.2)
  · have hpar : cellParent m.1 k < m.1 * m.2 := cellParent_lt m.1 m.2 k hk
    have hsum : isum (m.1 * m.2)
        (fun p => (SpMat.transpose (cellProjCore m)).entry k p
          * b2i (getB (bnot cc) p))
        = b2i (getB (bnot cc) (cellParent m.1 k)) := by
      rw [isum_eq_single _ (cellParent m.1 k) _ hpar]
      · rw [entry_transpose, if_pos (by rw [hrC, hcC]; exact ⟨hk, hpar⟩),
          entry_cellProjCore, if_pos ⟨hpar, hk, rfl⟩, one_mul]
      · intro p hp hpne
        rw [entry_transpose, if_pos (by rw [hrC, hcC]; exact ⟨hk, hp⟩),
          entry_cellProjCore, if_neg (fun h => hpne h.2.2.symm), zero_mul]
    rw [hsum, getB_bnot]
    have hlt : cellParent m.1 k < cc.length := lt_of_lt_of_le hpar hlen
    cases hb : getB cc (cellParent m.1 k) <;> simp [hk, hlt, b2i, hb]
  · simp [hk]

/-!  ## Mask / index-array input equivalence -/

theorem zerosAssignTrue_mask_eq_indices (n : Nat) (m : Nat → Bool) :
    zerosAssignTrue n (.boolMask m)
      = zerosAssignTrue n (.indicesI ((List.range n).filter m)) := by
  rw [zerosAssignTrue, zerosAssignTrue]
  apply List.map_congr_left
  intro i hi
  have hi' : i < n := List.mem_range.mp hi
  show m i = ((List.range n).filter m).contains i
  rw [List.contains, List.elem_eq_mem]
  cases hm : m i
  · simp [List.mem_filter, hm]
  · simp [List.mem_filter, List.mem_range, hi', hm]

theorem onesAssignFalse_mask_eq_indices (n : Nat) (m : Nat → Bool) :
    onesAssignFalse n (.boolMask m)
      = onesAssignFalse n (.indicesI ((List.range n).filter m)) := by
  rw [onesAssignFalse, onesAssignFalse]
  apply List.map_congr_left
  intro i hi
  have hi' : i < n := List.mem_range.mp hi
  show (!(m i)) = (!(((List.range n).filter m).contains i))
  rw [List.contains, List.elem_eq_mem]
  cases hm : m i
  · simp [List.mem_filter, hm]
  · simp [List.mem_filter, List.mem_range, hi', hm]

/-- C10: the `isinstance(np.asarray(cells).dtype, bool)` test of
`refine_cells`/`refine_level` is always False, so both input forms take
the index-assignment branch (this is how `onesAssignFalse` and
`zerosAssignTrue` are defined); nevertheless a boolean mask over the
active cells and the index list of exactly the positions where the mask
is True produce the same resulting grid state, for both `refine_cells`
and `refine_level`. -/
theorem C10_mask_index_equivalence :
    (∀ (s : LeafState) (m : Nat → Bool),
      refine_cells s (.boolMask m)
        = refine_cells s
            (.indicesI ((List.range (initIfNeeded s).num_cells).filter m)))
    ∧ (∀ (s : LeafState) (level : Nat) (m : Nat → Bool),
      refine_level s level (.boolMask m)
        = refine_level s level
            (.indicesI ((List.range s.num_cells).filter m))) := by
  constructor
  · intro s m
    simp only [refine_cells]
    rw [zerosAssignTrue_mask_eq_indices]
  · intro s level m
    simp only [refine_level]
    rw [onesAssignFalse_mask_eq_indices]

/-!  ## Frame conditions of the refinement calls -/

theorem init_projection_level_grids (s : LeafState) :
    (init_projection s).level_grids = s.level_grids := rfl

theorem initIfNeeded_level_grids (s : LeafState) :
    (initIfNeeded s).level_grids = s.level_grids := by
  rw [initIfNeeded]
  split
  · rfl
  · rfl

theorem refine_level_level_grids (s : LeafState) (level : Nat)
    (cells : CellsInput) (s' : LeafState)
    (h : refine_level s level cells = .ok s') :
    s'.level_grids = s.level_grids := by
  obtain ⟨stC, stF, stN, PL, gL, gL1, _, _, _, _, _, _, _, hs'⟩ :=
    refine_level_ok_inv s level cells s' h
  rw [hs', refineBody_level_grids]

set_option maxHeartbeats 4000000 in
set_option maxRecDepth 100000 in
theorem refine_level_gridA :
    refine_level gridAInit 0 (.indicesI [0]) = .ok bodyA := by rfl

/-- C9: the per-level grids are never mutated: every successful
`refine_cells` and `refine_level` call leaves `level_grids` unchanged;
and `refine_level(level, cells)` overwrites only the projection-stack
entries at indices `level` and `level+1`, leaving the cell-, face- and
node-projection stack entries at every other index unchanged. -/
theorem C9_frame_conditions :
    (∀ (s : LeafState) (cells : CellsInput) (s' : LeafState),
      refine_cells s cells = .ok s' → s'.level_grids = s.level_grids)
    ∧ (∀ (s : LeafState) (level : Nat) (cells : CellsInput) (s' : LeafState),
      refine_level s level cells = .ok s' →
        s'.level_grids = s.level_grids
        ∧ ∀ k, k ≠ level → k ≠ level + 1 →
          Option.map (fun st => List.get? st k) s'.cell_projections
            = Option.map (fun st => List.get? st k) s.cell_projections
          ∧ Option.map (fun st => List.get? st k) s'.face_projections
            = Option.map (fun st => List.get? st k) s.face_projections
          ∧ Option.map (fun st => List.get? st k) s'.node_projections
            = Option.map (fun st => List.get? st k) s.node_projections) := by
  constructor
  · intro s cells s' h
    rw [refine_cells_eq] at h
    rw [refine_level_level_grids _ _ _ _ h, initIfNeeded_level_grids]
  · intro s level cells s' h
    obtain ⟨stC, stF, stN, PL, gL, gL1, hC, hF, hN, hPL, hlen, hgL, hgL1, hs'⟩ :=
      refine_level_ok_inv s level cells s' h
    refine ⟨by rw [hs', refineBody_level_grids], ?_⟩
    intro k hk hk1
    obtain ⟨af, bf, hfp⟩ := refineBody_face_projections s level
      (onesAssignFalse s.num_cells cells) stC stF stN PL
      (cellProjCore (s.mesh_sizes.getD level (0, 0)))
      (faceProjCore (s.mesh_sizes.getD level (0, 0)))
      (nodeProjCore (s.mesh_sizes.getD level (0, 0))) gL gL1
    obtain ⟨an, bn, hnp⟩ := refineBody_node_projections s level
      (onesAssignFalse s.num_cells cells) stC stF stN PL
      (cellProjCore (s.mesh_sizes.getD level (0, 0)))
      (faceProjCore (s.mesh_sizes.getD level (0, 0)))
      (nodeProjCore (s.mesh_sizes.getD level (0, 0))) gL gL1
    refine ⟨?_, ?_, ?_⟩
    · rw [hs', refineBody_cell_projections, hC, Option.map_some', Option.map_some',
        List.get?_set_ne _ _ (fun he => hk1 he.symm),
        List.get?_set_ne _ _ (fun he => hk he.symm)]
    · rw [hs', hfp, hF, Option.map_some', Option.map_some',
        List.get?_set_ne _ _ (fun he => hk1 he.symm),
        List.get?_set_ne _ _ (fun he => hk he.symm)]
    · rw [hs', hnp, hN, Option.map_some', Option.map_some',
        List.get?_set_ne _ _ (fun he => hk1 he.symm),
        List.get?_set_ne _ _ (fun he => hk he.symm)]

/-- C9 witness: a concrete successful `refine_level` call on the 2×1
two-level grid leaves `level_grids` unchanged. -/
theorem C9_witness : bodyA.level_grids = gridAInit.level_grids :=
  (C9_frame_conditions.2 gridAInit 0 (.indicesI [0]) bodyA
    refine_level_gridA).1

/-- C4: after any successful `refine_level(level, cells)` call the new
composite cell count is the sum of the stay-coarse count and the
promote-to-fine count, and the two flag vectors partition the cells:
a fine child is selected iff its coarse parent is not kept, and a level-L
cell is kept coarse iff none of its children is promoted. -/
theorem C4_cell_partition
    (s : LeafState) (level : Nat) (cells : CellsInput) (s' : LeafState)
    (stC : List SpMat) (PL : SpMat) (mx my : Nat)
    (h : refine_level s level cells = .ok s')
    (hstC : s.cell_projections = some stC)
    (hPL : stC.get? level = some PL)
    (hm : s.mesh_sizes.getD level (0, 0) = (mx, my))
    (hcols : PL.cols = mx * my) :
    s'.num_cells
      = csum (cellsCOf PL (onesAssignFalse s.num_cells cells))
        + csum (cellsFOf (cellProjCore (mx, my))
            (cellsCOf PL (onesAssignFalse s.num_cells cells)))
    ∧ (∀ k, k < 4 * (mx * my) →
        (getB (cellsFOf (cellProjCore (mx, my))
            (cellsCOf PL (onesAssignFalse s.num_cells cells))) k = true
          ↔ getB (cellsCOf PL (onesAssignFalse s.num_cells cells))
              (cellParent mx k) = false))
    ∧ (∀ j, j < mx * my →
        (getB (cellsCOf PL (onesAssignFalse s.num_cells cells)) j = true
          ↔ ∀ k, k < 4 * (mx * my) → cellParent mx k = j →
              getB (cellsFOf (cellProjCore (mx, my))
                (cellsCOf PL (onesAssignFalse s.num_cells cells))) k
                = false)) := by
  obtain ⟨stC0, stF0, stN0, PL0, gL0, gL10, hC0, hF0, hN0, hPL0, hlen0,
    hgL0, hgL10, hs'⟩ := refine_level_ok_inv s level cells s' h
  have hst : stC0 = stC := by
    rw [hstC] at hC0
    exact (Option.some_inj.mp hC0).symm
  subst hst
  have hPLeq : PL0 = PL := by
    rw [hPL] at hPL0
    exact (Option.some_inj.mp hPL0).symm
  rw [hPLeq] at hs'
  have hlenc : mx * my ≤ (cellsCOf PL (onesAssignFalse s.num_cells cells)).length := by
    rw [cellsCOf, length_bvecMul]
    have : (SpMat.transpose PL).rows = PL.cols := rfl
    rw [this, hcols]
  have hF : ∀ k,
      getB (cellsFOf (cellProjCore (mx, my))
        (cellsCOf PL (onesAssignFalse s.num_cells cells))) k
      = (decide (k < 4 * (mx * my))
          && !(getB (cellsCOf PL (onesAssignFalse s.num_cells cells))
                (cellParent mx k))) :=
    fun k => getB_cellsF (mx, my) _ hlenc k
  refine ⟨?_, ?_, ?_⟩
  · rw [hs', refineBody_num_cells, hm]
  · intro k hk
    rw [hF k]
    cases hb : getB (cellsCOf PL (onesAssignFalse s.num_cells cells))
        (cellParent mx k) <;> simp [hk, hb]
  · intro j hj
    constructor
    · intro hccj k hk hpar
      rw [hF k, hpar, hccj]
      simp
    · intro hall
      have hk0lt : j / mx * (4 * mx) + 2 * (j % mx) < 4 * (mx * my) := by
        have := cellChild_lt mx my j hj
        omega
      have hpar0 : cellParent mx (j / mx * (4 * mx) + 2 * (j % mx)) = j :=
        (cellParent_eq_iff mx my _ j hj hk0lt).mpr (Or.inl rfl)
      have := hall _ hk0lt hpar0
      rw [hF _, hpar0] at this
      simpa [hk0lt] using this

/-- C4 witness: the count identity at a concrete successful
`refine_level` call on the 2×1 two-level grid. -/
theorem C4_witness :
    bodyA.num_cells
      = csum (cellsCOf (idMat 2) (onesAssignFalse gridAInit.num_cells
          (.indicesI [0])))
        + csum (cellsFOf (cellProjCore (2, 1))
            (cellsCOf (idMat 2) (onesAssignFalse gridAInit.num_cells
              (.indicesI [0])))) :=
  (C4_cell_partition gridAInit 0 (.indicesI [0]) bodyA stackCA (idMat 2) 2 1
    refine_level_gridA rfl rfl rfl rfl).1

/-!  ## Generic helpers for the empty-refinement analysis -/

theorem list_eq_of_getB (v w : List Bool) (hl : v.length = w.length)
    (h : ∀ i, i < v.length → getB v i = getB w i) : v = w := by
  apply List.ext_getElem hl
  intro i h1 h2
  have hb := h i h1
  rw [getB, getB, List.getD_eq_getElem?_getD, List.getD_eq_getElem?_getD,
    List.getElem?_eq_getElem h1, List.getElem?_eq_getElem h2] at hb
  simpa using hb

theorem rows_add (A B : SpMat) : (A.add B).rows = A.rows := rfl

theorem cols_add (A B : SpMat) : (A.add B).cols = A.cols := rfl

theorem rows_mul (A B : SpMat) : (A.mul B).rows = A.rows := rfl

theorem cols_mul (A B : SpMat) : (A.mul B).cols = B.cols := rfl

theorem rows_transpose (A : SpMat) : A.transpose.rows = A.cols := rfl

theorem cols_transpose (A : SpMat) : A.transpose.cols = A.rows := rfl

theorem rows_selUpL (v : List Bool) (o c T : Nat) :
    (selUpL v o c T).rows = v.length := rfl

theorem cols_selUpL (v : List Bool) (o c T : Nat) :
    (selUpL v o c T).cols = T := rfl

theorem rows_selDownL (v : List Bool) (o T : Nat) :
    (selDownL v o T).rows = T := rfl

theorem cols_selDownL (v : List Bool) (o T : Nat) :
    (selDownL v o T).cols = v.length := rfl

theorem except_ok_bind {α β : Type} (a : α) (f : α → Except String β) :
    (Except.ok a >>= f) = f a := rfl

theorem bvecMul_all_false (A : SpMat) (v : List Bool)
    (h : ∀ j, getB v j = false) :
    bvecMul A v = (List.range A.rows).map (fun _ => false) := by
  rw [bvecMul]
  apply List.map_congr_left
  intro i _
  have hz : isum A.cols (fun j => A.entry i j * b2i (getB v j)) = 0 :=
    isum_zero_of _ _ (fun j _ => by rw [h j]; simp [b2i])
  rw [hz]
  rfl

theorem bvecMul_all_true_of_surj (A : SpMat) (v : List Bool)
    (hnn : ∀ p q, 0 ≤ A.entry p q)
    (hsur : ∀ p, p < A.rows →
      ∃ q, q < A.cols ∧ A.entry p q = 1 ∧ getB v q = true) :
    bvecMul A v = (List.range A.rows).map (fun _ => true) := by
  rw [bvecMul]
  apply List.map_congr_left
  intro p hp
  obtain ⟨q, hq, he, hv⟩ := hsur p (List.mem_range.mp hp)
  have hpos : 0 < isum A.cols (fun j => A.entry p j * b2i (getB v j)) :=
    isum_pos_of _ q _ hq (by rw [he, hv]; simp [b2i])
      (fun k _ => mul_nonneg (hnn p k) (by cases getB v k <;> simp [b2i]))
  simp [hpos]

theorem bnot_range_map (n : Nat) (f : Nat → Bool) :
    bnot ((List.range n).map f) = (List.range n).map (fun i => !(f i)) := by
  rw [bnot, List.map_map]
  rfl

theorem entry_transpose_zero (A : SpMat) (h : ∀ a b, A.entry a b = 0)
    (i j : Nat) : A.transpose.entry i j = 0 := by
  rw [entry_transpose]
  split
  · exact h j i
  · rfl

theorem entry_mul_zero_left (A B : SpMat) (h : ∀ a b, A.entry a b = 0)
    (i j : Nat) : (A.mul B).entry i j = 0 := by
  rw [entry_mul]
  split
  · exact isum_zero_of _ _ (fun k _ => by rw [h i k, zero_mul])
  · rfl

theorem entry_selUpL_cnt_zero (v : List Bool) (off T j r : Nat) :
    (selUpL v off 0 T).entry j r = 0 := by
  rw [entry_selUpL]
  apply if_neg
  intro h
  have := h.2.2.2.1
  omega

theorem entry_selUpL_allTrue (nE T j r : Nat) :
    (selUpL ((List.range nE).map (fun _ => true)) 0 nE T).entry j r
      = if j < nE ∧ r < T ∧ r < nE ∧ j = r then 1 else 0 := by
  rw [entry_selUpL, length_range_map,
    whereListB_all_true nE _ (fun _ _ => rfl)]
  by_cases hj : j < nE
  · by_cases hrT : r < T
    · by_cases hrE : r < nE
      · rw [show r - 0 = r from rfl, getD_range_lt nE r nE hrE]
        by_cases hjr : j = r
        · rw [if_pos ⟨hj, hrT, Nat.zero_le r, by omega, hjr.symm⟩,
            if_pos ⟨hj, hrT, hrE, hjr⟩]
        · rw [if_neg (fun h => hjr h.2.2.2.2.symm),
            if_neg (fun h => hjr h.2.2.2)]
      · rw [if_neg (fun h => hrE (by have := h.2.2.2.1; omega)),
          if_neg (fun h => hrE h.2.2.1)]
    · rw [if_neg (fun h => hrT h.2.1), if_neg (fun h => hrT h.2.1)]
  · rw [if_neg (fun h => hj h.1), if_neg (fun h => hj h.1)]

theorem entry_selDownL_allTrue (nV T i j : Nat) :
    (selDownL ((List.range nV).map (fun _ => true)) 0 T).entry i j
      = if i < T ∧ j < nV ∧ i = j then 1 else 0 := by
  rw [entry_selDownL, length_range_map]
  by_cases hj : j < nV
  · have hgB : getB ((List.range nV).map (fun _ => true)) j = true := by
      rw [getB_range_map]
      simp [hj]
    have hrk : rankL ((List.range nV).map (fun _ => true)) j = j :=
      rankL_all_true _ j (by rw [length_range_map]; omega)
        (fun i hij => by
          rw [getB_range_map]
          simp
          omega)
    by_cases hiT : i < T
    · by_cases hij : i = j
      · rw [if_pos ⟨hiT, hj, by rw [hgB], by rw [hrk]; omega⟩,
          if_pos ⟨hiT, hj, hij⟩]
      · rw [if_neg (fun h => hij (by have := h.2.2.2; rw [hrk] at this; omega)),
          if_neg (fun h => hij h.2.2)]
    · rw [if_neg (fun h => hiT h.1), if_neg (fun h => hiT h.1)]
  · rw [if_neg (fun h => hj h.2.1), if_neg (fun h => hj h.2.1)]

theorem entry_merged_all_coarse (nV n4 nE Fb : Nat) (A0 A1 P : SpMat)
    (h0c : A0.cols = nV) (i j : Nat) (hi : i < nE) (hj : j < nV) :
    (SpMat.add
      (SpMat.add
        (((rfUpC ((List.range nE).map (fun _ => true))
            ((List.range Fb).map (fun _ => false))).transpose.mul A0).mul
          (c2rOf ((List.range nV).map (fun _ => true))
            ((List.range n4).map (fun _ => false))).transpose)
        (((rfUpF ((List.range nE).map (fun _ => true))
            ((List.range Fb).map (fun _ => false))).transpose.mul A1).mul
          (f2rOf ((List.range nV).map (fun _ => true))
            ((List.range n4).map (fun _ => false))).transpose))
      ((((ffToC ((List.range nE).map (fun _ => true))
          ((List.range Fb).map (fun _ => false))).mul P.transpose).mul A0).mul
        (c2rOf ((List.range nV).map (fun _ => true))
          ((List.range n4).map (fun _ => false))).transpose)).entry i j
      = A0.entry i j := by
  have hce : csum ((List.range nE).map (fun _ => true)) = nE :=
    csum_all_true nE _ (fun _ _ => rfl)
  have hc0 : csum ((List.range Fb).map (fun _ => false)) = 0 :=
    csum_all_false Fb _ (fun _ _ => rfl)
  have hcv : csum ((List.range nV).map (fun _ => true)) = nV :=
    csum_all_true nV _ (fun _ _ => rfl)
  have hc4 : csum ((List.range n4).map (fun _ => false)) = 0 :=
    csum_all_false n4 _ (fun _ _ => rfl)
  have hupC : rfUpC ((List.range nE).map (fun _ => true))
      ((List.range Fb).map (fun _ => false))
      = selUpL ((List.range nE).map (fun _ => true)) 0 nE nE := by
    rw [rfUpC, hce, hc0]
    rfl
  have hc2r : c2rOf ((List.range nV).map (fun _ => true))
      ((List.range n4).map (fun _ => false))
      = selDownL ((List.range nV).map (fun _ => true)) 0 nV := by
    rw [c2rOf, hcv, hc4]
    rfl
  have hupF0 : ∀ a b, (rfUpF ((List.range nE).map (fun _ => true))
      ((List.range Fb).map (fun _ => false))).entry a b = 0 := by
    intro a b
    rw [rfUpF, hc0, entry_selUpL_cnt_zero]
  have hT2 : ∀ a b,
      ((((rfUpF ((List.range nE).map (fun _ => true))
          ((List.range Fb).map (fun _ => false))).transpose.mul A1).mul
        (f2rOf ((List.range nV).map (fun _ => true))
          ((List.range n4).map (fun _ => false))).transpose)).entry a b = 0 :=
    fun a b => entry_mul_zero_left _ _
      (fun x y => entry_mul_zero_left _ _
        (fun u w => entry_transpose_zero _ hupF0 u w) x y) a b
  have hffToC0 : ∀ a b, (ffToC ((List.range nE).map (fun _ => true))
      ((List.range Fb).map (fun _ => false))).entry a b = 0 := by
    intro a b
    rw [ffToC]
    exact entry_mul_zero_left _ _
      (fun u w => entry_transpose_zero _ hupF0 u w) a b
  have hT3 : ∀ a b,
      (((((ffToC ((List.range nE).map (fun _ => true))
          ((List.range Fb).map (fun _ => false))).mul P.transpose).mul A0).mul
        (c2rOf ((List.range nV).map (fun _ => true))
          ((List.range n4).map (fun _ => false))).transpose)).entry a b = 0 :=
    fun a b => entry_mul_zero_left _ _
      (fun x y => entry_mul_zero_left _ _
        (fun u w => entry_mul_zero_left _ _ hffToC0 u w) x y) a b
  have hupCT : ∀ a b,
      ((rfUpC ((List.range nE).map (fun _ => true))
        ((List.range Fb).map (fun _ => false))).transpose).entry a b
        = if a < nE ∧ b < nE ∧ a = b then 1 else 0 := by
    intro a b
    rw [hupC, entry_transpose, cols_selUpL, rows_selUpL, length_range_map]
    by_cases ha : a < nE
    · by_cases hb : b < nE
      · rw [if_pos ⟨ha, hb⟩, entry_selUpL_allTrue]
        by_cases hab : a = b
        · rw [if_pos ⟨hb, ha, ha, hab.symm⟩, if_pos ⟨ha, hb, hab⟩]
        · rw [if_neg (fun h => hab h.2.2.2.symm), if_neg (fun h => hab h.2.2)]
      · rw [if_neg (fun h => hb h.2), if_neg (fun h => hb h.2.1)]
    · rw [if_neg (fun h => ha h.1), if_neg (fun h => ha h.1)]
  have hc2rT : ∀ a b,
      ((c2rOf ((List.range nV).map (fun _ => true))
        ((List.range n4).map (fun _ => false))).transpose).entry a b
        = if a < nV ∧ b < nV ∧ a = b then 1 else 0 := by
    intro a b
    rw [hc2r, entry_transpose, cols_selDownL, rows_selDownL, length_range_map]
    by_cases ha : a < nV
    · by_cases hb : b < nV
      · rw [if_pos ⟨ha, hb⟩, entry_selDownL_allTrue]
        by_cases hab : a = b
        · rw [if_pos ⟨hb, ha, hab.symm⟩, if_pos ⟨ha, hb, hab⟩]
        · rw [if_neg (fun h => hab h.2.2.symm), if_neg (fun h => hab h.2.2)]
      · rw [if_neg (fun h => hb h.2), if_neg (fun h => hb h.2.1)]
    · rw [if_neg (fun h => ha h.1), if_neg (fun h => ha h.1)]
  have hM1 : ∀ a t, a < nE → t < nV →
      ((rfUpC ((List.range nE).map (fun _ => true))
        ((List.range Fb).map (fun _ => false))).transpose.mul A0).entry a t
        = A0.entry a t := by
    intro a t ha ht
    rw [entry_mul]
    have hr : ((rfUpC ((List.range nE).map (fun _ => true))
        ((List.range Fb).map (fun _ => false))).transpose).rows = nE := by
      rw [rows_transpose, hupC, cols_selUpL]
    have hcc : ((rfUpC ((List.range nE).map (fun _ => true))
        ((List.range Fb).map (fun _ => false))).transpose).cols = nE := by
      rw [cols_transpose, hupC, rows_selUpL, length_range_map]
    rw [hr, h0c, hcc, if_pos ⟨ha, ht⟩]
    rw [isum_eq_single nE a _ ha
      (fun k hk hka => by rw [hupCT a k, if_neg (fun h => hka h.2.2.symm), zero_mul])]
    rw [hupCT a a, if_pos ⟨ha, ha, rfl⟩, one_mul]
  have hT1 : ∀ a b, a < nE → b < nV →
      (((rfUpC ((List.range nE).map (fun _ => true))
          ((List.range Fb).map (fun _ => false))).transpose.mul A0).mul
        (c2rOf ((List.range nV).map (fun _ => true))
          ((List.range n4).map (fun _ => false))).transpose).entry a b
        = A0.entry a b := by
    intro a b ha hb
    rw [entry_mul]
    have hr : ((rfUpC ((List.range nE).map (fun _ => true))
        ((List.range Fb).map (fun _ => false))).transpose.mul A0).rows = nE := by
      rw [rows_mul, rows_transpose, hupC, cols_selUpL]
    have hcls : ((rfUpC ((List.range nE).map (fun _ => true))
        ((List.range Fb).map (fun _ => false))).transpose.mul A0).cols = nV := by
      rw [cols_mul, h0c]
    have hc2c : ((c2rOf ((List.range nV).map (fun _ => true))
        ((List.range n4).map (fun _ => false))).transpose).cols = nV := by
      rw [cols_transpose, hc2r, rows_selDownL]
    rw [hr, hc2c, if_pos ⟨ha, hb⟩, hcls]
    rw [isum_eq_single nV b _ hb
      (fun k hk hkb => by rw [hc2rT k b, if_neg (fun h => hkb h.2.2), mul_zero])]
    rw [hc2rT b b, if_pos ⟨hb, hb, rfl⟩, mul_one, hM1 a b ha hb]
  have hr12 : ((((rfUpC ((List.range nE).map (fun _ => true))
        ((List.range Fb).map (fun _ => false))).transpose.mul A0).mul
      (c2rOf ((List.range nV).map (fun _ => true))
        ((List.range n4).map (fun _ => false))).transpose).add
    ((((rfUpF ((List.range nE).map (fun _ => true))
        ((List.range Fb).map (fun _ => false))).transpose.mul A1).mul
      (f2rOf ((List.range nV).map (fun _ => true))
        ((List.range n4).map (fun _ => false))).transpose))).rows = nE := by
    rw [rows_add, rows_mul, rows_mul, rows_transpose, hupC, cols_selUpL]
  have hc12 : ((((rfUpC ((List.range nE).map (fun _ => true))
        ((List.range Fb).map (fun _ => false))).transpose.mul A0).mul
      (c2rOf ((List.range nV).map (fun _ => true))
        ((List.range n4).map (fun _ => false))).transpose).add
    ((((rfUpF ((List.range nE).map (fun _ => true))
        ((List.range Fb).map (fun _ => false))).transpose.mul A1).mul
      (f2rOf ((List.range nV).map (fun _ => true))
        ((List.range n4).map (fun _ => false))).transpose))).cols = nV := by
    rw [cols_add, cols_mul, cols_transpose, hc2r, rows_selDownL]
  have hT1r : ((((rfUpC ((List.range nE).map (fun _ => true))
        ((List.range Fb).map (fun _ => false))).transpose.mul A0).mul
      (c2rOf ((List.range nV).map (fun _ => true))
        ((List.range n4).map (fun _ => false))).transpose)).rows = nE := by
    rw [rows_mul, rows_mul, rows_transpose, hupC, cols_selUpL]
  have hT1c : ((((rfUpC ((List.range nE).map (fun _ => true))
        ((List.range Fb).map (fun _ => false))).transpose.mul A0).mul
      (c2rOf ((List.range nV).map (fun _ => true))
        ((List.range n4).map (fun _ => false))).transpose)).cols = nV := by
    rw [cols_mul, cols_transpose, hc2r, rows_selDownL]
  rw [entry_add, hr12, hc12, if_pos ⟨hi, hj⟩, hT3 i j, add_zero,
    entry_add, hT1r, hT1c, if_pos ⟨hi, hj⟩, hT2 i j, add_zero,
    hT1 i j hi hj]

theorem rows_cellFacesNew (a b c d : List Bool) (x y z : SpMat) :
    (cellFacesNew a b c d x y z).rows = csum c + csum d := rfl

theorem cols_cellFacesNew (a b c d : List Bool) (x y z : SpMat) :
    (cellFacesNew a b c d x y z).cols = csum a + csum b := rfl

theorem rows_faceNodesNew (a b c d : List Bool) (x y z : SpMat) :
    (faceNodesNew a b c d x y z).rows = csum c + csum d := rfl

theorem cols_faceNodesNew (a b c d : List Bool) (x y z : SpMat) :
    (faceNodesNew a b c d x y z).cols = csum a + csum b := rfl

theorem entry_cellFacesNew_all_coarse (nV n4 nE Fb : Nat) (A0 A1 P : SpMat)
    (h0c : A0.cols = nV) (i j : Nat) (hi : i < nE) (hj : j < nV) :
    (cellFacesNew ((List.range nV).map (fun _ => true))
        ((List.range n4).map (fun _ => false))
        ((List.range nE).map (fun _ => true))
        ((List.range Fb).map (fun _ => false)) A0 A1 P).entry i j
      = A0.entry i j := by
  rw [cellFacesNew]
  exact entry_merged_all_coarse nV n4 nE Fb A0 A1 P h0c i j hi hj

theorem entry_faceNodesNew_all_coarse (nV n4 nE Fb : Nat) (A0 A1 P : SpMat)
    (h0c : A0.cols = nV) (i j : Nat) (hi : i < nE) (hj : j < nV) :
    (faceNodesNew ((List.range nV).map (fun _ => true))
        ((List.range n4).map (fun _ => false))
        ((List.range nE).map (fun _ => true))
        ((List.range Fb).map (fun _ => false)) A0 A1 P).entry i j
      = A0.entry i j := by
  rw [faceNodesNew]
  exact entry_merged_all_coarse nV n4 nE Fb A0 A1 P h0c i j hi hj

theorem refineBody_cell_faces (s : LeafState) (level : Nat) (cc0 : List Bool)
    (stC stF stN : List SpMat) (PL pc pf pn : SpMat) (gL gL1 : CartGrid2D) :
    (refineBody s level cc0 stC stF stN PL pc pf pn gL gL1).cell_faces
      = cellFacesNew (cellsCOf PL cc0) (cellsFOf pc (cellsCOf PL cc0))
          (facesCOf pf (facesFOf gL1.cell_faces (cellsFOf pc (cellsCOf PL cc0))))
          (facesFOf gL1.cell_faces (cellsFOf pc (cellsCOf PL cc0)))
          gL.cell_faces gL1.cell_faces pf := rfl

theorem refineBody_face_nodes (s : LeafState) (level : Nat) (cc0 : List Bool)
    (stC stF stN : List SpMat) (PL pc pf pn : SpMat) (gL gL1 : CartGrid2D) :
    (refineBody s level cc0 stC stF stN PL pc pf pn gL gL1).face_nodes
      = faceNodesNew
          (facesCOf pf (facesFOf gL1.cell_faces (cellsFOf pc (cellsCOf PL cc0))))
          (facesFOf gL1.cell_faces (cellsFOf pc (cellsCOf PL cc0)))
          (nodesCOf pn (nodesFOf gL1.face_nodes
            (facesFOf gL1.cell_faces (cellsFOf pc (cellsCOf PL cc0)))))
          (nodesFOf gL1.face_nodes
            (facesFOf gL1.cell_faces (cellsFOf pc (cellsCOf PL cc0))))
          gL.face_nodes gL1.face_nodes pn := rfl

theorem refineBody_cell_centers (s : LeafState) (level : Nat) (cc0 : List Bool)
    (stC stF stN : List SpMat) (PL pc pf pn : SpMat) (gL gL1 : CartGrid2D) :
    (refineBody s level cc0 stC stF stN PL pc pf pn gL gL1).cell_centers
      = hstack2 (csum (cellsCOf PL cc0)) gL.cell_centers gL1.cell_centers
          (whereListB (cellsCOf PL cc0))
          (whereListB (cellsFOf pc (cellsCOf PL cc0))) := rfl

theorem refineBody_face_centers (s : LeafState) (level : Nat) (cc0 : List Bool)
    (stC stF stN : List SpMat) (PL pc pf pn : SpMat) (gL gL1 : CartGrid2D) :
    (refineBody s level cc0 stC stF stN PL pc pf pn gL gL1).face_centers
      = hstack2
          (csum (facesCOf pf (facesFOf gL1.cell_faces
            (cellsFOf pc (cellsCOf PL cc0)))))
          gL.face_centers gL1.face_centers
          (whereListB (facesCOf pf (facesFOf gL1.cell_faces
            (cellsFOf pc (cellsCOf PL cc0)))))
          (whereListB (facesFOf gL1.cell_faces
            (cellsFOf pc (cellsCOf PL cc0)))) := rfl

theorem refineBody_face_normals (s : LeafState) (level : Nat) (cc0 : List Bool)
    (stC stF stN : List SpMat) (PL pc pf pn : SpMat) (gL gL1 : CartGrid2D) :
    (refineBody s level cc0 stC stF stN PL pc pf pn gL gL1).face_normals
      = hstack2
          (csum (facesCOf pf (facesFOf gL1.cell_faces
            (cellsFOf pc (cellsCOf PL cc0)))))
          gL.face_normals gL1.face_normals
          (whereListB (facesCOf pf (facesFOf gL1.cell_faces
            (cellsFOf pc (cellsCOf PL cc0)))))
          (whereListB (facesFOf gL1.cell_faces
            (cellsFOf pc (cellsCOf PL cc0)))) := rfl

theorem refineBody_nodes (s : LeafState) (level : Nat) (cc0 : List Bool)
    (stC stF stN : List SpMat) (PL pc pf pn : SpMat) (gL gL1 : CartGrid2D) :
    (refineBody s level cc0 stC stF stN PL pc pf pn gL gL1).nodes
      = hstack2
          (csum (nodesCOf pn (nodesFOf gL1.face_nodes
            (facesFOf gL1.cell_faces (cellsFOf pc (cellsCOf PL cc0))))))
          gL.nodes gL1.nodes
          (whereListB (nodesCOf pn (nodesFOf gL1.face_nodes
            (facesFOf gL1.cell_faces (cellsFOf pc (cellsCOf PL cc0))))))
          (whereListB (nodesFOf gL1.face_nodes
            (facesFOf gL1.cell_faces (cellsFOf pc (cellsCOf PL cc0))))) := rfl

theorem refine_level_ok_build (s : LeafState) (level : Nat)
    (cells : CellsInput) (stC stF stN : List SpMat) (PL : SpMat)
    (gL gL1 : CartGrid2D)
    (hC : s.cell_projections = some stC) (hF : s.face_projections = some stF)
    (hN : s.node_projections = some stN) (hPL : stC.get? level = some PL)
    (hlen : level + 1 < s.level_grids.length)
    (hgL : s.level_grids.get? level = some gL)
    (hgL1 : s.level_grids.get? (level + 1) = some gL1) :
    refine_level s level cells = .ok (refineBody s level
      (onesAssignFalse s.num_cells cells) stC stF stN PL
      (cellProjCore (s.mesh_sizes.getD level (0, 0)))
      (faceProjCore (s.mesh_sizes.getD level (0, 0)))
      (nodeProjCore (s.mesh_sizes.getD level (0, 0))) gL gL1) := by
  have hgap : ¬(((level + 1 : Nat) : Int) - (level : Nat) ≠ 1) := by
    push_cast
    ring_nf
    simp
  have e1 : optErr s.cell_projections = .ok stC := by rw [hC]; rfl
  have e2 : optErr s.face_projections = .ok stF := by rw [hF]; rfl
  have e3 : optErr s.node_projections = .ok stN := by rw [hN]; rfl
  have e4 : listErr stC level = .ok PL := by rw [listErr, hPL]
  have e5 : s.cell_proj_level level (level + 1)
      = .ok (cellProjCore (s.mesh_sizes.getD level (0, 0))) := by
    rw [LeafState.cell_proj_level, if_neg hgap, if_pos hlen]
  have e6 : s.face_proj_level level (level + 1)
      = .ok (faceProjCore (s.mesh_sizes.getD level (0, 0))) := by
    rw [LeafState.face_proj_level, if_neg hgap, if_pos hlen]
  have e7 : s.node_proj_level level (level + 1)
      = .ok (nodeProjCore (s.mesh_sizes.getD level (0, 0))) := by
    rw [LeafState.node_proj_level, if_neg hgap, if_pos hlen]
  have e8 : listErr s.level_grids level = .ok gL := by rw [listErr, hgL]
  have e9 : listErr s.level_grids (level + 1) = .ok gL1 := by
    rw [listErr, hgL1]
  simp only [refine_level, e1, e2, e3, e4, e5, e6, e7, e8, e9, except_ok_bind]

/-!  ## Fresh-grid normalizations -/

theorem cartLeafGrid_level_grids_length (mx my levels : Nat) (phys : ℚ × ℚ) :
    (cartLeafGrid (mx, my) phys levels).level_grids.length = levels := by
  show ((((List.range levels).map (fun l => (mx * 2 ^ l, my * 2 ^ l))).map
      (fun m => cartGridOf m phys))).length = levels
  rw [List.length_map, List.length_map, List.length_range]

theorem cartLeafGrid_level_grids_getD (mx my levels : Nat) (phys : ℚ × ℚ)
    (h : 0 < levels) (d : CartGrid2D) :
    (cartLeafGrid (mx, my) phys levels).level_grids.getD 0 d
      = cartGridOf (mx, my) phys := by
  show (((List.range levels).map (fun l => (mx * 2 ^ l, my * 2 ^ l))).map
      (fun m => cartGridOf m phys)).getD 0 d = cartGridOf (mx, my) phys
  rw [List.map_map, getD_range_map, if_pos h]
  show cartGridOf (mx * 2 ^ 0, my * 2 ^ 0) phys = cartGridOf (mx, my) phys
  rw [pow_zero, Nat.mul_one, Nat.mul_one]

theorem cartLeafGrid_level_grids_get? (mx my levels l : Nat) (phys : ℚ × ℚ)
    (h : l < levels) :
    (cartLeafGrid (mx, my) phys levels).level_grids.get? l
      = some (cartGridOf (mx * 2 ^ l, my * 2 ^ l) phys) := by
  show (((List.range levels).map (fun l2 => (mx * 2 ^ l2, my * 2 ^ l2))).map
      (fun m => cartGridOf m phys)).get? l = _
  rw [List.map_map, get?_range_map, if_pos h]
  rfl

theorem cartLeafGrid_mesh_getD (mx my levels : Nat) (phys : ℚ × ℚ)
    (h : 0 < levels) :
    (cartLeafGrid (mx, my) phys levels).mesh_sizes.getD 0 (0, 0) = (mx, my) := by
  show ((List.range levels).map (fun l => (mx * 2 ^ l, my * 2 ^ l))).getD 0 (0, 0)
      = (mx, my)
  rw [getD_range_map, if_pos h]
  show (mx * 2 ^ 0, my * 2 ^ 0) = (mx, my)
  rw [pow_zero, Nat.mul_one, Nat.mul_one]

theorem onesAssignFalse_of_false_mask (n : Nat) (m : Nat → Bool)
    (h : ∀ i, m i = false) :
    onesAssignFalse n (.boolMask m) = (List.range n).map (fun _ => true) := by
  rw [onesAssignFalse]
  apply List.map_congr_left
  intro i _
  show (!(m i)) = true
  rw [h i]
  rfl

theorem length_doMatchN (mx my : Nat) :
    (doMatchN mx my).length = (2 * my + 1) * (2 * mx + 1) := by
  rw [doMatchN, length_flatMap_const (2 * my + 1) (2 * mx + 1)]
  intro j _
  simp

/-!  ## The six refinement vectors of an empty selection -/

theorem cellsC_allTrue (n : Nat) :
    cellsCOf (idMat n) ((List.range n).map (fun _ => true))
      = (List.range n).map (fun _ => true) := by
  apply list_eq_of_getB
  · rw [cellsCOf, length_bvecMul, rows_transpose, length_range_map]
    rfl
  · intro i hi
    rw [getB_cellsC_idMat, getB_range_map]
    by_cases h : i < n <;> simp [h]

theorem cellsF_allFalse (mx my : Nat) :
    cellsFOf (cellProjCore (mx, my)) ((List.range (mx * my)).map (fun _ => true))
      = (List.range (4 * (mx * my))).map (fun _ => false) := by
  apply list_eq_of_getB
  · rw [cellsFOf, length_bvecMul, rows_transpose, length_range_map]
    rfl
  · intro k hk
    rw [getB_cellsF (mx, my) _ (by rw [length_range_map]) k]
    simp only [getB_range_map]
    by_cases hk4 : k < 4 * (mx * my)
    · have hpar : cellParent mx k < mx * my := cellParent_lt mx my k hk4
      simp [hk4, hpar]
    · simp [hk4]

theorem facesFOf_allFalse (A : SpMat) (n0 : Nat) :
    facesFOf A ((List.range n0).map (fun _ => false))
      = (List.range A.rows).map (fun _ => false) := by
  rw [facesFOf, bvecMul_all_false _ _ (fun j => by rw [getB_range_map]; simp)]
  rfl

theorem nodesFOf_allFalse (A : SpMat) (n0 : Nat) :
    nodesFOf A ((List.range n0).map (fun _ => false))
      = (List.range A.rows).map (fun _ => false) := by
  rw [nodesFOf, bvecMul_all_false _ _ (fun j => by rw [getB_range_map]; simp)]
  rfl

theorem facesC_allTrue (mx my Fb : Nat)
    (hFb : 2 * my * (2 * mx + 1) + (2 * my + 1) * (2 * mx) ≤ Fb) :
    facesCOf (faceProjCore (mx, my)) ((List.range Fb).map (fun _ => false))
      = (List.range (numFacesC mx my)).map (fun _ => true) := by
  rw [facesCOf]
  have hb : bnot ((List.range Fb).map (fun _ => false))
      = (List.range Fb).map (fun _ => true) := by
    rw [bnot, List.map_map]
    rfl
  rw [hb]
  have hnn : ∀ p q, 0 ≤ (faceProjCore (mx, my)).entry p q := by
    intro p q
    simp only [faceProjCore]
    rw [entry_cscOfMask]
    split <;> norm_num
  have hsur : ∀ p, p < (faceProjCore (mx, my)).rows →
      ∃ q, q < (faceProjCore (mx, my)).cols ∧
        (faceProjCore (mx, my)).entry p q = 1 ∧
        getB ((List.range Fb).map (fun _ => true)) q = true := by
    intro p hp
    have hp' : p < numFacesC mx my := hp
    obtain ⟨q, hq, he⟩ := faceProjCore_row_surj (mx, my) p hp'
    refine ⟨q, hq, he, ?_⟩
    have hc : (faceProjCore (mx, my)).cols
        = 2 * my * (2 * mx + 1) + (2 * my + 1) * (2 * mx) := by
      show (doMatchX mx my ++ doMatchY mx my).length = _
      rw [List.length_append, length_doMatchX, length_doMatchY]
    rw [hc] at hq
    rw [getB_range_map]
    simp [lt_of_lt_of_le hq hFb]
  rw [bvecMul_all_true_of_surj (faceProjCore (mx, my)) _ hnn hsur]
  rfl

theorem nodesC_allTrue (mx my Nb : Nat)
    (hNb : (2 * my + 1) * (2 * mx + 1) ≤ Nb) :
    nodesCOf (nodeProjCore (mx, my)) ((List.range Nb).map (fun _ => false))
      = (List.range ((mx + 1) * (my + 1))).map (fun _ => true) := by
  rw [nodesCOf]
  have hb : bnot ((List.range Nb).map (fun _ => false))
      = (List.range Nb).map (fun _ => true) := by
    rw [bnot, List.map_map]
    rfl
  rw [hb]
  have hnn : ∀ p q, 0 ≤ (nodeProjCore (mx, my)).entry p q := by
    intro p q
    simp only [nodeProjCore]
    rw [entry_cscOfMask]
    split <;> norm_num
  have hsur : ∀ p, p < (nodeProjCore (mx, my)).rows →
      ∃ q, q < (nodeProjCore (mx, my)).cols ∧
        (nodeProjCore (mx, my)).entry p q = 1 ∧
        getB ((List.range Nb).map (fun _ => true)) q = true := by
    intro p hp
    have hp' : p < (mx + 1) * (my + 1) := hp
    obtain ⟨q, hq, he⟩ := nodeProjCore_row_surj (mx, my) p hp'
    refine ⟨q, hq, he, ?_⟩
    have hc : (nodeProjCore (mx, my)).cols = (2 * my + 1) * (2 * mx + 1) := by
      show (doMatchN mx my).length = _
      rw [length_doMatchN]
    rw [hc] at hq
    rw [getB_range_map]
    simp [lt_of_lt_of_le hq hNb]
  rw [bvecMul_all_true_of_surj (nodeProjCore (mx, my)) _ hnn hsur]
  rfl

set_option maxHeartbeats 4000000 in
set_option maxRecDepth 100000 in
/-- C5 amended: per-cell nonzero counts of `cell_faces` after refining
cell 0: on the 2×1-base two-level grid the counts are `[5, 4, 4, 4, 4]`
and on the 2×2-base two-level grid they are `[5, 5, 4, 4, 4, 4, 4]` —
each fine cell and each coarse cell away from the refined region has 4,
and each coarse cell sharing a split face with the refined region has 5
(its intact coarse faces plus the two fine half-faces of the split
face). -/
theorem C5_amended_face_counts :
    (refine_cells (cartLeafGrid (2, 1) (1, 1) 2) (.indicesI [0])).map
      (fun s => (List.range s.num_cells).map (nnzCol s.cell_faces))
      = .ok [5, 4, 4, 4, 4] ∧
    (refine_cells (cartLeafGrid (2, 2) (1, 1) 2) (.indicesI [0])).map
      (fun s => (List.range s.num_cells).map (nnzCol s.cell_faces))
      = .ok [5, 5, 4, 4, 4, 4, 4] := by
  constructor
  · exact (except_map_pair _ _ _ _ _ scenario21_eval).1
  · have h1 : initIfNeeded (cartLeafGrid (2, 2) (1, 1) 2)
        = init_projection (cartLeafGrid (2, 2) (1, 1) 2) := by
      rw [initIfNeeded, if_pos]
      rfl
    have h2 : minCellLevel (init_projection (cartLeafGrid (2, 2) (1, 1) 2))
        = 0 := by
      show arrMin (init_projection (cartLeafGrid (2, 2) (1, 1) 2)).num_cells
          (fun _ => 0) = 0
      exact arrMin_const _ 0
    have hmesh : (init_projection
        (cartLeafGrid (2, 2) (1, 1) 2)).mesh_sizes.getD 0 (0, 0) = (2, 2) :=
      cartLeafGrid_mesh_getD 2 2 2 (1, 1) (by omega)
    have hok := refine_level_ok_build
      (init_projection (cartLeafGrid (2, 2) (1, 1) 2)) 0
      (.boolMask (loopMask
        (zerosAssignTrue
          (init_projection (cartLeafGrid (2, 2) (1, 1) 2)).num_cells
          (.indicesI [0]))
        (init_projection (cartLeafGrid (2, 2) (1, 1) 2)) 0))
      _ _ _ (idMat 4) (cartGridOf (2, 2) (1, 1)) (cartGridOf (4, 4) (1, 1))
      rfl rfl rfl
      (by
        rw [get?_range_map, if_pos
          (show 0 < (cartLeafGrid (2, 2) (1, 1) 2).level_grids.length by
            rw [cartLeafGrid_level_grids_length]; omega)]
        show some (idMat ((cartLeafGrid (2, 2) (1, 1) 2).level_grids.getD 0
            (cartGridOf (cartLeafGrid (2, 2) (1, 1) 2).nxBase
              (cartLeafGrid (2, 2) (1, 1) 2).physdims)).num_cells)
          = some (idMat 4)
        rw [cartLeafGrid_level_grids_getD 2 2 2 (1, 1) (by omega)]
        rfl)
      (by
        show 0 + 1 < (cartLeafGrid (2, 2) (1, 1) 2).level_grids.length
        rw [cartLeafGrid_level_grids_length]
        omega)
      (by
        show (cartLeafGrid (2, 2) (1, 1) 2).level_grids.get? 0
          = some (cartGridOf (2, 2) (1, 1))
        rw [cartLeafGrid_level_grids_get? 2 2 2 0 (1, 1) (by omega)]
        norm_num)
      (by
        show (cartLeafGrid (2, 2) (1, 1) 2).level_grids.get? (0 + 1)
          = some (cartGridOf (4, 4) (1, 1))
        rw [cartLeafGrid_level_grids_get? 2 2 2 (0 + 1) (1, 1) (by omega)]
        norm_num)
    rw [hmesh] at hok
    rw [refine_cells_eq, h1, h2, hok]
    simp only [Except.map]
    apply congrArg
    rw [refineBody_num_cells, refineBody_cell_faces, s22_cellsC, s22_cellsF,
      s22_facesF, s22_facesC, cellFacesNew, ffToC, s22_upCT, s22_upFT,
      s22_c2rT, s22_f2rT, s22_diag, s22_cf0, s22_cf1, s22_proj, s22_projT,
      s22_m1, s22_t1, s22_m2, s22_t2, s22_x0, s22_x1, s22_x2, s22_t3]
    rfl

/-- C6 amended: on a freshly constructed leaf grid with at least two
levels (so that the one `refine_level` pass performed by `refine_cells`
finds a finer grid), refining an empty cell selection succeeds and leaves
the composite topology (entity counts, `cell_faces`, `face_nodes`) and
geometry (`cell_centers`, `face_centers`, `face_normals`, `nodes`)
unchanged.  (The unamended claim is refuted by `C6_counterexample`: with a
single level the same call raises an `IndexError`.) -/
theorem C6_amended_empty_refine_noop (mx my levels : Nat) (phys : ℚ × ℚ)
    (hmx : 0 < mx) (hmy : 0 < my) (hlev : 2 ≤ levels) :
    ∃ s', refine_cells (cartLeafGrid (mx, my) phys levels)
        (.boolMask (fun _ => false)) = .ok s'
      ∧ s'.num_cells = (cartLeafGrid (mx, my) phys levels).num_cells
      ∧ s'.num_faces = (cartLeafGrid (mx, my) phys levels).num_faces
      ∧ s'.num_nodes = (cartLeafGrid (mx, my) phys levels).num_nodes
      ∧ SpMat.ExtEq s'.cell_faces (cartLeafGrid (mx, my) phys levels).cell_faces
      ∧ SpMat.ExtEq s'.face_nodes (cartLeafGrid (mx, my) phys levels).face_nodes
      ∧ (∀ i, i < (cartLeafGrid (mx, my) phys levels).num_cells →
          s'.cell_centers i = (cartLeafGrid (mx, my) phys levels).cell_centers i)
      ∧ (∀ i, i < (cartLeafGrid (mx, my) phys levels).num_faces →
          s'.face_centers i = (cartLeafGrid (mx, my) phys levels).face_centers i
          ∧ s'.face_normals i = (cartLeafGrid (mx, my) phys levels).face_normals i)
      ∧ (∀ i, i < (cartLeafGrid (mx, my) phys levels).num_nodes →
          s'.nodes i = (cartLeafGrid (mx, my) phys levels).nodes i) := by
  have hinit : initIfNeeded (cartLeafGrid (mx, my) phys levels)
      = init_projection (cartLeafGrid (mx, my) phys levels) := by
    rw [initIfNeeded, if_pos]
    rfl
  have hminlvl : minCellLevel (init_projection (cartLeafGrid (mx, my) phys levels)) = 0 := by
    show arrMin (init_projection (cartLeafGrid (mx, my) phys levels)).num_cells
        (fun _ => 0) = 0
    exact arrMin_const _ 0
  have hnum1 : (init_projection (cartLeafGrid (mx, my) phys levels)).num_cells
      = mx * my := by
    show ((cartLeafGrid (mx, my) phys levels).level_grids.getD 0
        (cartGridOf (mx, my) phys)).num_cells = mx * my
    rw [cartLeafGrid_level_grids_getD mx my levels phys (by omega)]
    rfl
  have hM : ∀ i, loopMask
      (zerosAssignTrue (mx * my) (CellsInput.boolMask (fun _ => false)))
      (init_projection (cartLeafGrid (mx, my) phys levels)) 0 i = false := by
    intro i
    rw [loopMask]
    have href : getB (zerosAssignTrue (mx * my)
        (CellsInput.boolMask (fun _ => false))) i = false := by
      rw [zerosAssignTrue, getB_range_map]
      simp
    rw [href]
    show decide (0 < Nat.lor (if (false : Bool) = true then 1 else 0) 0) = false
    rfl
  have hmesh : (init_projection (cartLeafGrid (mx, my) phys levels)).mesh_sizes.getD
      0 (0, 0) = (mx, my) := cartLeafGrid_mesh_getD mx my levels phys (by omega)
  have hok := refine_level_ok_build
    (init_projection (cartLeafGrid (mx, my) phys levels)) 0
    (.boolMask (loopMask
      (zerosAssignTrue (mx * my) (CellsInput.boolMask (fun _ => false)))
      (init_projection (cartLeafGrid (mx, my) phys levels)) 0))
    _ _ _ (idMat (mx * my)) (cartGridOf (mx, my) phys)
    (cartGridOf (mx * 2, my * 2) phys)
    rfl rfl rfl
    (by
      rw [get?_range_map, if_pos (show 0 < (cartLeafGrid (mx, my) phys levels).level_grids.length by
        rw [cartLeafGrid_level_grids_length]; omega)]
      show some (idMat ((cartLeafGrid (mx, my) phys levels).level_grids.getD 0
          (cartGridOf (cartLeafGrid (mx, my) phys levels).nxBase
            (cartLeafGrid (mx, my) phys levels).physdims)).num_cells)
        = some (idMat (mx * my))
      rw [show (cartLeafGrid (mx, my) phys levels).nxBase = (mx, my) from rfl,
        show (cartLeafGrid (mx, my) phys levels).physdims = phys from rfl,
        cartLeafGrid_level_grids_getD mx my levels phys (by omega)]
      rfl)
    (by
      show 0 + 1 < (cartLeafGrid (mx, my) phys levels).level_grids.length
      rw [cartLeafGrid_level_grids_length]
      omega)
    (by
      show (cartLeafGrid (mx, my) phys levels).level_grids.get? 0
        = some (cartGridOf (mx, my) phys)
      rw [cartLeafGrid_level_grids_get? mx my levels 0 phys (by omega)]
      rw [pow_zero, Nat.mul_one, Nat.mul_one])
    (by
      show (cartLeafGrid (mx, my) phys levels).level_grids.get? (0 + 1)
        = some (cartGridOf (mx * 2, my * 2) phys)
      rw [cartLeafGrid_level_grids_get? mx my levels (0 + 1) phys (by omega)]
      norm_num)
  rw [hmesh, hnum1, onesAssignFalse_of_false_mask _ _ hM] at hok
  have e1 : cellsCOf (idMat (mx * my)) ((List.range (mx * my)).map (fun _ => true))
      = (List.range (mx * my)).map (fun _ => true) := cellsC_allTrue (mx * my)
  have e2 : cellsFOf (cellProjCore (mx, my))
      ((List.range (mx * my)).map (fun _ => true))
      = (List.range (4 * (mx * my))).map (fun _ => false) := cellsF_allFalse mx my
  have e3 : facesFOf (cartGridOf (mx * 2, my * 2) phys).cell_faces
      ((List.range (4 * (mx * my))).map (fun _ => false))
      = (List.range ((mx * 2 + 1) * (my * 2) + (mx * 2) * (my * 2 + 1))).map
          (fun _ => false) := facesFOf_allFalse _ _
  have e4 : facesCOf (faceProjCore (mx, my))
      ((List.range ((mx * 2 + 1) * (my * 2) + (mx * 2) * (my * 2 + 1))).map
        (fun _ => false))
      = (List.range (numFacesC mx my)).map (fun _ => true) :=
    facesC_allTrue mx my _ (le_of_eq (by ring))
  have e5 : nodesFOf (cartGridOf (mx * 2, my * 2) phys).face_nodes
      ((List.range ((mx * 2 + 1) * (my * 2) + (mx * 2) * (my * 2 + 1))).map
        (fun _ => false))
      = (List.range ((mx * 2 + 1) * (my * 2 + 1))).map (fun _ => false) :=
    nodesFOf_allFalse _ _
  have e6 : nodesCOf (nodeProjCore (mx, my))
      ((List.range ((mx * 2 + 1) * (my * 2 + 1))).map (fun _ => false))
      = (List.range ((mx + 1) * (my + 1))).map (fun _ => true) :=
    nodesC_allTrue mx my _ (le_of_eq (by ring))
  have c1 : csum ((List.range (mx * my)).map (fun _ => true)) = mx * my :=
    csum_all_true _ _ (fun _ _ => rfl)
  have c2 : csum ((List.range (4 * (mx * my))).map (fun _ => false)) = 0 :=
    csum_all_false _ _ (fun _ _ => rfl)
  have c3 : csum ((List.range (numFacesC mx my)).map (fun _ => true))
      = numFacesC mx my := csum_all_true _ _ (fun _ _ => rfl)
  have c4 : csum ((List.range ((mx * 2 + 1) * (my * 2) + (mx * 2) * (my * 2 + 1))).map
      (fun _ => false)) = 0 := csum_all_false _ _ (fun _ _ => rfl)
  have c5 : csum ((List.range ((mx + 1) * (my + 1))).map (fun _ => true))
      = (mx + 1) * (my + 1) := csum_all_true _ _ (fun _ _ => rfl)
  have c6 : csum ((List.range ((mx * 2 + 1) * (my * 2 + 1))).map (fun _ => false))
      = 0 := csum_all_false _ _ (fun _ _ => rfl)
  have hnum0 : (cartLeafGrid (mx, my) phys levels).num_cells = mx * my := by
    show ((cartLeafGrid (mx, my) phys levels).level_grids.getD 0
        (cartGridOf (mx, my) phys)).num_cells = mx * my
    rw [cartLeafGrid_level_grids_getD mx my levels phys (by omega)]
    rfl
  have hnumF0 : (cartLeafGrid (mx, my) phys levels).num_faces = numFacesC mx my := by
    show ((cartLeafGrid (mx, my) phys levels).level_grids.getD 0
        (cartGridOf (mx, my) phys)).num_faces = numFacesC mx my
    rw [cartLeafGrid_level_grids_getD mx my levels phys (by omega)]
    rfl
  have hnumN0 : (cartLeafGrid (mx, my) phys levels).num_nodes
      = (mx + 1) * (my + 1) := by
    show ((cartLeafGrid (mx, my) phys levels).level_grids.getD 0
        (cartGridOf (mx, my) phys)).num_nodes = (mx + 1) * (my + 1)
    rw [cartLeafGrid_level_grids_getD mx my levels phys (by omega)]
    rfl
  have hcf0 : (cartLeafGrid (mx, my) phys levels).cell_faces
      = (cartGridOf (mx, my) phys).cell_faces := by
    show ((cartLeafGrid (mx, my) phys levels).level_grids.getD 0
        (cartGridOf (mx, my) phys)).cell_faces = _
    rw [cartLeafGrid_level_grids_getD mx my levels phys (by omega)]
  have hfn0 : (cartLeafGrid (mx, my) phys levels).face_nodes
      = (cartGridOf (mx, my) phys).face_nodes := by
    show ((cartLeafGrid (mx, my) phys levels).level_grids.getD 0
        (cartGridOf (mx, my) phys)).face_nodes = _
    rw [cartLeafGrid_level_grids_getD mx my levels phys (by omega)]
  have hccfun : (cartLeafGrid (mx, my) phys levels).cell_centers
      = (cartGridOf (mx, my) phys).cell_centers := by
    show ((cartLeafGrid (mx, my) phys levels).level_grids.getD 0
        (cartGridOf (mx, my) phys)).cell_centers = _
    rw [cartLeafGrid_level_grids_getD mx my levels phys (by omega)]
  have hfcfun : (cartLeafGrid (mx, my) phys levels).face_centers
      = (cartGridOf (mx, my) phys).face_centers := by
    show ((cartLeafGrid (mx, my) phys levels).level_grids.getD 0
        (cartGridOf (mx, my) phys)).face_centers = _
    rw [cartLeafGrid_level_grids_getD mx my levels phys (by omega)]
  have hfnfun : (cartLeafGrid (mx, my) phys levels).face_normals
      = (cartGridOf (mx, my) phys).face_normals := by
    show ((cartLeafGrid (mx, my) phys levels).level_grids.getD 0
        (cartGridOf (mx, my) phys)).face_normals = _
    rw [cartLeafGrid_level_grids_getD mx my levels phys (by omega)]
  have hndfun : (cartLeafGrid (mx, my) phys levels).nodes
      = (cartGridOf (mx, my) phys).nodes := by
    show ((cartLeafGrid (mx, my) phys levels).level_grids.getD 0
        (cartGridOf (mx, my) phys)).nodes = _
    rw [cartLeafGrid_level_grids_getD mx my levels phys (by omega)]
  rw [refine_cells_eq, hinit, hminlvl, hnum1]
  refine ⟨_, hok, ?_, ?_, ?_, ⟨?_, ?_, ?_⟩, ⟨?_, ?_, ?_⟩, ?_, ?_, ?_⟩
  · rw [refineBody_num_cells, e1, e2, c1, c2, hnum0]
    rfl
  · rw [refineBody_num_faces, e1, e2, e3, e4, c3, c4, hnumF0]
    rfl
  · rw [refineBody_num_nodes, e1, e2, e3, e5, e6, c5, c6, hnumN0]
    rfl
  · rw [refineBody_cell_faces, e1, e2, e3, e4, rows_cellFacesNew, c3, c4,
      hcf0]
    rfl
  · rw [refineBody_cell_faces, e1, e2, e3, e4, cols_cellFacesNew, c1, c2,
      hcf0]
    rfl
  · intro i hi j hj
    rw [refineBody_cell_faces, e1, e2, e3, e4, rows_cellFacesNew, c3, c4] at hi
    rw [refineBody_cell_faces, e1, e2, e3, e4, cols_cellFacesNew, c1, c2] at hj
    rw [refineBody_cell_faces, e1, e2, e3, e4, hcf0]
    exact entry_cellFacesNew_all_coarse (mx * my) (4 * (mx * my))
      (numFacesC mx my) ((mx * 2 + 1) * (my * 2) + (mx * 2) * (my * 2 + 1))
      ((cartGridOf (mx, my) phys).cell_faces)
      ((cartGridOf (mx * 2, my * 2) phys).cell_faces)
      (faceProjCore (mx, my)) rfl i j (by omega) (by omega)
  · rw [refineBody_face_nodes, e1, e2, e3, e4, e5, e6, rows_faceNodesNew,
      c5, c6, hfn0]
    rfl
  · rw [refineBody_face_nodes, e1, e2, e3, e4, e5, e6, cols_faceNodesNew,
      c3, c4, hfn0]
    rfl
  · intro i hi j hj
    rw [refineBody_face_nodes, e1, e2, e3, e4, e5, e6, rows_faceNodesNew,
      c5, c6] at hi
    rw [refineBody_face_nodes, e1, e2, e3, e4, e5, e6, cols_faceNodesNew,
      c3, c4] at hj
    rw [refineBody_face_nodes, e1, e2, e3, e4, e5, e6, hfn0]
    exact entry_faceNodesNew_all_coarse (numFacesC mx my)
      ((mx * 2 + 1) * (my * 2) + (mx * 2) * (my * 2 + 1))
      ((mx + 1) * (my + 1)) ((mx * 2 + 1) * (my * 2 + 1))
      ((cartGridOf (mx, my) phys).face_nodes)
      ((cartGridOf (mx * 2, my * 2) phys).face_nodes)
      (nodeProjCore (mx, my)) rfl i j (by omega) (by omega)
  · intro i hi
    rw [hnum0] at hi
    rw [refineBody_cell_centers, e1, e2]
    simp only [hstack2]
    rw [c1, if_pos hi, whereListB_all_true (mx * my) _ (fun _ _ => rfl),
      getD_range_lt (mx * my) i 0 hi, hccfun]
  · intro i hi
    rw [hnumF0] at hi
    constructor
    · rw [refineBody_face_centers, e1, e2, e3, e4]
      simp only [hstack2]
      rw [c3, if_pos hi, whereListB_all_true (numFacesC mx my) _ (fun _ _ => rfl),
        getD_range_lt (numFacesC mx my) i 0 hi, hfcfun]
    · rw [refineBody_face_normals, e1, e2, e3, e4]
      simp only [hstack2]
      rw [c3, if_pos hi, whereListB_all_true (numFacesC mx my) _ (fun _ _ => rfl),
        getD_range_lt (numFacesC mx my) i 0 hi, hfnfun]
  · intro i hi
    rw [hnumN0] at hi
    rw [refineBody_nodes, e1, e2, e3, e5, e6]
    simp only [hstack2]
    rw [c5, if_pos hi, whereListB_all_true ((mx + 1) * (my + 1)) _ (fun _ _ => rfl),
      getD_range_lt ((mx + 1) * (my + 1)) i 0 hi, hndfun]

/-- C6 amended witness: the no-op at the concrete 1×1-base two-level
grid. -/
theorem C6_amended_witness :
    ∃ s', refine_cells (cartLeafGrid (1, 1) (1, 1) 2)
        (.boolMask (fun _ => false)) = .ok s'
      ∧ s'.num_cells = (cartLeafGrid (1, 1) (1, 1) 2).num_cells
      ∧ s'.num_faces = (cartLeafGrid (1, 1) (1, 1) 2).num_faces
      ∧ s'.num_nodes = (cartLeafGrid (1, 1) (1, 1) 2).num_nodes :=
  (C6_amended_empty_refine_noop 1 1 2 (1, 1) (by decide) (by decide)
    (by decide)).elim
    (fun s' hs' => ⟨s', hs'.1, hs'.2.1, hs'.2.2.1, hs'.2.2.2.1⟩)
